import Mathlib

/-
  Verification development for the dynamic_pathfinding repository.

  Shallow embedding of the grid model, the pathfinding engines
  (A*, D* Lite, D* Lite Simple, the hybrid dispatcher), the agent and
  the simulation driver, translated from the Rust sources:
    src/grid.rs, src/agent.rs, src/algorithms/a_star.rs,
    src/algorithms/d_star_lite.rs, src/algorithms/d_star_lite_simple.rs,
    src/algorithms/hybrid_a_star_d_star.rs, src/simulation.rs.

  Conventions of the embedding:
  - Rust usize and i32 are modelled as Nat.  All the i32 quantities that
    appear (g, rhs, k_m, heuristics, keys) are non-negative in the source,
    with i32::MAX as the infinity sentinel; saturating_add is modelled
    explicitly by satAdd below, saturating at INF = 2147483647.
  - HashSet(Position) values are modelled as lists of positions with set
    semantics (membership, set equality, deduplicated size).  Where the
    source iterates over a hash set and the result is order independent,
    the embedding iterates over the list in order.
  - HashMap(Position, i32) score tables, which the source always reads
    through unwrap_or(i32::MAX), are modelled as association lists with
    at most one binding per key, absent keys reading as INF.
  - BinaryHeap((Key, Position)) is modelled as a list used as a multiset;
    peek and pop select the entry that is maximal for the derived Rust
    ordering on the pair (Key reversed, then Position), i.e. the entry of
    least key, ties broken by greatest position.  Distinct live entries
    never compare equal under that order, so this selection is exactly
    the observable behaviour of the Rust heap.
  - Loops are modelled by fuel recursion.  Where the source loop carries
    an explicit iteration cap the fuel is exactly that cap; where the
    source loop terminates structurally (path extraction, BFS) the fuel
    is a provable upper bound on the iteration count, so the embedding
    and the source agree on every input.
-/

namespace DynPath

/-- Position from src/grid.rs: a pair of usize coordinates. -/
structure Position where
  x : Nat
  y : Nat
deriving DecidableEq, Repr

/-- Cell from src/grid.rs. -/
inductive Cell where
  | Empty : Cell
  | Wall : Cell
  | Obstacle : Cell
deriving DecidableEq, Repr

/-- Grid from src/grid.rs: size, dense Vec(Vec(Cell)) field indexed
cells[x][y], immutable start and goal.  cellAt returns Empty on an
out-of-range index; the source would panic there, and every source
access is bounds-checked beforehand, so the default is never relied
upon. -/
structure Grid where
  size : Nat
  cells : List (List Cell)
  start : Position
  goal : Position
deriving DecidableEq, Repr

/-- The source indexing expression grid.cells[x][y]. -/
def cellAt (g : Grid) (p : Position) : Cell :=
  (g.cells.getD p.x []).getD p.y Cell.Empty

/-- The i32::MAX sentinel used by the source as infinity. -/
def INF : Nat := 2147483647

/-- i32 saturating_add on the non-negative values the source uses. -/
def satAdd (a b : Nat) : Nat := min (a + b) INF

/-- Manhattan distance, the heuristic used throughout the source. -/
def manhattan (a b : Position) : Nat :=
  (max a.x b.x - min a.x b.x) + (max a.y b.y - min a.y b.y)

/-- Grid::get_neighbors: the 4-connected in-bounds neighbors, in the
fixed source order (0,1), (0,-1), (1,0), (-1,0), excluding Wall cells. -/
def getNeighbors (g : Grid) (p : Position) : List Position :=
  let cand : List (Option Position) :=
    [ if p.x < g.size ∧ p.y + 1 < g.size then some ⟨p.x, p.y + 1⟩ else none,
      if p.x < g.size ∧ 1 ≤ p.y ∧ p.y - 1 < g.size then some ⟨p.x, p.y - 1⟩ else none,
      if p.x + 1 < g.size ∧ p.y < g.size then some ⟨p.x + 1, p.y⟩ else none,
      if 1 ≤ p.x ∧ p.x - 1 < g.size ∧ p.y < g.size then some ⟨p.x - 1, p.y⟩ else none ]
  (cand.reduceOption).filter (fun q => cellAt g q ≠ Cell.Wall)

/-- Membership test mirroring HashSet::contains. -/
def hsContains (l : List Position) (p : Position) : Bool := p ∈ l

/-- HashSet::len on the list model: number of distinct elements. -/
def hsLen (l : List Position) : Nat := l.dedup.length

/-- HashSet equality on the list model: same set of elements. -/
def hsEq (a b : List Position) : Bool :=
  (a.all (fun p => p ∈ b)) && (b.all (fun p => p ∈ a))

/-- HashSet::insert on the list model (no duplicate introduced). -/
def hsInsert (l : List Position) (p : Position) : List Position :=
  if p ∈ l then l else p :: l

/-! ## D* Lite (src/algorithms/d_star_lite.rs)

The priority key.  The Rust Ord instance on Key is REVERSED (so that the
std max-heap behaves as a min-heap); consequently every source-level
comparison a < b or a >= b between keys is, numerically, a comparison in
the opposite direction.  keyNumLt below is the numeric lexicographic
order; keyRustLt is the order the source operators actually use. -/

structure Key where
  k1 : Nat
  k2 : Nat
deriving DecidableEq, Repr

/-- Numeric lexicographic strict order on keys. -/
def keyNumLt (a b : Key) : Bool :=
  a.k1 < b.k1 || (a.k1 == b.k1 && a.k2 < b.k2)

/-- The strict order computed by the source operator a < b on Key values
(reversed Ord instance): numerically it is keyNumLt b a. -/
def keyRustLt (a b : Key) : Bool := keyNumLt b a

/-- Derived Position order (x, then y), used by the heap to order the
second tuple component. -/
def posLtB (a b : Position) : Bool :=
  a.x < b.x || (a.x == b.x && a.y < b.y)

/-- Heap-top preference between two entries of BinaryHeap((Key, Position)):
the max for the derived order on the pair, i.e. numerically least key,
ties broken by greatest position. -/
def entryPrefer (a b : Key × Position) : Bool :=
  keyNumLt a.1 b.1 || (a.1 == b.1 && posLtB b.2 a.2)

/-- BinaryHeap::peek on the list model: the entry the Rust heap exposes. -/
def qTop : List (Key × Position) → Option (Key × Position)
  | [] => none
  | e :: es =>
    match qTop es with
    | none => some e
    | some f => if entryPrefer f e then some f else some e

/-- Remove one occurrence of an entry (the popped one). -/
def qRemoveOne (e : Key × Position) : List (Key × Position) → List (Key × Position)
  | [] => []
  | f :: fs => if f = e then fs else f :: qRemoveOne e fs

/-- HashMap(Position, i32) model: an association list with at most one
binding per position; absent keys read as INF, matching the source
pattern unwrap_or(i32::MAX). -/
abbrev ScoreTbl : Type := List (Position × Nat)

/-- HashMap lookup through unwrap_or(i32::MAX). -/
def tblGet (t : ScoreTbl) (p : Position) : Nat :=
  match t.find? (fun e => e.1 = p) with
  | some e => e.2
  | none => INF

/-- HashMap::insert (replace the binding if present). -/
def tblPut : ScoreTbl → Position → Nat → ScoreTbl
  | [], p, v => [(p, v)]
  | e :: es, p, v => if e.1 = p then (p, v) :: es else e :: tblPut es p v

/-- HashMap(Position, u64) model for the lazy-deletion generation table. -/
abbrev HashTbl : Type := List (Position × Nat)

/-- Generation table lookup. -/
def hashGet (t : HashTbl) (p : Position) : Option Nat :=
  (t.find? (fun e => e.1 = p)).map (fun e => e.2)

/-- Generation table insert. -/
def hashPut : HashTbl → Position → Nat → HashTbl
  | [], p, v => [(p, v)]
  | e :: es, p, v => if e.1 = p then (p, v) :: es else e :: hashPut es p v

/-- Generation table remove. -/
def hashDel (t : HashTbl) (p : Position) : HashTbl :=
  t.filter (fun e => e.1 ≠ p)

/-- The mutable state of struct DStarLite. -/
structure DState where
  g_scores : ScoreTbl
  rhs_scores : ScoreTbl
  queue : List (Key × Position)
  k_m : Nat
  start : Position
  goal : Position
  last_start : Position
  initial_computation_done : Bool
deriving DecidableEq, Repr

namespace DStarLite

/-- DStarLite::new. -/
def new (start goal : Position) : DState :=
  { g_scores := []
    rhs_scores := []
    queue := []
    k_m := 0
    start := start
    goal := goal
    last_start := start
    initial_computation_done := false }

/-- DStarLite::heuristic: Manhattan distance from pos to the current start. -/
def heuristic (st : DState) (pos : Position) : Nat := manhattan pos st.start

/-- DStarLite::calculate_key. -/
def calculate_key (st : DState) (pos : Position) : Key :=
  let g := tblGet st.g_scores pos
  let rhs := tblGet st.rhs_scores pos
  let minScore := min g rhs
  if minScore = INF then ⟨INF, INF⟩
  else ⟨satAdd (satAdd minScore (heuristic st pos)) st.k_m, minScore⟩

/-- DStarLite::get_edge_cost (the from argument is unused in the source). -/
def get_edge_cost (grid : Grid) (obstacles : List Position) (toPos : Position) : Nat :=
  if grid.size ≤ toPos.x ∨ grid.size ≤ toPos.y then INF
  else if toPos ∈ obstacles ∨ cellAt grid toPos = Cell.Wall then INF
  else 1

/-- DStarLite::update_vertex. -/
def update_vertex (grid : Grid) (obstacles : List Position) (st : DState) (pos : Position) :
    DState :=
  let st1 :=
    if pos ≠ st.goal then
      let minRhs := (getNeighbors grid pos).foldl
        (fun acc pred =>
          let gPred := tblGet st.g_scores pred
          let edgeCost := get_edge_cost grid obstacles pos
          if gPred ≠ INF ∧ edgeCost ≠ INF then min acc (satAdd gPred edgeCost) else acc)
        INF
      { st with rhs_scores := tblPut st.rhs_scores pos minRhs }
    else st
  let q1 := st1.queue.filter (fun e => e.2 ≠ pos)
  if tblGet st1.g_scores pos ≠ tblGet st1.rhs_scores pos then
    { st1 with queue := (calculate_key st1 pos, pos) :: q1 }
  else
    { st1 with queue := q1 }

/-- DStarLite::start_is_processed. -/
def start_is_processed (st : DState) : Bool := tblGet st.g_scores st.start ≠ INF

/-- DStarLite::start_is_consistent. -/
def start_is_consistent (st : DState) : Bool :=
  tblGet st.g_scores st.start ≠ INF ∧ tblGet st.rhs_scores st.start ≠ INF ∧
    tblGet st.g_scores st.start = tblGet st.rhs_scores st.start

/-- The stopping test at the head of the while loop of
DStarLite::compute_shortest_path: the queue is empty, or
should_continue is false (the source comparison top_key < start_key
uses the reversed Key Ord). -/
def loopDone (st : DState) : Bool :=
  if st.queue.isEmpty then true
  else
    let startKey := calculate_key st st.start
    match qTop st.queue with
    | none => true
    | some (topKey, _) =>
      !(keyRustLt topKey startKey || !(start_is_consistent st) || !(start_is_processed st))

/-- One iteration of the body of DStarLite::compute_shortest_path (run
only when loopDone is false, so the queue is non-empty). -/
def loopStep (grid : Grid) (obstacles : List Position) (st : DState) : DState :=
  match qTop st.queue with
  | none => st
  | some (topKey, topPos) =>
    let kOld := topKey
    let u := topPos
    let st1 := { st with queue := qRemoveOne (topKey, topPos) st.queue }
    let kNew := calculate_key st1 u
    if keyRustLt kOld kNew then
      { st1 with queue := (kNew, u) :: st1.queue }
    else
      let gU := tblGet st1.g_scores u
      let rhsU := tblGet st1.rhs_scores u
      if gU > rhsU then
        let st2 := { st1 with g_scores := tblPut st1.g_scores u rhsU }
        (getNeighbors grid u).foldl (update_vertex grid obstacles) st2
      else
        let st2 := { st1 with g_scores := tblPut st1.g_scores u INF }
        let st3 := update_vertex grid obstacles st2 u
        (getNeighbors grid u).foldl (update_vertex grid obstacles) st3

/-- One-iteration-per-fuel-unit embedding of the while loop of
DStarLite::compute_shortest_path; the source caps the loop at
grid.size * grid.size * 4 iterations, which is exactly the fuel
compute_shortest_path passes. -/
def computeLoop (grid : Grid) (obstacles : List Position) : Nat → DState → DState
  | 0, st => st
  | fuel + 1, st =>
    if loopDone st then st
    else computeLoop grid obstacles fuel (loopStep grid obstacles st)

/-- DStarLite::compute_shortest_path. -/
def compute_shortest_path (grid : Grid) (obstacles : List Position) (st : DState) : DState :=
  computeLoop grid obstacles (grid.size * grid.size * 4) st

/-- Iterator::min_by_key on a list: first element attaining the minimum. -/
def minByFirst (f : Position → Nat) (l : List Position) : Option Position :=
  l.foldl (fun acc x =>
    match acc with
    | none => some x
    | some b => if f x < f b then some x else acc) none

/-- DStarLite::find_alternative_path. -/
def find_alternative_path (grid : Grid) (obstacles : List Position) (st : DState)
    (current : Position) (visited : List Position) : Option Position :=
  minByFirst (fun pos => manhattan pos st.goal)
    ((getNeighbors grid current).filter
      (fun pos => get_edge_cost grid obstacles pos ≠ INF ∧ pos ∉ visited))

/-- The while loop of DStarLite::extract_path.  The source loop has no
iteration cap of its own but terminates structurally: every iteration
either returns or moves to a position not yet visited, and every visited
position is in bounds except possibly the first, so at most
grid.size^2 + 2 iterations ever run; the fuel passed by extract_path is
that bound, hence never the reason for a none result. -/
def extractLoop (grid : Grid) (obstacles : List Position) (st : DState) :
    Nat → Position → List Position → List Position → Option (List Position)
  | 0, _, _, _ => none
  | fuel + 1, current, visited, path =>
    if current = st.goal then some path
    else if current ∈ visited then none
    else
      let visited1 := current :: visited
      let nextStep := minByFirst
        (fun pos =>
          if tblGet st.g_scores pos = INF ∨ get_edge_cost grid obstacles pos = INF then INF
          else satAdd (tblGet st.g_scores pos) (manhattan pos st.goal))
        ((getNeighbors grid current).filter
          (fun pos => get_edge_cost grid obstacles pos ≠ INF ∧ pos ∉ visited1))
      match nextStep with
      | some nxt =>
        if tblGet st.g_scores nxt = INF then none
        else
          let path1 := path ++ [nxt]
          if grid.size * grid.size < path1.length then none
          else extractLoop grid obstacles st fuel nxt visited1 path1
      | none =>
        match find_alternative_path grid obstacles st current visited1 with
        | some alt => extractLoop grid obstacles st fuel alt visited1 (path ++ [alt])
        | none => none

/-- DStarLite::extract_path. -/
def extract_path (grid : Grid) (obstacles : List Position) (st : DState) :
    Option (List Position) :=
  if tblGet st.g_scores st.start = INF then none
  else extractLoop grid obstacles st (grid.size * grid.size + 2) st.start [] [st.start]

/-- DStarLite::check_obstacles_changed: true when the set is non-empty. -/
def check_obstacles_changed (obstacles : List Position) : Bool := !obstacles.isEmpty

/-- Deduplication keeping first occurrences, modelling the HashSet of
positions_to_update built by update_changed_obstacles. -/
def dedupKeepFirst (l : List Position) : List Position :=
  l.foldl (fun acc p => if p ∈ acc then acc else acc ++ [p]) []

/-- The set of positions DStarLite::update_changed_obstacles passes to
update_vertex: every current obstacle and its neighbors, plus the
current start and its neighbors. -/
def updateTargets (grid : Grid) (start : Position) (obstacles : List Position) :
    List Position :=
  dedupKeepFirst
    (obstacles.flatMap (fun o => o :: getNeighbors grid o) ++ start :: getNeighbors grid start)

/-- DStarLite::update_changed_obstacles. -/
def update_changed_obstacles (grid : Grid) (obstacles : List Position) (st : DState) :
    DState :=
  (updateTargets grid st.start obstacles).foldl (update_vertex grid obstacles) st

/-- The source initialization procedure (run once, guarded by the
initial_computation_done flag): set rhs(goal) = 0 and enqueue the goal. -/
def initStep (st : DState) : DState :=
  if !st.initial_computation_done then
    let st1 := { st with rhs_scores := tblPut st.rhs_scores st.goal 0 }
    { st1 with
      queue := (calculate_key st1 st1.goal, st1.goal) :: st1.queue
      initial_computation_done := true }
  else st

/-- The start-change prologue inside DStarLite::find_path: bump k_m by
the heuristic of last_start measured against the OLD start, shift
last_start and start, and update the new start vertex. -/
def startMovePrologue (grid : Grid) (obstacles : List Position) (st : DState)
    (start : Position) : DState :=
  let st1 :=
    if st.initial_computation_done then
      { st with k_m := satAdd st.k_m (heuristic st st.last_start) }
    else st
  let st2 := { st1 with last_start := st1.start, start := start }
  if st2.initial_computation_done then update_vertex grid obstacles st2 start else st2

/-- The state mutations DStarLite::find_path performs before calling
compute_shortest_path: goal-change reset, start-change prologue, the
once-only setup, and the obstacle-triggered vertex updates. -/
def prep_state (grid : Grid) (st0 : DState) (start goal : Position)
    (obstacles : List Position) : DState :=
  let stA := if st0.goal ≠ goal then new start goal else st0
  let stB := if stA.start ≠ start then startMovePrologue grid obstacles stA start else stA
  let stC := initStep stB
  if check_obstacles_changed obstacles then update_changed_obstacles grid obstacles stC
  else stC

/-- DStarLite::find_path: returns the optional path and the mutated state. -/
def find_path (grid : Grid) (st0 : DState) (start goal : Position)
    (obstacles : List Position) : Option (List Position) × DState :=
  let stE := compute_shortest_path grid obstacles (prep_state grid st0 start goal obstacles)
  (extract_path grid obstacles stE, stE)

end DStarLite

/-! ## A* engine (src/algorithms/a_star.rs)

AStar::find_path delegates the search to the astar function of the
external pathfinding crate, whose code is not part of this repository;
only the successor closure, the Manhattan heuristic and the goal test
are source code.  Modelled from the spec: the crate call is a classical
A* with uniform cost 1 and an admissible heuristic, deterministic for a
given successor-enumeration order, whose returned path length equals the
BFS shortest-path length (spec 4.2 and spec 8, Optimality).  The model
below is a deterministic breadth-first search over exactly the source
successor function, expanding successors in the source order. -/

/-- The successor closure passed to the crate by AStar::find_path:
neighbors that are not Walls and not in the obstacle set. -/
def astarSuccessors (grid : Grid) (obstacles : List Position) (p : Position) :
    List Position :=
  (getNeighbors grid p).filter (fun n => cellAt grid n ≠ Cell.Wall ∧ n ∉ obstacles)

/-- BFS worker for the A* model: dequeues from the front, marks visited
at enqueue time, records a parent for every enqueued node, stops when
the goal is dequeued.  At most one dequeue per fuel unit; since every
enqueued node is a distinct in-bounds position, size^2 + 2 fuel is never
exhausted before the queue empties or the goal is found. -/
def bfsLoop (grid : Grid) (obstacles : List Position) (goal : Position) :
    Nat → List Position → List (Position × Position) → List Position →
    Option (List (Position × Position))
  | 0, _, _, _ => none
  | _, [], _, _ => none
  | fuel + 1, c :: rest, parents, visited =>
    if c = goal then some parents
    else
      let fresh := (astarSuccessors grid obstacles c).filter (fun n => n ∉ visited)
      bfsLoop grid obstacles goal fuel (rest ++ fresh)
        (parents ++ fresh.map (fun n => (n, c))) (visited ++ fresh)

/-- Parent lookup in the BFS tree. -/
def lookupParent (parents : List (Position × Position)) (p : Position) : Option Position :=
  (parents.find? (fun e => e.1 = p)).map (fun e => e.2)

/-- Rebuild the node sequence start..goal from the BFS parent tree. -/
def rebuildPath (parents : List (Position × Position)) (start : Position) :
    Nat → Position → List Position → Option (List Position)
  | 0, _, _ => none
  | fuel + 1, cur, acc =>
    if cur = start then some (cur :: acc)
    else
      match lookupParent parents cur with
      | some par => rebuildPath parents start fuel par (cur :: acc)
      | none => none

/-- AStar::find_path (the engine is stateless). -/
def astar_find_path (grid : Grid) (start goal : Position) (obstacles : List Position) :
    Option (List Position) :=
  match bfsLoop grid obstacles goal (grid.size * grid.size + 2) [start] [] [start] with
  | none => none
  | some parents => rebuildPath parents start (grid.size * grid.size + 2) goal []

/-! ## D* Lite Simple (src/algorithms/d_star_lite_simple.rs) -/

/-- The persistent state of struct DStarLiteSimple. -/
structure SState where
  initialized : Bool
  s_start : Position
  s_goal : Position
  s_last : Position
  k_m : Nat
deriving DecidableEq, Repr

/-- A lazy-deletion heap entry of the simple engine. -/
structure SEntry where
  key : Key
  pos : Position
  hash_code : Nat
deriving DecidableEq, Repr

/-- The per-call search state local to DStarLiteSimple::find_path. -/
structure SSearch where
  open_queue : List SEntry
  gmap : ScoreTbl
  rhsmap : ScoreTbl
  queue_hash : HashTbl
  hash_counter : Nat
deriving DecidableEq, Repr

namespace SimpleDStar

/-- DStarLiteSimple::new. -/
def newState : SState :=
  { initialized := false, s_start := ⟨0, 0⟩, s_goal := ⟨0, 0⟩, s_last := ⟨0, 0⟩, k_m := 0 }

/-- The QueueEntry Ord of the source compares keys only, so the Rust
heap's choice among distinct entries with equal keys is unspecified;
the model resolves those ties deterministically by the insertion counter
(oldest entry first).  All other behaviour is forced by the source. -/
def sEntryPrefer (a b : SEntry) : Bool :=
  keyNumLt a.key b.key || (a.key == b.key && a.hash_code < b.hash_code)

/-- Heap top for the simple engine's open queue. -/
def sqTop : List SEntry → Option SEntry
  | [] => none
  | e :: es =>
    match sqTop es with
    | none => some e
    | some f => if sEntryPrefer f e then some f else some e

/-- Remove one occurrence of an entry. -/
def sqRemoveOne (e : SEntry) : List SEntry → List SEntry
  | [] => []
  | f :: fs => if f = e then fs else f :: sqRemoveOne e fs

/-- The cost closure of DStarLiteSimple::find_path. -/
def cost (grid : Grid) (obstacles : List Position) (b : Position) : Nat :=
  if grid.size ≤ b.x ∨ grid.size ≤ b.y then INF
  else if b ∈ obstacles ∨ cellAt grid b = Cell.Wall then INF
  else 1

/-- The get_g closure. -/
def get_g (s : SSearch) (pos : Position) : Nat := tblGet s.gmap pos

/-- The get_rhs closure: the goal reads as 0 regardless of the table. -/
def get_rhs (goal : Position) (s : SSearch) (pos : Position) : Nat :=
  if pos = goal then 0 else tblGet s.rhsmap pos

/-- The calculate_key closure. -/
def calcKey (start : Position) (pos : Position) (g rhs k_m : Nat) : Key :=
  let minVal := min g rhs
  if minVal = INF then ⟨INF, INF⟩
  else ⟨satAdd (satAdd minVal (manhattan pos start)) k_m, minVal⟩

/-- The insert closure: fresh generation counter, record it in
queue_hash, push the entry with the key of the current cell data. -/
def insertEntry (start goal : Position) (k_m : Nat) (s : SSearch) (pos : Position) :
    SSearch :=
  let g := get_g s pos
  let rhs := get_rhs goal s pos
  let key := calcKey start pos g rhs k_m
  let hc := s.hash_counter + 1
  { s with
    hash_counter := hc
    queue_hash := hashPut s.queue_hash pos hc
    open_queue := ⟨key, pos, hc⟩ :: s.open_queue }

/-- The lazy-deletion pop: discard entries whose generation does not
match queue_hash until a valid one is found (none empties the heap and
exits the outer loop).  Each step removes one entry, so the fuel
open_queue.length + 1 is never the deciding factor. -/
def popValid : Nat → SSearch → Option SEntry × SSearch
  | 0, s => (none, s)
  | fuel + 1, s =>
    match sqTop s.open_queue with
    | none => (none, s)
    | some e =>
      let s1 := { s with open_queue := sqRemoveOne e s.open_queue }
      if hashGet s.queue_hash e.pos = some e.hash_code then
        (some e, { s1 with queue_hash := hashDel s1.queue_hash e.pos })
      else
        popValid fuel s1

/-- The recompute-rhs-and-requeue block the source runs for each touched
vertex (both branches of the main loop share it verbatim). -/
def touchVertex (grid : Grid) (obstacles : List Position) (start goal : Position)
    (k_m : Nat) (s : SSearch) (vertex : Position) : SSearch :=
  if vertex = goal then s
  else
    let minRhs := (getNeighbors grid vertex).foldl
      (fun acc succ =>
        let edgeCost := cost grid obstacles succ
        let gSucc := get_g s succ
        if edgeCost ≠ INF ∧ gSucc ≠ INF then min acc (satAdd edgeCost gSucc) else acc)
      INF
    let s1 := { s with rhsmap := tblPut s.rhsmap vertex minRhs }
    let vG := get_g s1 vertex
    let vRhs := get_rhs goal s1 vertex
    let s2 := { s1 with queue_hash := hashDel s1.queue_hash vertex }
    if vG ≠ vRhs then insertEntry start goal k_m s2 vertex else s2

/-- The stopping test of the main loop of DStarLiteSimple::find_path:
the open queue is empty or the fixed termination condition holds
(source comparison top.key >= start_key under the reversed Key Ord). -/
def sDone (start goal : Position) (k_m : Nat) (s : SSearch) : Bool :=
  if s.open_queue.isEmpty then true
  else
    let startG := get_g s start
    let startRhs := get_rhs goal s start
    let startKey := calcKey start start startG startRhs k_m
    match sqTop s.open_queue with
    | some top => !(keyRustLt top.key startKey) && startRhs == startG && !(startG == INF)
    | none => false

/-- One iteration of the body of the main loop of
DStarLiteSimple::find_path; the Bool is true when the lazy-deletion pop
drained the heap, which exits the outer loop. -/
def sStep (grid : Grid) (obstacles : List Position) (start goal : Position)
    (k_m : Nat) (s : SSearch) : SSearch × Bool :=
  match popValid (s.open_queue.length + 1) s with
  | (none, s1) => (s1, true)
  | (some u, s1) =>
    let uG := get_g s1 u.pos
    let uRhs := get_rhs goal s1 u.pos
    let uKeyNew := calcKey start u.pos uG uRhs k_m
    if keyRustLt u.key uKeyNew then
      (insertEntry start goal k_m s1 u.pos, false)
    else if uRhs < uG then
      let s2 := { s1 with gmap := tblPut s1.gmap u.pos uRhs }
      ((getNeighbors grid u.pos).foldl (touchVertex grid obstacles start goal k_m) s2, false)
    else
      let s2 := { s1 with gmap := tblPut s1.gmap u.pos INF }
      (((getNeighbors grid u.pos) ++ [u.pos]).foldl
        (touchVertex grid obstacles start goal k_m) s2, false)

/-- One iteration per fuel unit of the main loop of
DStarLiteSimple::find_path; the source cap is 80000 iterations. -/
def mainLoop (grid : Grid) (obstacles : List Position) (start goal : Position)
    (k_m : Nat) : Nat → SSearch → SSearch
  | 0, s => s
  | fuel + 1, s =>
    if sDone start goal k_m s then s
    else
      let r := sStep grid obstacles start goal k_m s
      if r.2 then r.1 else mainLoop grid obstacles start goal k_m fuel r.1

/-- The greedy extraction loop of DStarLiteSimple::find_path.  Each
iteration returns or appends one cell, and an appended path longer than
size^2 returns none, so the fuel size^2 + 3 is never the deciding
factor. -/
def extractLoop (grid : Grid) (obstacles : List Position) (goal : Position)
    (s : SSearch) : Nat → Position → List Position → Option (List Position)
  | 0, _, _ => none
  | fuel + 1, current, path =>
    if current = goal then some path
    else
      let nxt := DStarLite.minByFirst
        (fun n =>
          let edgeCost := cost grid obstacles n
          let gN := get_g s n
          if edgeCost = INF ∨ gN = INF then INF else satAdd edgeCost gN)
        ((getNeighbors grid current).filter (fun n => cost grid obstacles n ≠ INF))
      match nxt with
      | some nextPos =>
        let path1 := path ++ [nextPos]
        if grid.size * grid.size < path1.length then none
        else extractLoop grid obstacles goal s fuel nextPos path1
      | none => none

/-- The prologue of DStarLiteSimple::find_path: initialization and
goal-change reset, or the k_m update on a start change. -/
def prologue (st0 : SState) (start goal : Position) : SState :=
  if !st0.initialized || st0.s_goal ≠ goal then
    { st0 with
      s_start := start, s_goal := goal, s_last := start, k_m := 0, initialized := true }
  else if st0.s_start ≠ start then
    { st0 with
      k_m := satAdd st0.k_m (manhattan st0.s_last start), s_start := start, s_last := start }
  else st0

/-- The fresh per-call search state of DStarLiteSimple::find_path after
seeding the goal: cell_data.insert(goal, g: MAX, rhs: 0), then
insert(goal). -/
def searchInit (start goal : Position) (k_m : Nat) : SSearch :=
  let s0 : SSearch :=
    { open_queue := []
      gmap := []
      rhsmap := []
      queue_hash := []
      hash_counter := 0 }
  let s1 := { s0 with rhsmap := tblPut s0.rhsmap goal 0 }
  insertEntry start goal k_m s1 goal

/-- The search phase of DStarLiteSimple::find_path (cap 80000). -/
def runSearch (grid : Grid) (obstacles : List Position) (start goal : Position)
    (k_m : Nat) : SSearch :=
  mainLoop grid obstacles start goal k_m 80000 (searchInit start goal k_m)

/-- DStarLiteSimple::find_path: the prologue mutates the persistent
state, the search itself is recomputed from scratch per call. -/
def find_path (grid : Grid) (st0 : SState) (start goal : Position)
    (obstacles : List Position) : Option (List Position) × SState :=
  let st := prologue st0 start goal
  let s3 := runSearch grid obstacles start goal st.k_m
  if get_g s3 start = INF then (none, st)
  else (extractLoop grid obstacles goal s3 (grid.size * grid.size + 3) start [start], st)

end SimpleDStar

/-! ## Hybrid dispatcher (src/algorithms/hybrid_a_star_d_star.rs) -/

/-- The absolute difference the source computes on the two set sizes. -/
def natAbsDiff (a b : Nat) : Nat := max a b - min a b

/-- The mutable state of struct HybridAStarDStar (the A* member is
stateless and carried implicitly). -/
structure HState where
  d_star_lite_simple : SState
  initial_path_found : Bool
  last_start : Position
  last_goal : Position
  last_obstacles : List Position
  a_star_usage_count : Nat
  d_star_usage_count : Nat
deriving DecidableEq, Repr

namespace Hybrid

/-- HybridAStarDStar::new. -/
def new (start goal : Position) : HState :=
  { d_star_lite_simple := SimpleDStar.newState
    initial_path_found := false
    last_start := start
    last_goal := goal
    last_obstacles := []
    a_star_usage_count := 0
    d_star_usage_count := 0 }

/-- HybridAStarDStar::should_use_astar. -/
def should_use_astar (st : HState) (start goal : Position) (obstacles : List Position) :
    Bool :=
  if !st.initial_path_found || st.last_goal ≠ goal then true
  else
    let startDistance := manhattan start st.last_start
    if 3 < startDistance then true
    else
      let obstaclesChanged := !(hsEq obstacles st.last_obstacles)
      obstaclesChanged && decide (5 < natAbsDiff (hsLen obstacles) (hsLen st.last_obstacles))

/-- HybridAStarDStar::find_path. -/
def find_path (grid : Grid) (st : HState) (start goal : Position)
    (obstacles : List Position) : Option (List Position) × HState :=
  if should_use_astar st start goal obstacles then
    let st1 := { st with a_star_usage_count := st.a_star_usage_count + 1 }
    match astar_find_path grid start goal obstacles with
    | some path =>
      (some path,
        { st1 with
          last_start := start, last_goal := goal, last_obstacles := obstacles,
          initial_path_found := true })
    | none => (none, st1)
  else
    let st1 := { st with d_star_usage_count := st.d_star_usage_count + 1 }
    let (result, dss) := SimpleDStar.find_path grid st1.d_star_lite_simple start goal obstacles
    let st2 :=
      { st1 with d_star_lite_simple := dss, last_start := start, last_obstacles := obstacles }
    match result with
    | some p => (some p, st2)
    | none =>
      let st3 := { st2 with a_star_usage_count := st2.a_star_usage_count + 1 }
      (astar_find_path grid start goal obstacles, st3)

end Hybrid

/-! ## Agent (src/agent.rs) -/

/-- The mutable state of struct Agent. -/
structure AgentState where
  position : Position
  known_obstacles : List Position
  current_path : Option (List Position)
  path_index : Nat
deriving DecidableEq, Repr

namespace Agent

/-- Agent::new. -/
def new (start : Position) : AgentState :=
  { position := start, known_obstacles := [], current_path := none, path_index := 0 }

/-- Agent::observe: insert every neighbor of the current position whose
ground-truth cell is an Obstacle into known_obstacles. -/
def observe (grid : Grid) (a : AgentState) : AgentState :=
  { a with
    known_obstacles := (getNeighbors grid a.position).foldl
      (fun acc n => if cellAt grid n = Cell.Obstacle then hsInsert acc n else acc)
      a.known_obstacles }

/-- Agent::set_path: store the path, reset the index, jump to path[0]. -/
def set_path (a : AgentState) (path : List Position) : AgentState :=
  let a1 := { a with current_path := some path, path_index := 0 }
  match path.head? with
  | some p => { a1 with position := p }
  | none => a1

/-- Agent::get_next_step. -/
def get_next_step (a : AgentState) : Option Position :=
  match a.current_path with
  | some path =>
    if a.path_index + 1 < path.length then some (path.getD (a.path_index + 1) ⟨0, 0⟩)
    else none
  | none => none

/-- Agent::move_to. -/
def move_to (a : AgentState) (p : Position) : AgentState :=
  { a with position := p, path_index := a.path_index + 1 }

/-- Agent::is_path_blocked. -/
def is_path_blocked (grid : Grid) (a : AgentState) : Bool :=
  match get_next_step a with
  | some next =>
    cellAt grid next = Cell.Obstacle ∨ cellAt grid next = Cell.Wall ∨
      next ∈ a.known_obstacles
  | none => false

/-- Agent::path_needs_recalculation: look at most 3 steps ahead. -/
def path_needs_recalculation (grid : Grid) (a : AgentState) : Bool :=
  match a.current_path with
  | some path =>
    let checkAhead := min 3 (path.length - (a.path_index + 1))
    (List.range checkAhead).any (fun j =>
      let i := j + 1
      if a.path_index + i < path.length then
        let pos := path.getD (a.path_index + i) ⟨0, 0⟩
        cellAt grid pos = Cell.Obstacle ∨ cellAt grid pos = Cell.Wall ∨
          pos ∈ a.known_obstacles
      else false)
  | none => true

/-- Agent::clear_path. -/
def clear_path (a : AgentState) : AgentState :=
  { a with current_path := none, path_index := 0 }

/-- Agent::is_at_goal. -/
def is_at_goal (a : AgentState) (goal : Position) : Bool := a.position = goal

end Agent

/-! ## Simulation driver (src/simulation.rs)

The driver is generic in the boxed pathfinding engine; an Engine value
packages the engine state with its find_path and update_environment
methods (the latter is the trait default no-op for all four source
engines, none of which overrides it). -/

/-- A boxed pathfinding engine: state plus trait methods. -/
structure Engine (σ : Type) where
  callFindPath : Grid → σ → Position → Position → List Position →
    Option (List Position) × σ
  callUpdateEnv : Grid → σ → List Position → σ

/-- The A* engine as a boxed engine (stateless). -/
def aStarEngine : Engine Unit :=
  { callFindPath := fun g _ s t o => (astar_find_path g s t o, ())
    callUpdateEnv := fun _ s _ => s }

/-- The D* Lite engine as a boxed engine. -/
def dStarEngine : Engine DState :=
  { callFindPath := fun g st s t o => DStarLite.find_path g st s t o
    callUpdateEnv := fun _ s _ => s }

/-- The D* Lite Simple engine as a boxed engine. -/
def simpleEngine : Engine SState :=
  { callFindPath := fun g st s t o => SimpleDStar.find_path g st s t o
    callUpdateEnv := fun _ s _ => s }

/-- The hybrid dispatcher as a boxed engine. -/
def hybridEngine : Engine HState :=
  { callFindPath := fun g st s t o => Hybrid.find_path g st s t o
    callUpdateEnv := fun _ s _ => s }

/-- The source assignment grid.cells[x][y] = v. -/
def writeCell (cells : List (List Cell)) (p : Position) (v : Cell) :
    List (List Cell) :=
  cells.set p.x ((cells.getD p.x []).set p.y v)

/-- Write one cell value at every position of a list (the source loops
over the positions of a group; the writes are independent). -/
def setCells (cells : List (List Cell)) (ps : List Position) (v : Cell) :
    List (List Cell) :=
  ps.foldl (fun cs q => writeCell cs q v) cells

/-- The mutable state of struct Simulation together with the local
variables of Simulation::run that persist across loop iterations. -/
structure SimState (σ : Type) where
  grid : Grid
  agent : AgentState
  algState : σ
  total_moves : Nat
  stuck_attempts : Nat
  active_obstacle_groups : List (List Position × Nat)
  cycles_since_last_obstacle : Nat
  current_obstacle_cycle : Nat
  obstacle_timeline : List (List Position)
  obstacle_cycle_interval : Nat
  obstacle_persistence_cycles : Nat
deriving DecidableEq, Repr

namespace Simulation

/-- Simulation::is_valid_obstacle_position. -/
def is_valid_obstacle_position {σ : Type} (st : SimState σ) (pos : Position) : Bool :=
  !(pos == st.grid.start) && !(pos == st.grid.goal) && !(pos == st.agent.position) &&
    (cellAt st.grid pos == Cell.Empty)

/-- Simulation::update_obstacles_from_timeline (which internally calls
place_obstacle_group_from_timeline): returns the new state and whether
obstacles changed. -/
def update_obstacles_from_timeline {σ : Type} (st0 : SimState σ) : SimState σ × Bool :=
  let stA : SimState σ :=
    { st0 with cycles_since_last_obstacle := st0.cycles_since_last_obstacle + 1 }
  let groupsDec := stA.active_obstacle_groups.map (fun g => (g.1, g.2 - 1))
  let expired := groupsDec.filter (fun g => g.2 = 0)
  let changed1 := !expired.isEmpty
  let cells1 := expired.foldl (fun cs g => setCells cs g.1 Cell.Empty) stA.grid.cells
  let st : SimState σ :=
    { stA with
      grid := { stA.grid with cells := cells1 }
      active_obstacle_groups := groupsDec.filter (fun g => g.2 ≠ 0) }
  if st.obstacle_cycle_interval ≤ st.cycles_since_last_obstacle then
    if st.current_obstacle_cycle < st.obstacle_timeline.length then
      let groupPositions := st.obstacle_timeline.getD st.current_obstacle_cycle []
      let valid := groupPositions.filter (fun p => is_valid_obstacle_position st p)
      let placed := !valid.isEmpty
      let st :=
        { st with
          grid := { st.grid with cells := setCells st.grid.cells valid Cell.Obstacle }
          active_obstacle_groups :=
            if placed then
              st.active_obstacle_groups ++ [(valid, st.obstacle_persistence_cycles)]
            else st.active_obstacle_groups
          current_obstacle_cycle := st.current_obstacle_cycle + 1
          cycles_since_last_obstacle := 0 }
      (st, placed || changed1)
    else ({ st with cycles_since_last_obstacle := 0 }, changed1)
  else (st, changed1)

/-- Outcome of one iteration of the main loop of Simulation::run. -/
inductive TickResult (σ : Type) where
  | cont : SimState σ → TickResult σ
  | halt : SimState σ → TickResult σ
deriving DecidableEq, Repr

/-- The sensing prefix of one loop iteration of Simulation::run: the
obstacle-timeline advance followed by Agent::observe; returns the
updated state and the obstacles_changed flag. -/
def tickSense {σ : Type} (st0 : SimState σ) : SimState σ × Bool :=
  let stepA := update_obstacles_from_timeline st0
  let st : SimState σ := { stepA.1 with agent := Agent.observe stepA.1.grid stepA.1.agent }
  (st, stepA.2)

/-- The replan decision of one loop iteration of Simulation::run,
evaluated on the post-sense state. -/
def needsRecalc {σ : Type} (st : SimState σ) (obstaclesChanged : Bool) : Bool :=
  Agent.path_needs_recalculation st.grid st.agent ||
    Agent.is_path_blocked st.grid st.agent || obstaclesChanged

/-- The replan-or-wait phase of one loop iteration of Simulation::run:
returns the updated state and true when the run must abort (stuck for
more than MAX_STUCK_ATTEMPTS = 5 consecutive failed replans). -/
def tickReplan {σ : Type} (eng : Engine σ) (st : SimState σ) (obstaclesChanged : Bool) :
    SimState σ × Bool :=
  if needsRecalc st obstaclesChanged then
    let algSt1 := eng.callUpdateEnv st.grid st.algState st.agent.known_obstacles
    let r := eng.callFindPath st.grid algSt1 st.agent.position st.grid.goal
      st.agent.known_obstacles
    let st1 : SimState σ := { st with algState := r.2 }
    match r.1 with
    | some path =>
      ({ st1 with agent := Agent.set_path st1.agent path, stuck_attempts := 0 }, false)
    | none =>
      let st2 : SimState σ := { st1 with stuck_attempts := st1.stuck_attempts + 1 }
      if st2.stuck_attempts ≤ 5 then
        ({ st2 with total_moves := st2.total_moves + 1 }, false)
      else (st2, true)
  else (st, false)

/-- The movement suffix of one loop iteration of Simulation::run. -/
def tickMove {σ : Type} (st : SimState σ) : TickResult σ :=
  if st.stuck_attempts = 0 then
    match Agent.get_next_step st.agent with
    | some next =>
      TickResult.cont
        { st with agent := Agent.move_to st.agent next, total_moves := st.total_moves + 1 }
    | none =>
      let st1 : SimState σ :=
        if st.agent.position ≠ st.grid.goal then { st with agent := Agent.clear_path st.agent }
        else st
      TickResult.halt st1
  else TickResult.cont st

/-- One iteration of the main loop of Simulation::run (the loop guard
itself is applied by runLoop). -/
def simTick {σ : Type} (eng : Engine σ) (st : SimState σ) : TickResult σ :=
  let sensed := tickSense st
  let stepB := tickReplan eng sensed.1 sensed.2
  if stepB.2 then TickResult.halt stepB.1
  else tickMove stepB.1

/-- The main loop of Simulation::run, capped at 4 * size^2 iterations by
the fuel runSim passes (exactly the source max_iterations). -/
def runLoop {σ : Type} (eng : Engine σ) : Nat → SimState σ → SimState σ
  | 0, st => st
  | fuel + 1, st =>
    if st.agent.position = st.grid.goal then st
    else
      match simTick eng st with
      | TickResult.halt st1 => st1
      | TickResult.cont st1 => runLoop eng fuel st1

/-- Simulation::clear_all_obstacles. -/
def clear_all_obstacles {σ : Type} (st : SimState σ) : SimState σ :=
  { st with
    grid :=
      { st.grid with
        cells := st.active_obstacle_groups.foldl
          (fun cs g => setCells cs g.1 Cell.Empty) st.grid.cells }
    active_obstacle_groups := [] }

/-- Simulation::run: initial find_path, the main loop, the final
obstacle cleanup.  The early return when no initial path exists skips
both the loop and the cleanup, as in the source. -/
def runSim {σ : Type} (eng : Engine σ) (st : SimState σ) : SimState σ :=
  let r := eng.callFindPath st.grid st.algState st.agent.position st.grid.goal
    st.agent.known_obstacles
  match r.1 with
  | some path =>
    clear_all_obstacles
      (runLoop eng (st.grid.size * st.grid.size * 4)
        { st with algState := r.2, agent := Agent.set_path st.agent path })
  | none => { st with algState := r.2 }

end Simulation

/-! ## Shared helper lemmas -/

/-- Chebyshev distance, the box metric of the spec's sensing model. -/
def chebyshev (a b : Position) : Nat :=
  max (max a.x b.x - min a.x b.x) (max a.y b.y - min a.y b.y)

/-- Unfolding the compute loop by one iteration. -/
theorem computeLoop_step (grid : Grid) (obs : List Position) (fuel : Nat) (st st' : DState)
    (h1 : DStarLite.loopDone st = false) (h2 : DStarLite.loopStep grid obs st = st') :
    DStarLite.computeLoop grid obs (fuel + 1) st = DStarLite.computeLoop grid obs fuel st' := by
  simp [DStarLite.computeLoop, h1, h2]

/-- The compute loop is inert on a state whose stopping test holds. -/
theorem computeLoop_done (grid : Grid) (obs : List Position) (fuel : Nat) (st : DState)
    (h : DStarLite.loopDone st = true) :
    DStarLite.computeLoop grid obs fuel st = st := by
  cases fuel <;> simp [DStarLite.computeLoop, h]

/-- The first component of DStarLite::find_path is the extraction of the
computed state of the prepared state. -/
theorem dstar_find_path_fst (grid : Grid) (st0 : DState) (start goal : Position)
    (obstacles : List Position) :
    (DStarLite.find_path grid st0 start goal obstacles).1
      = DStarLite.extract_path grid obstacles
          (DStarLite.compute_shortest_path grid obstacles
            (DStarLite.prep_state grid st0 start goal obstacles)) := rfl

/-- The second component of DStarLite::find_path is the computed state. -/
theorem dstar_find_path_snd (grid : Grid) (st0 : DState) (start goal : Position)
    (obstacles : List Position) :
    (DStarLite.find_path grid st0 start goal obstacles).2
      = DStarLite.compute_shortest_path grid obstacles
          (DStarLite.prep_state grid st0 start goal obstacles) := rfl

/-- compute_shortest_path is the fuelled loop at the source cap. -/
theorem csp_loop (grid : Grid) (obstacles : List Position) (st : DState) :
    DStarLite.compute_shortest_path grid obstacles st
      = DStarLite.computeLoop grid obstacles (grid.size * grid.size * 4) st := rfl

/-- Unfolding the simple engine's main loop by one iteration. -/
theorem mainLoop_step (grid : Grid) (obs : List Position) (start goal : Position)
    (k_m : Nat) (fuel : Nat) (s s' : SSearch)
    (h1 : SimpleDStar.sDone start goal k_m s = false)
    (h2 : SimpleDStar.sStep grid obs start goal k_m s = (s', false)) :
    SimpleDStar.mainLoop grid obs start goal k_m (fuel + 1) s
      = SimpleDStar.mainLoop grid obs start goal k_m fuel s' := by
  simp [SimpleDStar.mainLoop, h1, h2]

/-- The simple engine's main loop is inert on a stopped state. -/
theorem mainLoop_done (grid : Grid) (obs : List Position) (start goal : Position)
    (k_m : Nat) (fuel : Nat) (s : SSearch)
    (h : SimpleDStar.sDone start goal k_m s = true) :
    SimpleDStar.mainLoop grid obs start goal k_m fuel s = s := by
  cases fuel <;> simp [SimpleDStar.mainLoop, h]

/-- Membership in a hsInsert result. -/
theorem hsInsert_mem (l : List Position) (p q : Position) :
    q ∈ hsInsert l p ↔ q = p ∨ q ∈ l := by
  unfold hsInsert
  by_cases h : p ∈ l
  · simp only [if_pos h]
    constructor
    · exact fun hq => Or.inr hq
    · rintro (rfl | hq)
      · exact h
      · exact hq
  · simp only [if_neg h, List.mem_cons]

/-! ## C3: Agent::observe -/

/-- The accumulation fold of Agent::observe, characterized. -/
theorem observe_fold_mem (grid : Grid) (l : List Position) (acc : List Position)
    (q : Position) :
    q ∈ l.foldl
        (fun acc n => if cellAt grid n = Cell.Obstacle then hsInsert acc n else acc) acc
      ↔ q ∈ acc ∨ (q ∈ l ∧ cellAt grid q = Cell.Obstacle) := by
  induction l generalizing acc with
  | nil => simp
  | cons a as ih =>
    simp only [List.foldl_cons, ih]
    by_cases ha : cellAt grid a = Cell.Obstacle
    · simp only [if_pos ha, hsInsert_mem, List.mem_cons]
      constructor
      · rintro ((rfl | hq) | ⟨hq1, hq2⟩)
        · exact Or.inr ⟨Or.inl rfl, ha⟩
        · exact Or.inl hq
        · exact Or.inr ⟨Or.inr hq1, hq2⟩
      · rintro (hq | ⟨(rfl | hq1), hq2⟩)
        · exact Or.inl (Or.inr hq)
        · exact Or.inl (Or.inl rfl)
        · exact Or.inr ⟨hq1, hq2⟩
    · simp only [if_neg ha, List.mem_cons]
      constructor
      · rintro (hq | ⟨hq1, hq2⟩)
        · exact Or.inl hq
        · exact Or.inr ⟨Or.inr hq1, hq2⟩
      · rintro (hq | ⟨(rfl | hq1), hq2⟩)
        · exact Or.inl hq
        · exact absurd hq2 ha
        · exact Or.inr ⟨hq1, hq2⟩

/-- A 3x3 grid whose only obstacle sits diagonally at (1,1). -/
def c3GridA : Grid :=
  ⟨3, [[Cell.Empty, Cell.Empty, Cell.Empty],
       [Cell.Empty, Cell.Obstacle, Cell.Empty],
       [Cell.Empty, Cell.Empty, Cell.Empty]], ⟨0, 0⟩, ⟨2, 2⟩⟩

/-- A 3x3 grid with no obstacles at all. -/
def c3GridB : Grid :=
  ⟨3, [[Cell.Empty, Cell.Empty, Cell.Empty],
       [Cell.Empty, Cell.Empty, Cell.Empty],
       [Cell.Empty, Cell.Empty, Cell.Empty]], ⟨0, 0⟩, ⟨2, 2⟩⟩

/-- An agent at (2,2) that remembers an obstacle at (0,1) from earlier. -/
def c3Agent : AgentState :=
  { position := ⟨2, 2⟩, known_obstacles := [⟨0, 1⟩], current_path := none, path_index := 0 }

/-- C3 counterexample: after Agent::observe the known_obstacles set is
NOT the set of ground-truth obstacles in the sensing box around the
agent.  First conjunct: an Obstacle at Chebyshev distance 1 (inside the
box for every radius r of at least 1) is not picked up, because observe
only scans the four direct neighbors.  Second conjunct: a position
remembered from earlier ticks stays in the set even though its cell is
no longer an Obstacle and it lies outside the box of radius 1 around
the current position (Chebyshev distance 2). -/
theorem c3_counterexample :
    (cellAt c3GridA ⟨1, 1⟩ = Cell.Obstacle ∧ chebyshev ⟨1, 1⟩ ⟨0, 0⟩ = 1 ∧
      ⟨1, 1⟩ ∉ (Agent.observe c3GridA (Agent.new ⟨0, 0⟩)).known_obstacles) ∧
    (⟨0, 1⟩ ∈ (Agent.observe c3GridB c3Agent).known_obstacles ∧
      cellAt c3GridB ⟨0, 1⟩ ≠ Cell.Obstacle ∧ chebyshev ⟨0, 1⟩ ⟨2, 2⟩ = 2) := by
  decide

/-- C3 amended: Agent::observe adds to known_obstacles exactly those of
the four direct grid neighbors of the current position whose
ground-truth cell is an Obstacle; the set accumulates across calls and
nothing is ever removed, so positions observed earlier persist
regardless of the current view. -/
theorem c3_observe_accumulates (grid : Grid) (a : AgentState) (q : Position) :
    q ∈ (Agent.observe grid a).known_obstacles
      ↔ q ∈ a.known_obstacles ∨
        (q ∈ getNeighbors grid a.position ∧ cellAt grid q = Cell.Obstacle) := by
  unfold Agent.observe
  exact observe_fold_mem grid (getNeighbors grid a.position) a.known_obstacles q

/-! ## C4: the obstacle-change update phase of DStarLite::find_path -/

/-- The set of positions on which a DStarLite::find_path call invokes
update_vertex during its obstacle-update phase: the phase is gated by
check_obstacles_changed (current set non-empty) and then folds
update_vertex over updateTargets. -/
def findPathUpdateTargets (grid : Grid) (start : Position) (obstacles : List Position) :
    List Position :=
  if DStarLite.check_obstacles_changed obstacles then DStarLite.updateTargets grid start obstacles
  else []

/-- The update set the claim prescribes: every position that entered or
left the obstacle set since the previous call, and each neighbor of
each such position. -/
def c4ClaimTargets (grid : Grid) (prev cur : List Position) : List Position :=
  (prev.filter (fun p => p ∉ cur) ++ cur.filter (fun p => p ∉ prev)).flatMap
    (fun p => p :: getNeighbors grid p)

/-- Membership in dedupKeepFirst. -/
theorem dedupKeepFirst_mem (l : List Position) (q : Position) :
    q ∈ DStarLite.dedupKeepFirst l ↔ q ∈ l := by
  have general : ∀ (l acc : List Position),
      q ∈ l.foldl (fun acc p => if p ∈ acc then acc else acc ++ [p]) acc
        ↔ q ∈ acc ∨ q ∈ l := by
    intro l
    induction l with
    | nil => intro acc; simp
    | cons a as ih =>
      intro acc
      simp only [List.foldl_cons]
      by_cases ha : a ∈ acc
      · rw [if_pos ha, ih]
        constructor
        · rintro (h | h)
          · exact Or.inl h
          · exact Or.inr (List.mem_cons_of_mem a h)
        · rintro (h | h)
          · exact Or.inl h
          · rcases List.mem_cons.mp h with rfl | h
            · exact Or.inl ha
            · exact Or.inr h
      · rw [if_neg ha, ih]
        simp only [List.mem_append, List.mem_singleton, List.mem_cons]
        tauto
  unfold DStarLite.dedupKeepFirst
  rw [general]
  simp

/-- Membership in the source update-target list. -/
theorem updateTargets_mem (grid : Grid) (start : Position) (obstacles : List Position)
    (q : Position) :
    q ∈ DStarLite.updateTargets grid start obstacles
      ↔ (q ∈ obstacles ∨ (∃ o ∈ obstacles, q ∈ getNeighbors grid o) ∨ q = start ∨
          q ∈ getNeighbors grid start) := by
  unfold DStarLite.updateTargets
  rw [dedupKeepFirst_mem]
  simp only [List.mem_append, List.mem_flatMap, List.mem_cons]
  constructor
  · rintro (⟨o, ho, rfl | hq⟩ | rfl | hq)
    · exact Or.inl ho
    · exact Or.inr (Or.inl ⟨o, ho, hq⟩)
    · exact Or.inr (Or.inr (Or.inl rfl))
    · exact Or.inr (Or.inr (Or.inr hq))
  · rintro (hq | ⟨o, ho, hq⟩ | rfl | hq)
    · exact Or.inl ⟨q, hq, Or.inl rfl⟩
    · exact Or.inl ⟨o, ho, Or.inr hq⟩
    · exact Or.inr (Or.inl rfl)
    · exact Or.inr (Or.inr hq)

/-- C4 counterexample: the update phase does not follow the symmetric
difference.  First conjunct: when the obstacle at (1,1) leaves the set
(current set empty), the claim prescribes updating (1,1) and its
neighbors, but the code updates nothing at all.  Second conjunct: when
the obstacle set is unchanged between calls (symmetric difference
empty, so the claim prescribes no updates, the start not having moved),
the code still updates the start position among others. -/
theorem c4_counterexample :
    (⟨1, 1⟩ ∈ c4ClaimTargets c3GridB [⟨1, 1⟩] [] ∧
      findPathUpdateTargets c3GridB ⟨0, 0⟩ [] = []) ∧
    (c4ClaimTargets c3GridB [⟨1, 1⟩] [⟨1, 1⟩] = [] ∧
      ⟨0, 0⟩ ∈ findPathUpdateTargets c3GridB ⟨0, 0⟩ [⟨1, 1⟩]) := by
  decide

/-- C4 amended: the update phase of DStarLite::find_path ignores the
previous obstacle set entirely.  It is the fold of update_vertex over
findPathUpdateTargets: empty when the current obstacle set is empty,
and otherwise exactly the current obstacles, their neighbors, the
start, and the start's neighbors, each once — so obstacle removals are
never propagated. -/
theorem c4_update_targets (grid : Grid) (obstacles : List Position) (st : DState)
    (q : Position) :
    ((if DStarLite.check_obstacles_changed obstacles then
        DStarLite.update_changed_obstacles grid obstacles st
      else st)
      = (findPathUpdateTargets grid st.start obstacles).foldl
          (DStarLite.update_vertex grid obstacles) st) ∧
    (q ∈ findPathUpdateTargets grid st.start obstacles
      ↔ obstacles ≠ [] ∧
        (q ∈ obstacles ∨ (∃ o ∈ obstacles, q ∈ getNeighbors grid o) ∨ q = st.start ∨
          q ∈ getNeighbors grid st.start)) := by
  constructor
  · unfold findPathUpdateTargets DStarLite.update_changed_obstacles
    by_cases h : DStarLite.check_obstacles_changed obstacles = true
    · rw [if_pos h, if_pos h]
    · rw [if_neg h, if_neg h]
      simp
  · unfold findPathUpdateTargets
    by_cases h : DStarLite.check_obstacles_changed obstacles = true
    · rw [if_pos h, updateTargets_mem]
      have hne : obstacles ≠ [] := by
        unfold DStarLite.check_obstacles_changed at h
        simpa using h
      simp [hne]
    · rw [if_neg h]
      have hemp : obstacles = [] := by
        unfold DStarLite.check_obstacles_changed at h
        simpa using h
      simp [hemp]

/-! ## C6: the k_m update on start changes -/

/-- The fields of a DState the compute machinery never touches:
k_m, start, last_start. -/
def kmsl (st : DState) : Nat × Position × Position := (st.k_m, st.start, st.last_start)

/-- update_vertex only writes rhs_scores and the queue. -/
theorem update_vertex_kmsl (grid : Grid) (obs : List Position) (st : DState)
    (pos : Position) : kmsl (DStarLite.update_vertex grid obs st pos) = kmsl st := by
  unfold DStarLite.update_vertex kmsl
  split <;> dsimp only <;> split <;> rfl

/-- Folding update_vertex preserves those fields. -/
theorem foldl_update_vertex_kmsl (grid : Grid) (obs : List Position) (l : List Position) :
    ∀ st : DState, kmsl (l.foldl (DStarLite.update_vertex grid obs) st) = kmsl st := by
  induction l with
  | nil => intro st; rfl
  | cons a as ih =>
    intro st
    rw [List.foldl_cons, ih, update_vertex_kmsl]

/-- One compute iteration preserves those fields. -/
theorem loopStep_kmsl (grid : Grid) (obs : List Position) (st : DState) :
    kmsl (DStarLite.loopStep grid obs st) = kmsl st := by
  unfold DStarLite.loopStep
  cases h : qTop st.queue with
  | none => rfl
  | some e =>
    cases e with
    | mk topKey topPos =>
      dsimp only
      split
      · rfl
      · split
        · rw [foldl_update_vertex_kmsl]; rfl
        · rw [foldl_update_vertex_kmsl, update_vertex_kmsl]; rfl

/-- The whole compute loop preserves those fields. -/
theorem computeLoop_kmsl (grid : Grid) (obs : List Position) :
    ∀ (fuel : Nat) (st : DState),
      kmsl (DStarLite.computeLoop grid obs fuel st) = kmsl st := by
  intro fuel
  induction fuel with
  | zero => intro st; rfl
  | succ n ih =>
    intro st
    unfold DStarLite.computeLoop
    split
    · rfl
    · rw [ih, loopStep_kmsl]

/-- initStep only writes rhs_scores, the queue and the done flag. -/
theorem initStep_kmsl (st : DState) : kmsl (DStarLite.initStep st) = kmsl st := by
  unfold DStarLite.initStep kmsl
  split <;> rfl

/-- The second component of DStarLiteSimple::find_path is always the
prologue result (the search state is call-local). -/
theorem simple_find_path_snd (grid : Grid) (st0 : SState) (start goal : Position)
    (obstacles : List Position) :
    (SimpleDStar.find_path grid st0 start goal obstacles).2
      = SimpleDStar.prologue st0 start goal := by
  unfold SimpleDStar.find_path
  dsimp only
  split <;> rfl

/-- The 2x2 all-empty grid used by small concrete scenarios. -/
def g2e : Grid :=
  ⟨2, [[Cell.Empty, Cell.Empty], [Cell.Empty, Cell.Empty]], ⟨0, 0⟩, ⟨1, 1⟩⟩

/-- C6 counterexample: a freshly constructed D* Lite engine (public
constructor new, so the state is reachable) is called with the same
goal and a start one step away from the stored s_start.  The claim
requires k_m to increase by h(s_last, start) = 1, but the engine leaves
k_m = 0 because the initial computation has not been done yet. -/
theorem c6_counterexample :
    (DStarLite.new ⟨0, 0⟩ ⟨1, 1⟩).goal = ⟨1, 1⟩ ∧
    (DStarLite.new ⟨0, 0⟩ ⟨1, 1⟩).start ≠ ⟨0, 1⟩ ∧
    manhattan (DStarLite.new ⟨0, 0⟩ ⟨1, 1⟩).last_start ⟨0, 1⟩ = 1 ∧
    (DStarLite.find_path g2e (DStarLite.new ⟨0, 0⟩ ⟨1, 1⟩) ⟨0, 1⟩ ⟨1, 1⟩ []).2.k_m = 0 := by
  decide

/-- C6 amended: on a goal-unchanged, start-changed find_path call,
the D* Lite engine increases k_m by the Manhattan distance between
s_last and the OLD s_start (not the new start argument), and only when
the initial computation has already been done; it sets s_last to the
old s_start and s_start to the new start.  The D* Lite Simple engine
increases k_m by the Manhattan distance between s_last and the NEW
start, but sets both s_start and s_last to the new start. -/
theorem c6_km_update (grid : Grid) (st0 : DState) (ss0 : SState) (start goal : Position)
    (obstacles : List Position)
    (hg : st0.goal = goal) (hs : st0.start ≠ start)
    (hgs : ss0.s_goal = goal) (hss : ss0.s_start ≠ start) (hinit : ss0.initialized = true) :
    (let r := (DStarLite.find_path grid st0 start goal obstacles).2
     r.k_m = (if st0.initial_computation_done then
                satAdd st0.k_m (manhattan st0.last_start st0.start)
              else st0.k_m) ∧
       r.last_start = st0.start ∧ r.start = start) ∧
    (let r := (SimpleDStar.find_path grid ss0 start goal obstacles).2
     r.k_m = satAdd ss0.k_m (manhattan ss0.s_last start) ∧
       r.s_last = start ∧ r.s_start = start) := by
  constructor
  · have hgoalif : (if st0.goal ≠ goal then DStarLite.new start goal else st0) = st0 :=
      if_neg (by simp [hg])
    have hprep : kmsl (DStarLite.prep_state grid st0 start goal obstacles)
        = kmsl (DStarLite.startMovePrologue grid obstacles st0 start) := by
      unfold DStarLite.prep_state
      rw [hgoalif]
      dsimp only
      rw [if_pos hs]
      by_cases hc : DStarLite.check_obstacles_changed obstacles = true
      · rw [if_pos hc]
        unfold DStarLite.update_changed_obstacles
        rw [foldl_update_vertex_kmsl, initStep_kmsl]
      · rw [if_neg hc, initStep_kmsl]
    have hmain : kmsl (DStarLite.find_path grid st0 start goal obstacles).2
        = kmsl (DStarLite.startMovePrologue grid obstacles st0 start) := by
      rw [dstar_find_path_snd, csp_loop, computeLoop_kmsl, hprep]
    have hpro : kmsl (DStarLite.startMovePrologue grid obstacles st0 start)
        = ((if st0.initial_computation_done then
              satAdd st0.k_m (manhattan st0.last_start st0.start)
            else st0.k_m), start, st0.start) := by
      unfold DStarLite.startMovePrologue
      by_cases hdone : st0.initial_computation_done = true
      · rw [if_pos hdone]
        dsimp only
        rw [if_pos hdone, update_vertex_kmsl, if_pos hdone]
        unfold kmsl DStarLite.heuristic
        rfl
      · rw [if_neg hdone]
        dsimp only
        rw [if_neg hdone, if_neg hdone]
        rfl
    have hall := hmain.trans hpro
    refine ⟨?_, ?_, ?_⟩
    · have := congrArg Prod.fst hall
      simpa [kmsl] using this
    · have := congrArg (fun p => p.2.2) hall
      simpa [kmsl] using this
    · have := congrArg (fun p => p.2.1) hall
      simpa [kmsl] using this
  · rw [simple_find_path_snd]
    unfold SimpleDStar.prologue
    rw [if_neg (by simp [hinit, hgs]), if_pos hss]
    exact ⟨rfl, rfl, rfl⟩

/-- C6 witness: the amended statement applied to the fresh engine state
of the counterexample scenario for the D* Lite engine (start moves from
(0,0) to (0,1)) and to an already initialized simple-engine state. -/
theorem c6_km_update_witness :
    (let r := (DStarLite.find_path g2e (DStarLite.new ⟨0, 0⟩ ⟨1, 1⟩) ⟨0, 1⟩ ⟨1, 1⟩ []).2
     r.k_m = (if (DStarLite.new ⟨0, 0⟩ ⟨1, 1⟩).initial_computation_done then
                satAdd (DStarLite.new ⟨0, 0⟩ ⟨1, 1⟩).k_m
                  (manhattan (DStarLite.new ⟨0, 0⟩ ⟨1, 1⟩).last_start
                    (DStarLite.new ⟨0, 0⟩ ⟨1, 1⟩).start)
              else (DStarLite.new ⟨0, 0⟩ ⟨1, 1⟩).k_m) ∧
       r.last_start = (DStarLite.new ⟨0, 0⟩ ⟨1, 1⟩).start ∧ r.start = ⟨0, 1⟩) ∧
    (let r := (SimpleDStar.find_path g2e
        ⟨true, ⟨0, 0⟩, ⟨1, 1⟩, ⟨0, 0⟩, 0⟩ ⟨0, 1⟩ ⟨1, 1⟩ []).2
     r.k_m = satAdd 0 (manhattan (⟨0, 0⟩ : Position) ⟨0, 1⟩) ∧
       r.s_last = ⟨0, 1⟩ ∧ r.s_start = ⟨0, 1⟩) := by
  exact c6_km_update g2e (DStarLite.new ⟨0, 0⟩ ⟨1, 1⟩) ⟨true, ⟨0, 0⟩, ⟨1, 1⟩, ⟨0, 0⟩, 0⟩
    ⟨0, 1⟩ ⟨1, 1⟩ [] (by decide) (by decide) (by decide) (by decide) (by decide)

/-! ## C5: the post-condition of compute_shortest_path -/

/-- When the compute loop's stopping test holds, the queue is empty or
the queue top is numerically no larger than key(s_start) with the start
consistent (the source comparison top_key < start_key runs through the
reversed Key ordering, so the stop condition bounds the top key from
ABOVE by key(s_start), not from below as the claim states). -/
theorem qTop_eq_none {l : List (Key × Position)} (h : qTop l = none) : l = [] := by
  cases l with
  | nil => rfl
  | cons a t =>
    exfalso
    unfold qTop at h
    cases hh : qTop t <;> rw [hh] at h <;> dsimp only at h
    · exact Option.noConfusion h
    · split at h <;> exact Option.noConfusion h

theorem loopDone_cases (st : DState) (h : DStarLite.loopDone st = true) :
    st.queue = [] ∨
      ∃ k p, qTop st.queue = some (k, p) ∧
        keyNumLt (DStarLite.calculate_key st st.start) k = false ∧
        DStarLite.start_is_consistent st = true := by
  unfold DStarLite.loopDone at h
  by_cases hq : st.queue.isEmpty
  · exact Or.inl (List.isEmpty_iff.mp hq)
  · rw [if_neg hq] at h
    dsimp only at h
    cases htop : qTop st.queue with
    | none => exact Or.inl (qTop_eq_none htop)
    | some e =>
      cases e with
      | mk k p =>
        rw [htop] at h
        dsimp only at h
        have h2 : keyRustLt k (DStarLite.calculate_key st st.start) = false
            ∧ DStarLite.start_is_consistent st = true := by
          revert h
          cases keyRustLt k (DStarLite.calculate_key st st.start) <;>
            cases DStarLite.start_is_consistent st <;>
              cases DStarLite.start_is_processed st <;> simp
        refine Or.inr ⟨k, p, rfl, ?_, h2.2⟩
        have h3 := h2.1
        unfold keyRustLt at h3
        exact h3

/-- C5 amended: after compute_shortest_path returns, either the queue
is empty, or the top key is numerically AT MOST key(s_start) (the
opposite bound of the claim, a consequence of the reversed Key Ord
being used in the comparison) and rhs(s_start) = g(s_start) with both
finite, or the loop was cut off by its iteration cap of 4 * size^2 with
the stopping condition still false. -/
theorem c5_exit_characterization (grid : Grid) (obst : List Position) (st : DState) :
    (DStarLite.compute_shortest_path grid obst st).queue = [] ∨
      (∃ k p, qTop (DStarLite.compute_shortest_path grid obst st).queue = some (k, p) ∧
        keyNumLt (DStarLite.calculate_key (DStarLite.compute_shortest_path grid obst st)
          (DStarLite.compute_shortest_path grid obst st).start) k = false ∧
        DStarLite.start_is_consistent (DStarLite.compute_shortest_path grid obst st) = true) ∨
      DStarLite.loopDone (DStarLite.compute_shortest_path grid obst st) = false := by
  rw [csp_loop]
  generalize grid.size * grid.size * 4 = fuel
  induction fuel generalizing st with
  | zero =>
    by_cases h : DStarLite.loopDone (DStarLite.computeLoop grid obst 0 st) = true
    · rcases loopDone_cases _ h with h1 | h1
      · exact Or.inl h1
      · exact Or.inr (Or.inl h1)
    · exact Or.inr (Or.inr (by simpa using h))
  | succ m ih =>
    by_cases h : DStarLite.loopDone st = true
    · rw [computeLoop_done grid obst (m + 1) st h]
      rcases loopDone_cases st h with h1 | h1
      · exact Or.inl h1
      · exact Or.inr (Or.inl h1)
    · rw [computeLoop_step grid obst m st _ (by simpa using h) rfl]
      exact ih (DStarLite.loopStep grid obst st)

/-- The 3x3 grid of the C5 counterexample scenario: walls at (2,2) and
(0,1), start (0,0), goal (1,2). -/
def c5Grid : Grid :=
  ⟨3, [[Cell.Empty, Cell.Wall, Cell.Empty],
       [Cell.Empty, Cell.Empty, Cell.Empty],
       [Cell.Empty, Cell.Empty, Cell.Wall]], ⟨0, 0⟩, ⟨1, 2⟩⟩

/-- Obstacles of the first C5 call. -/
def c5Obst1 : List Position := [⟨2, 0⟩]

/-- Obstacles of the second C5 call. -/
def c5Obst2 : List Position := [⟨2, 0⟩, ⟨1, 1⟩]

/-- Intermediate compute state 0 of the first C5 call. -/
def c5M0 : DState :=
  { g_scores := [],
    rhs_scores := [({ x := 1, y := 2 }, 0),
                   ({ x := 2, y := 0 }, 2147483647),
                   ({ x := 2, y := 1 }, 2147483647),
                   ({ x := 1, y := 0 }, 2147483647),
                   ({ x := 0, y := 0 }, 2147483647)],
    queue := [({ k1 := 3, k2 := 0 }, { x := 1, y := 2 })],
    k_m := 0,
    start := { x := 0, y := 0 },
    goal := { x := 1, y := 2 },
    last_start := { x := 0, y := 0 },
    initial_computation_done := true }

/-- Intermediate compute state 1 of the first C5 call. -/
def c5M1 : DState :=
  { g_scores := [({ x := 1, y := 2 }, 0)],
    rhs_scores := [({ x := 1, y := 2 }, 0),
                   ({ x := 2, y := 0 }, 2147483647),
                   ({ x := 2, y := 1 }, 2147483647),
                   ({ x := 1, y := 0 }, 2147483647),
                   ({ x := 0, y := 0 }, 2147483647),
                   ({ x := 1, y := 1 }, 1),
                   ({ x := 0, y := 2 }, 1)],
    queue := [({ k1 := 3, k2 := 1 }, { x := 0, y := 2 }), ({ k1 := 3, k2 := 1 }, { x := 1, y := 1 })],
    k_m := 0,
    start := { x := 0, y := 0 },
    goal := { x := 1, y := 2 },
    last_start := { x := 0, y := 0 },
    initial_computation_done := true }

/-- Intermediate compute state 2 of the first C5 call. -/
def c5M2 : DState :=
  { g_scores := [({ x := 1, y := 2 }, 0), ({ x := 1, y := 1 }, 1)],
    rhs_scores := [({ x := 1, y := 2 }, 0),
                   ({ x := 2, y := 0 }, 2147483647),
                   ({ x := 2, y := 1 }, 2),
                   ({ x := 1, y := 0 }, 2),
                   ({ x := 0, y := 0 }, 2147483647),
                   ({ x := 1, y := 1 }, 1),
                   ({ x := 0, y := 2 }, 1)],
    queue := [({ k1 := 5, k2 := 2 }, { x := 2, y := 1 }),
              ({ k1 := 3, k2 := 2 }, { x := 1, y := 0 }),
              ({ k1 := 3, k2 := 1 }, { x := 0, y := 2 })],
    k_m := 0,
    start := { x := 0, y := 0 },
    goal := { x := 1, y := 2 },
    last_start := { x := 0, y := 0 },
    initial_computation_done := true }

/-- Intermediate compute state 3 of the first C5 call. -/
def c5M3 : DState :=
  { g_scores := [({ x := 1, y := 2 }, 0), ({ x := 1, y := 1 }, 1), ({ x := 0, y := 2 }, 1)],
    rhs_scores := [({ x := 1, y := 2 }, 0),
                   ({ x := 2, y := 0 }, 2147483647),
                   ({ x := 2, y := 1 }, 2),
                   ({ x := 1, y := 0 }, 2),
                   ({ x := 0, y := 0 }, 2147483647),
                   ({ x := 1, y := 1 }, 1),
                   ({ x := 0, y := 2 }, 1)],
    queue := [({ k1 := 5, k2 := 2 }, { x := 2, y := 1 }), ({ k1 := 3, k2 := 2 }, { x := 1, y := 0 })],
    k_m := 0,
    start := { x := 0, y := 0 },
    goal := { x := 1, y := 2 },
    last_start := { x := 0, y := 0 },
    initial_computation_done := true }

/-- Intermediate compute state 4 of the first C5 call. -/
def c5M4 : DState :=
  { g_scores := [({ x := 1, y := 2 }, 0), ({ x := 1, y := 1 }, 1), ({ x := 0, y := 2 }, 1), ({ x := 1, y := 0 }, 2)],
    rhs_scores := [({ x := 1, y := 2 }, 0),
                   ({ x := 2, y := 0 }, 2147483647),
                   ({ x := 2, y := 1 }, 2),
                   ({ x := 1, y := 0 }, 2),
                   ({ x := 0, y := 0 }, 3),
                   ({ x := 1, y := 1 }, 1),
                   ({ x := 0, y := 2 }, 1)],
    queue := [({ k1 := 3, k2 := 3 }, { x := 0, y := 0 }), ({ k1 := 5, k2 := 2 }, { x := 2, y := 1 })],
    k_m := 0,
    start := { x := 0, y := 0 },
    goal := { x := 1, y := 2 },
    last_start := { x := 0, y := 0 },
    initial_computation_done := true }

/-- Intermediate compute state 5 of the first C5 call. -/
def c5M5 : DState :=
  { g_scores := [({ x := 1, y := 2 }, 0),
                 ({ x := 1, y := 1 }, 1),
                 ({ x := 0, y := 2 }, 1),
                 ({ x := 1, y := 0 }, 2),
                 ({ x := 0, y := 0 }, 3)],
    rhs_scores := [({ x := 1, y := 2 }, 0),
                   ({ x := 2, y := 0 }, 2147483647),
                   ({ x := 2, y := 1 }, 2),
                   ({ x := 1, y := 0 }, 2),
                   ({ x := 0, y := 0 }, 3),
                   ({ x := 1, y := 1 }, 1),
                   ({ x := 0, y := 2 }, 1)],
    queue := [({ k1 := 5, k2 := 2 }, { x := 2, y := 1 })],
    k_m := 0,
    start := { x := 0, y := 0 },
    goal := { x := 1, y := 2 },
    last_start := { x := 0, y := 0 },
    initial_computation_done := true }

/-- Intermediate compute state 6 of the first C5 call. -/
def c5M6 : DState :=
  { g_scores := [({ x := 1, y := 2 }, 0),
                 ({ x := 1, y := 1 }, 1),
                 ({ x := 0, y := 2 }, 1),
                 ({ x := 1, y := 0 }, 2),
                 ({ x := 0, y := 0 }, 3),
                 ({ x := 2, y := 1 }, 2)],
    rhs_scores := [({ x := 1, y := 2 }, 0),
                   ({ x := 2, y := 0 }, 2147483647),
                   ({ x := 2, y := 1 }, 2),
                   ({ x := 1, y := 0 }, 2),
                   ({ x := 0, y := 0 }, 3),
                   ({ x := 1, y := 1 }, 1),
                   ({ x := 0, y := 2 }, 1)],
    queue := [],
    k_m := 0,
    start := { x := 0, y := 0 },
    goal := { x := 1, y := 2 },
    last_start := { x := 0, y := 0 },
    initial_computation_done := true }

/-- The prepared state of the second C5 call (no compute iterations run on it). -/
def c5N0 : DState :=
  { g_scores := [({ x := 1, y := 2 }, 0),
                 ({ x := 1, y := 1 }, 1),
                 ({ x := 0, y := 2 }, 1),
                 ({ x := 1, y := 0 }, 2),
                 ({ x := 0, y := 0 }, 3),
                 ({ x := 2, y := 1 }, 2)],
    rhs_scores := [({ x := 1, y := 2 }, 0),
                   ({ x := 2, y := 0 }, 2147483647),
                   ({ x := 2, y := 1 }, 2),
                   ({ x := 1, y := 0 }, 2),
                   ({ x := 0, y := 0 }, 3),
                   ({ x := 1, y := 1 }, 2147483647),
                   ({ x := 0, y := 2 }, 1)],
    queue := [({ k1 := 2, k2 := 1 }, { x := 1, y := 1 })],
    k_m := 0,
    start := { x := 1, y := 0 },
    goal := { x := 1, y := 2 },
    last_start := { x := 0, y := 0 },
    initial_computation_done := true }


/-- The engine state after the first C5 call. -/
theorem c5_state1 :
    (DStarLite.find_path c5Grid (DStarLite.new ⟨0, 0⟩ ⟨1, 2⟩) ⟨0, 0⟩ ⟨1, 2⟩ c5Obst1).2
      = c5M6 := by
  have hprep : DStarLite.prep_state c5Grid (DStarLite.new ⟨0, 0⟩ ⟨1, 2⟩) ⟨0, 0⟩ ⟨1, 2⟩ c5Obst1
      = c5M0 := by decide
  have t0 : DStarLite.computeLoop c5Grid c5Obst1 36 c5M0
      = DStarLite.computeLoop c5Grid c5Obst1 35 c5M1 :=
    computeLoop_step c5Grid c5Obst1 35 c5M0 c5M1 (by decide) (by decide)
  have t1 : DStarLite.computeLoop c5Grid c5Obst1 35 c5M1
      = DStarLite.computeLoop c5Grid c5Obst1 34 c5M2 :=
    computeLoop_step c5Grid c5Obst1 34 c5M1 c5M2 (by decide) (by decide)
  have t2 : DStarLite.computeLoop c5Grid c5Obst1 34 c5M2
      = DStarLite.computeLoop c5Grid c5Obst1 33 c5M3 :=
    computeLoop_step c5Grid c5Obst1 33 c5M2 c5M3 (by decide) (by decide)
  have t3 : DStarLite.computeLoop c5Grid c5Obst1 33 c5M3
      = DStarLite.computeLoop c5Grid c5Obst1 32 c5M4 :=
    computeLoop_step c5Grid c5Obst1 32 c5M3 c5M4 (by decide) (by decide)
  have t4 : DStarLite.computeLoop c5Grid c5Obst1 32 c5M4
      = DStarLite.computeLoop c5Grid c5Obst1 31 c5M5 :=
    computeLoop_step c5Grid c5Obst1 31 c5M4 c5M5 (by decide) (by decide)
  have t5 : DStarLite.computeLoop c5Grid c5Obst1 31 c5M5
      = DStarLite.computeLoop c5Grid c5Obst1 30 c5M6 :=
    computeLoop_step c5Grid c5Obst1 30 c5M5 c5M6 (by decide) (by decide)
  have tD : DStarLite.computeLoop c5Grid c5Obst1 30 c5M6 = c5M6 :=
    computeLoop_done c5Grid c5Obst1 30 c5M6 (by decide)
  rw [dstar_find_path_snd, hprep, csp_loop]
  show DStarLite.computeLoop c5Grid c5Obst1 36 c5M0 = c5M6
  exact t0.trans (t1.trans (t2.trans (t3.trans (t4.trans (t5.trans (tD))))))

/-- The engine state after the second C5 call. -/
theorem c5_state2 :
    (DStarLite.find_path c5Grid
        (DStarLite.find_path c5Grid (DStarLite.new ⟨0, 0⟩ ⟨1, 2⟩) ⟨0, 0⟩ ⟨1, 2⟩ c5Obst1).2
        ⟨1, 0⟩ ⟨1, 2⟩ c5Obst2).2 = c5N0 := by
  rw [c5_state1, dstar_find_path_snd]
  have hprep : DStarLite.prep_state c5Grid c5M6 ⟨1, 0⟩ ⟨1, 2⟩ c5Obst2 = c5N0 := by decide
  rw [hprep, csp_loop]
  show DStarLite.computeLoop c5Grid c5Obst2 36 c5N0 = c5N0
  exact computeLoop_done c5Grid c5Obst2 36 c5N0 (by decide)

/-- C5 counterexample: a state reachable through two public find_path
calls on which compute_shortest_path returns (without running a single
iteration) leaving the queue NON-empty with the top key numerically
STRICTLY BELOW key(s_start): the claimed post-condition
top(U).key >= key(s_start) fails. -/
theorem c5_counterexample :
    (DStarLite.find_path c5Grid
        (DStarLite.find_path c5Grid (DStarLite.new ⟨0, 0⟩ ⟨1, 2⟩) ⟨0, 0⟩ ⟨1, 2⟩ c5Obst1).2
        ⟨1, 0⟩ ⟨1, 2⟩ c5Obst2).2.queue ≠ [] ∧
    qTop (DStarLite.find_path c5Grid
        (DStarLite.find_path c5Grid (DStarLite.new ⟨0, 0⟩ ⟨1, 2⟩) ⟨0, 0⟩ ⟨1, 2⟩ c5Obst1).2
        ⟨1, 0⟩ ⟨1, 2⟩ c5Obst2).2.queue = some (⟨2, 1⟩, ⟨1, 1⟩) ∧
    DStarLite.calculate_key
        (DStarLite.find_path c5Grid
          (DStarLite.find_path c5Grid (DStarLite.new ⟨0, 0⟩ ⟨1, 2⟩) ⟨0, 0⟩ ⟨1, 2⟩ c5Obst1).2
          ⟨1, 0⟩ ⟨1, 2⟩ c5Obst2).2
        (DStarLite.find_path c5Grid
          (DStarLite.find_path c5Grid (DStarLite.new ⟨0, 0⟩ ⟨1, 2⟩) ⟨0, 0⟩ ⟨1, 2⟩ c5Obst1).2
          ⟨1, 0⟩ ⟨1, 2⟩ c5Obst2).2.start = ⟨2, 2⟩ ∧
    keyNumLt ⟨2, 1⟩ ⟨2, 2⟩ = true := by
  rw [c5_state2]
  refine ⟨by decide, by decide, by decide, by decide⟩


/-! ## C7: the hybrid dispatch decision -/

/-- DStarLiteSimple::find_path, destructured through its named stages. -/
theorem simple_find_path_eq (grid : Grid) (st0 : SState) (start goal : Position)
    (obstacles : List Position) :
    SimpleDStar.find_path grid st0 start goal obstacles
      = (if SimpleDStar.get_g
            (SimpleDStar.runSearch grid obstacles start goal
              (SimpleDStar.prologue st0 start goal).k_m) start = INF
         then none
         else SimpleDStar.extractLoop grid obstacles goal
            (SimpleDStar.runSearch grid obstacles start goal
              (SimpleDStar.prologue st0 start goal).k_m)
            (grid.size * grid.size + 3) start [start],
         SimpleDStar.prologue st0 start goal) := by
  unfold SimpleDStar.find_path
  dsimp only
  split <;> rfl

/-- HybridAStarDStar::find_path in the A*-dispatch branch with a
successful A* result. -/
theorem hybrid_astar_some (grid : Grid) (st : HState) (start goal : Position)
    (obstacles : List Position) (p : List Position)
    (h : Hybrid.should_use_astar st start goal obstacles = true)
    (ha : astar_find_path grid start goal obstacles = some p) :
    Hybrid.find_path grid st start goal obstacles
      = (some p,
        { st with
          a_star_usage_count := st.a_star_usage_count + 1
          last_start := start
          last_goal := goal
          last_obstacles := obstacles
          initial_path_found := true }) := by
  unfold Hybrid.find_path
  rw [if_pos h, ha]

/-- HybridAStarDStar::find_path in the D*-dispatch branch with a
successful simple-engine result. -/
theorem hybrid_dstar_some (grid : Grid) (st : HState) (start goal : Position)
    (obstacles : List Position) (p : List Position) (dss : SState)
    (h : Hybrid.should_use_astar st start goal obstacles = false)
    (hd : SimpleDStar.find_path grid st.d_star_lite_simple start goal obstacles
      = (some p, dss)) :
    Hybrid.find_path grid st start goal obstacles
      = (some p,
        { st with
          d_star_usage_count := st.d_star_usage_count + 1
          d_star_lite_simple := dss
          last_start := start
          last_obstacles := obstacles }) := by
  unfold Hybrid.find_path
  rw [if_neg (by simp [h])]
  dsimp only
  rw [hd]

/-- The 4x4 all-empty grid of the C7 scenario. -/
def c7Grid : Grid :=
  ⟨4, [[Cell.Empty, Cell.Empty, Cell.Empty, Cell.Empty],
       [Cell.Empty, Cell.Empty, Cell.Empty, Cell.Empty],
       [Cell.Empty, Cell.Empty, Cell.Empty, Cell.Empty],
       [Cell.Empty, Cell.Empty, Cell.Empty, Cell.Empty]], ⟨0, 0⟩, ⟨3, 3⟩⟩

/-- The first call's obstacle set (6 positions). -/
def c7O1 : List Position := [⟨0, 1⟩, ⟨0, 2⟩, ⟨0, 3⟩, ⟨1, 1⟩, ⟨1, 2⟩, ⟨1, 3⟩]

/-- The second call's obstacle set (6 positions; symmetric difference
with c7O1 has 6 elements, more than the claimed threshold 5). -/
def c7O2 : List Position := [⟨2, 1⟩, ⟨2, 2⟩, ⟨2, 3⟩, ⟨0, 1⟩, ⟨0, 2⟩, ⟨0, 3⟩]

/-- The dispatcher state after the first C7 call. -/
def c7H1 : HState :=
  { d_star_lite_simple := SimpleDStar.newState
    initial_path_found := true
    last_start := ⟨0, 0⟩
    last_goal := ⟨3, 3⟩
    last_obstacles := c7O1
    a_star_usage_count := 1
    d_star_usage_count := 0 }

/-- The path the modelled A* returns on the first call. -/
def c7P1 : List Position :=
  [⟨0, 0⟩, ⟨1, 0⟩, ⟨2, 0⟩, ⟨2, 1⟩, ⟨2, 2⟩, ⟨2, 3⟩, ⟨3, 3⟩]

/-- The path the simple engine returns on the second call. -/
def c7P2 : List Position :=
  [⟨0, 0⟩, ⟨1, 0⟩, ⟨2, 0⟩, ⟨3, 0⟩, ⟨3, 1⟩, ⟨3, 2⟩, ⟨3, 3⟩]

/-- Search state 0 of the C7 second call. -/
def c7S0 : SSearch :=
  { open_queue := [{ key := { k1 := 6, k2 := 0 }, pos := { x := 3, y := 3 }, hash_code := 1 }],
    gmap := [],
    rhsmap := [({ x := 3, y := 3 }, 0)],
    queue_hash := [({ x := 3, y := 3 }, 1)],
    hash_counter := 1 }

/-- Search state 1 of the C7 second call. -/
def c7S1 : SSearch :=
  { open_queue := [{ key := { k1 := 6, k2 := 1 }, pos := { x := 2, y := 3 }, hash_code := 3 },
                   { key := { k1 := 6, k2 := 1 }, pos := { x := 3, y := 2 }, hash_code := 2 }],
    gmap := [({ x := 3, y := 3 }, 0)],
    rhsmap := [({ x := 3, y := 3 }, 0), ({ x := 3, y := 2 }, 1), ({ x := 2, y := 3 }, 1)],
    queue_hash := [({ x := 3, y := 2 }, 2), ({ x := 2, y := 3 }, 3)],
    hash_counter := 3 }

/-- Search state 2 of the C7 second call. -/
def c7S2 : SSearch :=
  { open_queue := [{ key := { k1 := 6, k2 := 2 }, pos := { x := 2, y := 2 }, hash_code := 5 },
                   { key := { k1 := 6, k2 := 2 }, pos := { x := 3, y := 1 }, hash_code := 4 },
                   { key := { k1 := 6, k2 := 1 }, pos := { x := 2, y := 3 }, hash_code := 3 }],
    gmap := [({ x := 3, y := 3 }, 0), ({ x := 3, y := 2 }, 1)],
    rhsmap := [({ x := 3, y := 3 }, 0),
               ({ x := 3, y := 2 }, 1),
               ({ x := 2, y := 3 }, 1),
               ({ x := 3, y := 1 }, 2),
               ({ x := 2, y := 2 }, 2)],
    queue_hash := [({ x := 2, y := 3 }, 3), ({ x := 3, y := 1 }, 4), ({ x := 2, y := 2 }, 5)],
    hash_counter := 5 }

/-- Search state 3 of the C7 second call. -/
def c7S3 : SSearch :=
  { open_queue := [{ key := { k1 := 6, k2 := 2 }, pos := { x := 2, y := 2 }, hash_code := 6 },
                   { key := { k1 := 6, k2 := 2 }, pos := { x := 2, y := 2 }, hash_code := 5 },
                   { key := { k1 := 6, k2 := 2 }, pos := { x := 3, y := 1 }, hash_code := 4 }],
    gmap := [({ x := 3, y := 3 }, 0), ({ x := 3, y := 2 }, 1), ({ x := 2, y := 3 }, 1)],
    rhsmap := [({ x := 3, y := 3 }, 0),
               ({ x := 3, y := 2 }, 1),
               ({ x := 2, y := 3 }, 1),
               ({ x := 3, y := 1 }, 2),
               ({ x := 2, y := 2 }, 2),
               ({ x := 1, y := 3 }, 2147483647)],
    queue_hash := [({ x := 3, y := 1 }, 4), ({ x := 2, y := 2 }, 6)],
    hash_counter := 6 }

/-- Search state 4 of the C7 second call. -/
def c7S4 : SSearch :=
  { open_queue := [{ key := { k1 := 6, k2 := 3 }, pos := { x := 2, y := 1 }, hash_code := 8 },
                   { key := { k1 := 6, k2 := 3 }, pos := { x := 3, y := 0 }, hash_code := 7 },
                   { key := { k1 := 6, k2 := 2 }, pos := { x := 2, y := 2 }, hash_code := 6 },
                   { key := { k1 := 6, k2 := 2 }, pos := { x := 2, y := 2 }, hash_code := 5 }],
    gmap := [({ x := 3, y := 3 }, 0), ({ x := 3, y := 2 }, 1), ({ x := 2, y := 3 }, 1), ({ x := 3, y := 1 }, 2)],
    rhsmap := [({ x := 3, y := 3 }, 0),
               ({ x := 3, y := 2 }, 1),
               ({ x := 2, y := 3 }, 1),
               ({ x := 3, y := 1 }, 2),
               ({ x := 2, y := 2 }, 2),
               ({ x := 1, y := 3 }, 2147483647),
               ({ x := 3, y := 0 }, 3),
               ({ x := 2, y := 1 }, 3)],
    queue_hash := [({ x := 2, y := 2 }, 6), ({ x := 3, y := 0 }, 7), ({ x := 2, y := 1 }, 8)],
    hash_counter := 8 }

/-- Search state 5 of the C7 second call. -/
def c7S5 : SSearch :=
  { open_queue := [{ key := { k1 := 6, k2 := 3 }, pos := { x := 2, y := 1 }, hash_code := 9 },
                   { key := { k1 := 6, k2 := 3 }, pos := { x := 2, y := 1 }, hash_code := 8 },
                   { key := { k1 := 6, k2 := 3 }, pos := { x := 3, y := 0 }, hash_code := 7 }],
    gmap := [({ x := 3, y := 3 }, 0),
             ({ x := 3, y := 2 }, 1),
             ({ x := 2, y := 3 }, 1),
             ({ x := 3, y := 1 }, 2),
             ({ x := 2, y := 2 }, 2)],
    rhsmap := [({ x := 3, y := 3 }, 0),
               ({ x := 3, y := 2 }, 1),
               ({ x := 2, y := 3 }, 1),
               ({ x := 3, y := 1 }, 2),
               ({ x := 2, y := 2 }, 2),
               ({ x := 1, y := 3 }, 2147483647),
               ({ x := 3, y := 0 }, 3),
               ({ x := 2, y := 1 }, 3),
               ({ x := 1, y := 2 }, 2147483647)],
    queue_hash := [({ x := 3, y := 0 }, 7), ({ x := 2, y := 1 }, 9)],
    hash_counter := 9 }

/-- Search state 6 of the C7 second call. -/
def c7S6 : SSearch :=
  { open_queue := [{ key := { k1 := 6, k2 := 4 }, pos := { x := 2, y := 0 }, hash_code := 10 },
                   { key := { k1 := 6, k2 := 3 }, pos := { x := 2, y := 1 }, hash_code := 9 },
                   { key := { k1 := 6, k2 := 3 }, pos := { x := 2, y := 1 }, hash_code := 8 }],
    gmap := [({ x := 3, y := 3 }, 0),
             ({ x := 3, y := 2 }, 1),
             ({ x := 2, y := 3 }, 1),
             ({ x := 3, y := 1 }, 2),
             ({ x := 2, y := 2 }, 2),
             ({ x := 3, y := 0 }, 3)],
    rhsmap := [({ x := 3, y := 3 }, 0),
               ({ x := 3, y := 2 }, 1),
               ({ x := 2, y := 3 }, 1),
               ({ x := 3, y := 1 }, 2),
               ({ x := 2, y := 2 }, 2),
               ({ x := 1, y := 3 }, 2147483647),
               ({ x := 3, y := 0 }, 3),
               ({ x := 2, y := 1 }, 3),
               ({ x := 1, y := 2 }, 2147483647),
               ({ x := 2, y := 0 }, 4)],
    queue_hash := [({ x := 2, y := 1 }, 9), ({ x := 2, y := 0 }, 10)],
    hash_counter := 10 }

/-- Search state 7 of the C7 second call. -/
def c7S7 : SSearch :=
  { open_queue := [{ key := { k1 := 6, k2 := 4 }, pos := { x := 2, y := 0 }, hash_code := 11 },
                   { key := { k1 := 6, k2 := 4 }, pos := { x := 2, y := 0 }, hash_code := 10 }],
    gmap := [({ x := 3, y := 3 }, 0),
             ({ x := 3, y := 2 }, 1),
             ({ x := 2, y := 3 }, 1),
             ({ x := 3, y := 1 }, 2),
             ({ x := 2, y := 2 }, 2),
             ({ x := 3, y := 0 }, 3),
             ({ x := 2, y := 1 }, 3)],
    rhsmap := [({ x := 3, y := 3 }, 0),
               ({ x := 3, y := 2 }, 1),
               ({ x := 2, y := 3 }, 1),
               ({ x := 3, y := 1 }, 2),
               ({ x := 2, y := 2 }, 2),
               ({ x := 1, y := 3 }, 2147483647),
               ({ x := 3, y := 0 }, 3),
               ({ x := 2, y := 1 }, 3),
               ({ x := 1, y := 2 }, 2147483647),
               ({ x := 2, y := 0 }, 4),
               ({ x := 1, y := 1 }, 2147483647)],
    queue_hash := [({ x := 2, y := 0 }, 11)],
    hash_counter := 11 }

/-- Search state 8 of the C7 second call. -/
def c7S8 : SSearch :=
  { open_queue := [{ key := { k1 := 6, k2 := 5 }, pos := { x := 1, y := 0 }, hash_code := 12 }],
    gmap := [({ x := 3, y := 3 }, 0),
             ({ x := 3, y := 2 }, 1),
             ({ x := 2, y := 3 }, 1),
             ({ x := 3, y := 1 }, 2),
             ({ x := 2, y := 2 }, 2),
             ({ x := 3, y := 0 }, 3),
             ({ x := 2, y := 1 }, 3),
             ({ x := 2, y := 0 }, 4)],
    rhsmap := [({ x := 3, y := 3 }, 0),
               ({ x := 3, y := 2 }, 1),
               ({ x := 2, y := 3 }, 1),
               ({ x := 3, y := 1 }, 2),
               ({ x := 2, y := 2 }, 2),
               ({ x := 1, y := 3 }, 2147483647),
               ({ x := 3, y := 0 }, 3),
               ({ x := 2, y := 1 }, 3),
               ({ x := 1, y := 2 }, 2147483647),
               ({ x := 2, y := 0 }, 4),
               ({ x := 1, y := 1 }, 2147483647),
               ({ x := 1, y := 0 }, 5)],
    queue_hash := [({ x := 1, y := 0 }, 12)],
    hash_counter := 12 }

/-- Search state 9 of the C7 second call. -/
def c7S9 : SSearch :=
  { open_queue := [{ key := { k1 := 6, k2 := 6 }, pos := { x := 0, y := 0 }, hash_code := 14 },
                   { key := { k1 := 8, k2 := 6 }, pos := { x := 1, y := 1 }, hash_code := 13 }],
    gmap := [({ x := 3, y := 3 }, 0),
             ({ x := 3, y := 2 }, 1),
             ({ x := 2, y := 3 }, 1),
             ({ x := 3, y := 1 }, 2),
             ({ x := 2, y := 2 }, 2),
             ({ x := 3, y := 0 }, 3),
             ({ x := 2, y := 1 }, 3),
             ({ x := 2, y := 0 }, 4),
             ({ x := 1, y := 0 }, 5)],
    rhsmap := [({ x := 3, y := 3 }, 0),
               ({ x := 3, y := 2 }, 1),
               ({ x := 2, y := 3 }, 1),
               ({ x := 3, y := 1 }, 2),
               ({ x := 2, y := 2 }, 2),
               ({ x := 1, y := 3 }, 2147483647),
               ({ x := 3, y := 0 }, 3),
               ({ x := 2, y := 1 }, 3),
               ({ x := 1, y := 2 }, 2147483647),
               ({ x := 2, y := 0 }, 4),
               ({ x := 1, y := 1 }, 6),
               ({ x := 1, y := 0 }, 5),
               ({ x := 0, y := 0 }, 6)],
    queue_hash := [({ x := 1, y := 1 }, 13), ({ x := 0, y := 0 }, 14)],
    hash_counter := 14 }

/-- Search state 10 of the C7 second call. -/
def c7S10 : SSearch :=
  { open_queue := [{ key := { k1 := 8, k2 := 7 }, pos := { x := 0, y := 1 }, hash_code := 15 },
                   { key := { k1 := 8, k2 := 6 }, pos := { x := 1, y := 1 }, hash_code := 13 }],
    gmap := [({ x := 3, y := 3 }, 0),
             ({ x := 3, y := 2 }, 1),
             ({ x := 2, y := 3 }, 1),
             ({ x := 3, y := 1 }, 2),
             ({ x := 2, y := 2 }, 2),
             ({ x := 3, y := 0 }, 3),
             ({ x := 2, y := 1 }, 3),
             ({ x := 2, y := 0 }, 4),
             ({ x := 1, y := 0 }, 5),
             ({ x := 0, y := 0 }, 6)],
    rhsmap := [({ x := 3, y := 3 }, 0),
               ({ x := 3, y := 2 }, 1),
               ({ x := 2, y := 3 }, 1),
               ({ x := 3, y := 1 }, 2),
               ({ x := 2, y := 2 }, 2),
               ({ x := 1, y := 3 }, 2147483647),
               ({ x := 3, y := 0 }, 3),
               ({ x := 2, y := 1 }, 3),
               ({ x := 1, y := 2 }, 2147483647),
               ({ x := 2, y := 0 }, 4),
               ({ x := 1, y := 1 }, 6),
               ({ x := 1, y := 0 }, 5),
               ({ x := 0, y := 0 }, 6),
               ({ x := 0, y := 1 }, 7)],
    queue_hash := [({ x := 1, y := 1 }, 13), ({ x := 0, y := 1 }, 15)],
    hash_counter := 15 }

/-- Search state 11 of the C7 second call. -/
def c7S11 : SSearch :=
  { open_queue := [{ key := { k1 := 8, k2 := 7 }, pos := { x := 0, y := 1 }, hash_code := 17 },
                   { key := { k1 := 10, k2 := 7 }, pos := { x := 1, y := 2 }, hash_code := 16 },
                   { key := { k1 := 8, k2 := 7 }, pos := { x := 0, y := 1 }, hash_code := 15 }],
    gmap := [({ x := 3, y := 3 }, 0),
             ({ x := 3, y := 2 }, 1),
             ({ x := 2, y := 3 }, 1),
             ({ x := 3, y := 1 }, 2),
             ({ x := 2, y := 2 }, 2),
             ({ x := 3, y := 0 }, 3),
             ({ x := 2, y := 1 }, 3),
             ({ x := 2, y := 0 }, 4),
             ({ x := 1, y := 0 }, 5),
             ({ x := 0, y := 0 }, 6),
             ({ x := 1, y := 1 }, 6)],
    rhsmap := [({ x := 3, y := 3 }, 0),
               ({ x := 3, y := 2 }, 1),
               ({ x := 2, y := 3 }, 1),
               ({ x := 3, y := 1 }, 2),
               ({ x := 2, y := 2 }, 2),
               ({ x := 1, y := 3 }, 2147483647),
               ({ x := 3, y := 0 }, 3),
               ({ x := 2, y := 1 }, 3),
               ({ x := 1, y := 2 }, 7),
               ({ x := 2, y := 0 }, 4),
               ({ x := 1, y := 1 }, 6),
               ({ x := 1, y := 0 }, 5),
               ({ x := 0, y := 0 }, 6),
               ({ x := 0, y := 1 }, 7)],
    queue_hash := [({ x := 1, y := 2 }, 16), ({ x := 0, y := 1 }, 17)],
    hash_counter := 17 }

/-- Search state 12 of the C7 second call. -/
def c7S12 : SSearch :=
  { open_queue := [{ key := { k1 := 10, k2 := 7 }, pos := { x := 1, y := 2 }, hash_code := 16 }],
    gmap := [({ x := 3, y := 3 }, 0),
             ({ x := 3, y := 2 }, 1),
             ({ x := 2, y := 3 }, 1),
             ({ x := 3, y := 1 }, 2),
             ({ x := 2, y := 2 }, 2),
             ({ x := 3, y := 0 }, 3),
             ({ x := 2, y := 1 }, 3),
             ({ x := 2, y := 0 }, 4),
             ({ x := 1, y := 0 }, 5),
             ({ x := 0, y := 0 }, 6),
             ({ x := 1, y := 1 }, 6),
             ({ x := 0, y := 1 }, 7)],
    rhsmap := [({ x := 3, y := 3 }, 0),
               ({ x := 3, y := 2 }, 1),
               ({ x := 2, y := 3 }, 1),
               ({ x := 3, y := 1 }, 2),
               ({ x := 2, y := 2 }, 2),
               ({ x := 1, y := 3 }, 2147483647),
               ({ x := 3, y := 0 }, 3),
               ({ x := 2, y := 1 }, 3),
               ({ x := 1, y := 2 }, 7),
               ({ x := 2, y := 0 }, 4),
               ({ x := 1, y := 1 }, 6),
               ({ x := 1, y := 0 }, 5),
               ({ x := 0, y := 0 }, 6),
               ({ x := 0, y := 1 }, 7),
               ({ x := 0, y := 2 }, 2147483647)],
    queue_hash := [({ x := 1, y := 2 }, 16)],
    hash_counter := 17 }

/-- Search state 13 of the C7 second call. -/
def c7S13 : SSearch :=
  { open_queue := [{ key := { k1 := 10, k2 := 8 }, pos := { x := 0, y := 2 }, hash_code := 19 },
                   { key := { k1 := 12, k2 := 8 }, pos := { x := 1, y := 3 }, hash_code := 18 }],
    gmap := [({ x := 3, y := 3 }, 0),
             ({ x := 3, y := 2 }, 1),
             ({ x := 2, y := 3 }, 1),
             ({ x := 3, y := 1 }, 2),
             ({ x := 2, y := 2 }, 2),
             ({ x := 3, y := 0 }, 3),
             ({ x := 2, y := 1 }, 3),
             ({ x := 2, y := 0 }, 4),
             ({ x := 1, y := 0 }, 5),
             ({ x := 0, y := 0 }, 6),
             ({ x := 1, y := 1 }, 6),
             ({ x := 0, y := 1 }, 7),
             ({ x := 1, y := 2 }, 7)],
    rhsmap := [({ x := 3, y := 3 }, 0),
               ({ x := 3, y := 2 }, 1),
               ({ x := 2, y := 3 }, 1),
               ({ x := 3, y := 1 }, 2),
               ({ x := 2, y := 2 }, 2),
               ({ x := 1, y := 3 }, 8),
               ({ x := 3, y := 0 }, 3),
               ({ x := 2, y := 1 }, 3),
               ({ x := 1, y := 2 }, 7),
               ({ x := 2, y := 0 }, 4),
               ({ x := 1, y := 1 }, 6),
               ({ x := 1, y := 0 }, 5),
               ({ x := 0, y := 0 }, 6),
               ({ x := 0, y := 1 }, 7),
               ({ x := 0, y := 2 }, 8)],
    queue_hash := [({ x := 1, y := 3 }, 18), ({ x := 0, y := 2 }, 19)],
    hash_counter := 19 }

/-- Search state 14 of the C7 second call. -/
def c7S14 : SSearch :=
  { open_queue := [{ key := { k1 := 12, k2 := 8 }, pos := { x := 1, y := 3 }, hash_code := 18 }],
    gmap := [({ x := 3, y := 3 }, 0),
             ({ x := 3, y := 2 }, 1),
             ({ x := 2, y := 3 }, 1),
             ({ x := 3, y := 1 }, 2),
             ({ x := 2, y := 2 }, 2),
             ({ x := 3, y := 0 }, 3),
             ({ x := 2, y := 1 }, 3),
             ({ x := 2, y := 0 }, 4),
             ({ x := 1, y := 0 }, 5),
             ({ x := 0, y := 0 }, 6),
             ({ x := 1, y := 1 }, 6),
             ({ x := 0, y := 1 }, 7),
             ({ x := 1, y := 2 }, 7),
             ({ x := 0, y := 2 }, 8)],
    rhsmap := [({ x := 3, y := 3 }, 0),
               ({ x := 3, y := 2 }, 1),
               ({ x := 2, y := 3 }, 1),
               ({ x := 3, y := 1 }, 2),
               ({ x := 2, y := 2 }, 2),
               ({ x := 1, y := 3 }, 8),
               ({ x := 3, y := 0 }, 3),
               ({ x := 2, y := 1 }, 3),
               ({ x := 1, y := 2 }, 7),
               ({ x := 2, y := 0 }, 4),
               ({ x := 1, y := 1 }, 6),
               ({ x := 1, y := 0 }, 5),
               ({ x := 0, y := 0 }, 6),
               ({ x := 0, y := 1 }, 7),
               ({ x := 0, y := 2 }, 8),
               ({ x := 0, y := 3 }, 2147483647)],
    queue_hash := [({ x := 1, y := 3 }, 18)],
    hash_counter := 19 }

/-- Search state 15 of the C7 second call. -/
def c7S15 : SSearch :=
  { open_queue := [{ key := { k1 := 12, k2 := 9 }, pos := { x := 0, y := 3 }, hash_code := 20 }],
    gmap := [({ x := 3, y := 3 }, 0),
             ({ x := 3, y := 2 }, 1),
             ({ x := 2, y := 3 }, 1),
             ({ x := 3, y := 1 }, 2),
             ({ x := 2, y := 2 }, 2),
             ({ x := 3, y := 0 }, 3),
             ({ x := 2, y := 1 }, 3),
             ({ x := 2, y := 0 }, 4),
             ({ x := 1, y := 0 }, 5),
             ({ x := 0, y := 0 }, 6),
             ({ x := 1, y := 1 }, 6),
             ({ x := 0, y := 1 }, 7),
             ({ x := 1, y := 2 }, 7),
             ({ x := 0, y := 2 }, 8),
             ({ x := 1, y := 3 }, 8)],
    rhsmap := [({ x := 3, y := 3 }, 0),
               ({ x := 3, y := 2 }, 1),
               ({ x := 2, y := 3 }, 1),
               ({ x := 3, y := 1 }, 2),
               ({ x := 2, y := 2 }, 2),
               ({ x := 1, y := 3 }, 8),
               ({ x := 3, y := 0 }, 3),
               ({ x := 2, y := 1 }, 3),
               ({ x := 1, y := 2 }, 7),
               ({ x := 2, y := 0 }, 4),
               ({ x := 1, y := 1 }, 6),
               ({ x := 1, y := 0 }, 5),
               ({ x := 0, y := 0 }, 6),
               ({ x := 0, y := 1 }, 7),
               ({ x := 0, y := 2 }, 8),
               ({ x := 0, y := 3 }, 9)],
    queue_hash := [({ x := 0, y := 3 }, 20)],
    hash_counter := 20 }

/-- Search state 16 of the C7 second call. -/
def c7S16 : SSearch :=
  { open_queue := [],
    gmap := [({ x := 3, y := 3 }, 0),
             ({ x := 3, y := 2 }, 1),
             ({ x := 2, y := 3 }, 1),
             ({ x := 3, y := 1 }, 2),
             ({ x := 2, y := 2 }, 2),
             ({ x := 3, y := 0 }, 3),
             ({ x := 2, y := 1 }, 3),
             ({ x := 2, y := 0 }, 4),
             ({ x := 1, y := 0 }, 5),
             ({ x := 0, y := 0 }, 6),
             ({ x := 1, y := 1 }, 6),
             ({ x := 0, y := 1 }, 7),
             ({ x := 1, y := 2 }, 7),
             ({ x := 0, y := 2 }, 8),
             ({ x := 1, y := 3 }, 8),
             ({ x := 0, y := 3 }, 9)],
    rhsmap := [({ x := 3, y := 3 }, 0),
               ({ x := 3, y := 2 }, 1),
               ({ x := 2, y := 3 }, 1),
               ({ x := 3, y := 1 }, 2),
               ({ x := 2, y := 2 }, 2),
               ({ x := 1, y := 3 }, 8),
               ({ x := 3, y := 0 }, 3),
               ({ x := 2, y := 1 }, 3),
               ({ x := 1, y := 2 }, 7),
               ({ x := 2, y := 0 }, 4),
               ({ x := 1, y := 1 }, 6),
               ({ x := 1, y := 0 }, 5),
               ({ x := 0, y := 0 }, 6),
               ({ x := 0, y := 1 }, 7),
               ({ x := 0, y := 2 }, 8),
               ({ x := 0, y := 3 }, 9)],
    queue_hash := [],
    hash_counter := 20 }


/-- The first C7 call takes the A* branch and produces state c7H1. -/
theorem c7_call1 :
    Hybrid.find_path c7Grid (Hybrid.new ⟨0, 0⟩ ⟨3, 3⟩) ⟨0, 0⟩ ⟨3, 3⟩ c7O1
      = (some c7P1, c7H1) := by
  have h := hybrid_astar_some c7Grid (Hybrid.new ⟨0, 0⟩ ⟨3, 3⟩) ⟨0, 0⟩ ⟨3, 3⟩ c7O1 c7P1
    (by decide) (by decide)
  rw [h]
  rfl

/-- The search phase of the second C7 call, staged. -/
theorem c7_runSearch :
    SimpleDStar.runSearch c7Grid c7O2 ⟨0, 0⟩ ⟨3, 3⟩ 0 = c7S16 := by
  have hInit : SimpleDStar.searchInit ⟨0, 0⟩ ⟨3, 3⟩ 0 = c7S0 := by decide
  have t0 : SimpleDStar.mainLoop c7Grid c7O2 ⟨0, 0⟩ ⟨3, 3⟩ 0 80000 c7S0
      = SimpleDStar.mainLoop c7Grid c7O2 ⟨0, 0⟩ ⟨3, 3⟩ 0 79999 c7S1 :=
    mainLoop_step c7Grid c7O2 ⟨0, 0⟩ ⟨3, 3⟩ 0 79999 c7S0 c7S1 (by decide) (by decide)
  have t1 : SimpleDStar.mainLoop c7Grid c7O2 ⟨0, 0⟩ ⟨3, 3⟩ 0 79999 c7S1
      = SimpleDStar.mainLoop c7Grid c7O2 ⟨0, 0⟩ ⟨3, 3⟩ 0 79998 c7S2 :=
    mainLoop_step c7Grid c7O2 ⟨0, 0⟩ ⟨3, 3⟩ 0 79998 c7S1 c7S2 (by decide) (by decide)
  have t2 : SimpleDStar.mainLoop c7Grid c7O2 ⟨0, 0⟩ ⟨3, 3⟩ 0 79998 c7S2
      = SimpleDStar.mainLoop c7Grid c7O2 ⟨0, 0⟩ ⟨3, 3⟩ 0 79997 c7S3 :=
    mainLoop_step c7Grid c7O2 ⟨0, 0⟩ ⟨3, 3⟩ 0 79997 c7S2 c7S3 (by decide) (by decide)
  have t3 : SimpleDStar.mainLoop c7Grid c7O2 ⟨0, 0⟩ ⟨3, 3⟩ 0 79997 c7S3
      = SimpleDStar.mainLoop c7Grid c7O2 ⟨0, 0⟩ ⟨3, 3⟩ 0 79996 c7S4 :=
    mainLoop_step c7Grid c7O2 ⟨0, 0⟩ ⟨3, 3⟩ 0 79996 c7S3 c7S4 (by decide) (by decide)
  have t4 : SimpleDStar.mainLoop c7Grid c7O2 ⟨0, 0⟩ ⟨3, 3⟩ 0 79996 c7S4
      = SimpleDStar.mainLoop c7Grid c7O2 ⟨0, 0⟩ ⟨3, 3⟩ 0 79995 c7S5 :=
    mainLoop_step c7Grid c7O2 ⟨0, 0⟩ ⟨3, 3⟩ 0 79995 c7S4 c7S5 (by decide) (by decide)
  have t5 : SimpleDStar.mainLoop c7Grid c7O2 ⟨0, 0⟩ ⟨3, 3⟩ 0 79995 c7S5
      = SimpleDStar.mainLoop c7Grid c7O2 ⟨0, 0⟩ ⟨3, 3⟩ 0 79994 c7S6 :=
    mainLoop_step c7Grid c7O2 ⟨0, 0⟩ ⟨3, 3⟩ 0 79994 c7S5 c7S6 (by decide) (by decide)
  have t6 : SimpleDStar.mainLoop c7Grid c7O2 ⟨0, 0⟩ ⟨3, 3⟩ 0 79994 c7S6
      = SimpleDStar.mainLoop c7Grid c7O2 ⟨0, 0⟩ ⟨3, 3⟩ 0 79993 c7S7 :=
    mainLoop_step c7Grid c7O2 ⟨0, 0⟩ ⟨3, 3⟩ 0 79993 c7S6 c7S7 (by decide) (by decide)
  have t7 : SimpleDStar.mainLoop c7Grid c7O2 ⟨0, 0⟩ ⟨3, 3⟩ 0 79993 c7S7
      = SimpleDStar.mainLoop c7Grid c7O2 ⟨0, 0⟩ ⟨3, 3⟩ 0 79992 c7S8 :=
    mainLoop_step c7Grid c7O2 ⟨0, 0⟩ ⟨3, 3⟩ 0 79992 c7S7 c7S8 (by decide) (by decide)
  have t8 : SimpleDStar.mainLoop c7Grid c7O2 ⟨0, 0⟩ ⟨3, 3⟩ 0 79992 c7S8
      = SimpleDStar.mainLoop c7Grid c7O2 ⟨0, 0⟩ ⟨3, 3⟩ 0 79991 c7S9 :=
    mainLoop_step c7Grid c7O2 ⟨0, 0⟩ ⟨3, 3⟩ 0 79991 c7S8 c7S9 (by decide) (by decide)
  have t9 : SimpleDStar.mainLoop c7Grid c7O2 ⟨0, 0⟩ ⟨3, 3⟩ 0 79991 c7S9
      = SimpleDStar.mainLoop c7Grid c7O2 ⟨0, 0⟩ ⟨3, 3⟩ 0 79990 c7S10 :=
    mainLoop_step c7Grid c7O2 ⟨0, 0⟩ ⟨3, 3⟩ 0 79990 c7S9 c7S10 (by decide) (by decide)
  have t10 : SimpleDStar.mainLoop c7Grid c7O2 ⟨0, 0⟩ ⟨3, 3⟩ 0 79990 c7S10
      = SimpleDStar.mainLoop c7Grid c7O2 ⟨0, 0⟩ ⟨3, 3⟩ 0 79989 c7S11 :=
    mainLoop_step c7Grid c7O2 ⟨0, 0⟩ ⟨3, 3⟩ 0 79989 c7S10 c7S11 (by decide) (by decide)
  have t11 : SimpleDStar.mainLoop c7Grid c7O2 ⟨0, 0⟩ ⟨3, 3⟩ 0 79989 c7S11
      = SimpleDStar.mainLoop c7Grid c7O2 ⟨0, 0⟩ ⟨3, 3⟩ 0 79988 c7S12 :=
    mainLoop_step c7Grid c7O2 ⟨0, 0⟩ ⟨3, 3⟩ 0 79988 c7S11 c7S12 (by decide) (by decide)
  have t12 : SimpleDStar.mainLoop c7Grid c7O2 ⟨0, 0⟩ ⟨3, 3⟩ 0 79988 c7S12
      = SimpleDStar.mainLoop c7Grid c7O2 ⟨0, 0⟩ ⟨3, 3⟩ 0 79987 c7S13 :=
    mainLoop_step c7Grid c7O2 ⟨0, 0⟩ ⟨3, 3⟩ 0 79987 c7S12 c7S13 (by decide) (by decide)
  have t13 : SimpleDStar.mainLoop c7Grid c7O2 ⟨0, 0⟩ ⟨3, 3⟩ 0 79987 c7S13
      = SimpleDStar.mainLoop c7Grid c7O2 ⟨0, 0⟩ ⟨3, 3⟩ 0 79986 c7S14 :=
    mainLoop_step c7Grid c7O2 ⟨0, 0⟩ ⟨3, 3⟩ 0 79986 c7S13 c7S14 (by decide) (by decide)
  have t14 : SimpleDStar.mainLoop c7Grid c7O2 ⟨0, 0⟩ ⟨3, 3⟩ 0 79986 c7S14
      = SimpleDStar.mainLoop c7Grid c7O2 ⟨0, 0⟩ ⟨3, 3⟩ 0 79985 c7S15 :=
    mainLoop_step c7Grid c7O2 ⟨0, 0⟩ ⟨3, 3⟩ 0 79985 c7S14 c7S15 (by decide) (by decide)
  have t15 : SimpleDStar.mainLoop c7Grid c7O2 ⟨0, 0⟩ ⟨3, 3⟩ 0 79985 c7S15
      = SimpleDStar.mainLoop c7Grid c7O2 ⟨0, 0⟩ ⟨3, 3⟩ 0 79984 c7S16 :=
    mainLoop_step c7Grid c7O2 ⟨0, 0⟩ ⟨3, 3⟩ 0 79984 c7S15 c7S16 (by decide) (by decide)
  have tD : SimpleDStar.mainLoop c7Grid c7O2 ⟨0, 0⟩ ⟨3, 3⟩ 0 79984 c7S16 = c7S16 :=
    mainLoop_done c7Grid c7O2 ⟨0, 0⟩ ⟨3, 3⟩ 0 79984 c7S16 (by decide)
  unfold SimpleDStar.runSearch
  rw [hInit]
  exact t0.trans (t1.trans (t2.trans (t3.trans (t4.trans (t5.trans (t6.trans (t7.trans (t8.trans (t9.trans (t10.trans (t11.trans (t12.trans (t13.trans (t14.trans (t15.trans (tD))))))))))))))))

/-- The simple engine's result on the second C7 call. -/
theorem c7_simple_call2 :
    SimpleDStar.find_path c7Grid SimpleDStar.newState ⟨0, 0⟩ ⟨3, 3⟩ c7O2
      = (some c7P2,
        { initialized := true, s_start := ⟨0, 0⟩, s_goal := ⟨3, 3⟩, s_last := ⟨0, 0⟩,
           k_m := 0 }) := by
  have hprol : SimpleDStar.prologue SimpleDStar.newState ⟨0, 0⟩ ⟨3, 3⟩
      = { initialized := true, s_start := ⟨0, 0⟩, s_goal := ⟨3, 3⟩, s_last := ⟨0, 0⟩,
           k_m := 0 } := by decide
  rw [simple_find_path_eq, hprol]
  show (if SimpleDStar.get_g (SimpleDStar.runSearch c7Grid c7O2 ⟨0, 0⟩ ⟨3, 3⟩ 0) ⟨0, 0⟩ = INF
        then none
        else SimpleDStar.extractLoop c7Grid c7O2 ⟨3, 3⟩
          (SimpleDStar.runSearch c7Grid c7O2 ⟨0, 0⟩ ⟨3, 3⟩ 0) 19 ⟨0, 0⟩ [⟨0, 0⟩], _) = _
  rw [c7_runSearch]
  rw [if_neg (by decide)]
  have hext : SimpleDStar.extractLoop c7Grid c7O2 ⟨3, 3⟩ c7S16 19 ⟨0, 0⟩ [⟨0, 0⟩]
      = some c7P2 := by decide
  rw [hext]

/-- The number of positions that entered or left the obstacle set
between two calls (the quantity the claim's threshold tests). -/
def symmDiffLen (prev cur : List Position) : Nat :=
  hsLen (prev.filter (fun p => p ∉ cur) ++ cur.filter (fun p => p ∉ prev))

/-- C7 counterexample: a reachable two-call hybrid scenario in which
the symmetric difference of the obstacle sets has 6 elements (more than
the threshold 5), so the claim requires the second call to invoke A*;
but the two sets have equal cardinality, the source tests only the
absolute difference of the sizes, and the second call invokes the
D* Lite Simple engine instead (its usage counter increments while the
A* counter does not). -/
theorem c7_counterexample :
    5 < symmDiffLen c7O1 c7O2 ∧
    (Hybrid.find_path c7Grid (Hybrid.new ⟨0, 0⟩ ⟨3, 3⟩) ⟨0, 0⟩ ⟨3, 3⟩ c7O1).2.initial_path_found
      = true ∧
    (let r2 := Hybrid.find_path c7Grid
      (Hybrid.find_path c7Grid (Hybrid.new ⟨0, 0⟩ ⟨3, 3⟩) ⟨0, 0⟩ ⟨3, 3⟩ c7O1).2
      ⟨0, 0⟩ ⟨3, 3⟩ c7O2
     r2.2.a_star_usage_count = 1 ∧ r2.2.d_star_usage_count = 1) := by
  refine ⟨by decide, ?_, ?_⟩
  · rw [c7_call1]
    rfl
  · have h2 := hybrid_dstar_some c7Grid c7H1 ⟨0, 0⟩ ⟨3, 3⟩ c7O2 c7P2
      { initialized := true, s_start := ⟨0, 0⟩, s_goal := ⟨3, 3⟩, s_last := ⟨0, 0⟩, k_m := 0 }
      (by decide) c7_simple_call2
    simp only [c7_call1]
    rw [h2]
    exact ⟨rfl, rfl⟩

/-- C7 amended: the dispatcher invokes the D* Lite Simple engine
exactly when should_use_astar is false, and A* exactly when
should_use_astar is true or, as a fallback, when the D* Lite Simple
engine was chosen and returned none; should_use_astar holds exactly
when no path has been found yet, or the goal changed, or the Manhattan
displacement of the start exceeds 3, or the obstacle set changed AND
the absolute difference of the two set sizes (not the symmetric
difference) exceeds 5. -/
theorem c7_dispatch (grid : Grid) (st : HState) (start goal : Position)
    (obstacles : List Position) :
    ((Hybrid.find_path grid st start goal obstacles).2.d_star_usage_count
      = st.d_star_usage_count +
        (if Hybrid.should_use_astar st start goal obstacles then 0 else 1)) ∧
    ((Hybrid.find_path grid st start goal obstacles).2.a_star_usage_count
      = st.a_star_usage_count +
        (if Hybrid.should_use_astar st start goal obstacles then 1
         else if (SimpleDStar.find_path grid st.d_star_lite_simple start goal obstacles).1
             = none then 1
           else 0)) ∧
    (Hybrid.should_use_astar st start goal obstacles = true
      ↔ (st.initial_path_found = false ∨ st.last_goal ≠ goal ∨
          3 < manhattan start st.last_start ∨
          (hsEq obstacles st.last_obstacles = false ∧
            5 < natAbsDiff (hsLen obstacles) (hsLen st.last_obstacles)))) := by
  refine ⟨?_, ?_, ?_⟩
  · unfold Hybrid.find_path
    by_cases h : Hybrid.should_use_astar st start goal obstacles = true
    · rw [if_pos h, h]
      cases astar_find_path grid start goal obstacles <;> simp
    · rw [if_neg h]
      rw [Bool.not_eq_true] at h
      rw [h]
      dsimp only
      cases hfp : SimpleDStar.find_path grid st.d_star_lite_simple start goal obstacles with
      | mk r1 r2 => cases r1 <;> simp
  · unfold Hybrid.find_path
    by_cases h : Hybrid.should_use_astar st start goal obstacles = true
    · rw [if_pos h, h]
      cases astar_find_path grid start goal obstacles <;> simp
    · rw [if_neg h]
      rw [Bool.not_eq_true] at h
      rw [h]
      dsimp only
      cases hfp : SimpleDStar.find_path grid st.d_star_lite_simple start goal obstacles with
      | mk r1 r2 => cases r1 <;> simp
  · unfold Hybrid.should_use_astar
    cases hf : st.initial_path_found <;>
      by_cases hg : st.last_goal = goal <;>
        by_cases hd : 3 < manhattan start st.last_start <;>
          cases he : hsEq obstacles st.last_obstacles <;>
            by_cases hn : 5 < natAbsDiff (hsLen obstacles) (hsLen st.last_obstacles) <;>
              simp [hf, hg, hd, he, hn]


/-! ## C8: stuck-wait handling in Simulation::run -/

/-- Simulation::run when the initial find_path succeeds: set the path
and run the capped main loop, then clear remaining obstacles. -/
theorem runSim_some {σ : Type} (eng : Engine σ) (st : SimState σ) (p : List Position)
    (a2 : σ)
    (h : eng.callFindPath st.grid st.algState st.agent.position st.grid.goal
      st.agent.known_obstacles = (some p, a2)) :
    Simulation.runSim eng st
      = Simulation.clear_all_obstacles
          (Simulation.runLoop eng (st.grid.size * st.grid.size * 4)
            { st with algState := a2, agent := Agent.set_path st.agent p }) := by
  unfold Simulation.runSim
  rw [h]

/-- One continuing iteration of the run loop. -/
theorem runLoop_cont {σ : Type} (eng : Engine σ) (fuel : Nat) (st st' : SimState σ)
    (hg : st.agent.position ≠ st.grid.goal)
    (h : Simulation.simTick eng st = Simulation.TickResult.cont st') :
    Simulation.runLoop eng (fuel + 1) st = Simulation.runLoop eng fuel st' := by
  simp [Simulation.runLoop, hg, h]

/-- A halting iteration of the run loop. -/
theorem runLoop_halt {σ : Type} (eng : Engine σ) (fuel : Nat) (st st' : SimState σ)
    (hg : st.agent.position ≠ st.grid.goal)
    (h : Simulation.simTick eng st = Simulation.TickResult.halt st') :
    Simulation.runLoop eng (fuel + 1) st = st' := by
  simp [Simulation.runLoop, hg, h]

/-- When a triggered replan fails, the consecutive-failure counter is
incremented; the tick then either counts a stuck-wait move or signals
an abort, depending on whether the counter exceeds 5. -/
theorem tickReplan_fail {σ : Type} (eng : Engine σ) (stS : SimState σ) (chg : Bool)
    (σ2 : σ)
    (hR : Simulation.needsRecalc stS chg = true)
    (hN : eng.callFindPath stS.grid
      (eng.callUpdateEnv stS.grid stS.algState stS.agent.known_obstacles)
      stS.agent.position stS.grid.goal stS.agent.known_obstacles = (none, σ2)) :
    Simulation.tickReplan eng stS chg =
      if stS.stuck_attempts + 1 ≤ 5 then
        ({ stS with
            algState := σ2
            stuck_attempts := stS.stuck_attempts + 1
            total_moves := stS.total_moves + 1 }, false)
      else
        ({ stS with algState := σ2, stuck_attempts := stS.stuck_attempts + 1 }, true) := by
  unfold Simulation.tickReplan
  rw [if_pos hR]
  dsimp only
  rw [hN]

/-- When a triggered replan succeeds, the path is set and the
consecutive-failure counter resets to zero. -/
theorem tickReplan_succeed {σ : Type} (eng : Engine σ) (stS : SimState σ) (chg : Bool)
    (p : List Position) (σ3 : σ)
    (hR : Simulation.needsRecalc stS chg = true)
    (hS : eng.callFindPath stS.grid
      (eng.callUpdateEnv stS.grid stS.algState stS.agent.known_obstacles)
      stS.agent.position stS.grid.goal stS.agent.known_obstacles = (some p, σ3)) :
    Simulation.tickReplan eng stS chg =
      ({ stS with
          algState := σ3
          agent := Agent.set_path stS.agent p
          stuck_attempts := 0 }, false) := by
  unfold Simulation.tickReplan
  rw [if_pos hR]
  dsimp only
  rw [hS]

/-- One simulation tick, expressed through its sensing result and the
replan phase. -/
theorem simTick_eq {σ : Type} (eng : Engine σ) (st stS : SimState σ) (chg : Bool)
    (hSense : Simulation.tickSense st = (stS, chg)) :
    Simulation.simTick eng st =
      if (Simulation.tickReplan eng stS chg).2 then
        Simulation.TickResult.halt (Simulation.tickReplan eng stS chg).1
      else Simulation.tickMove (Simulation.tickReplan eng stS chg).1 := by
  unfold Simulation.simTick
  rw [hSense]

/-- C8 amended: in a tick whose replan is triggered and whose pathfinder
returns none, the driver increments the consecutive-failure counter; if
that counter is still at most 5 it counts one stuck-wait move and the
run continues, and otherwise — on the SIXTH consecutive failure — the
run aborts as failed without counting a move.  A successful replan
resets the counter to zero. -/
theorem c8_stuck_behavior {σ : Type} (eng : Engine σ) (st stS : SimState σ) (chg : Bool)
    (σ2 : σ)
    (hSense : Simulation.tickSense st = (stS, chg))
    (hR : Simulation.needsRecalc stS chg = true)
    (hN : eng.callFindPath stS.grid
      (eng.callUpdateEnv stS.grid stS.algState stS.agent.known_obstacles)
      stS.agent.position stS.grid.goal stS.agent.known_obstacles = (none, σ2)) :
    (stS.stuck_attempts + 1 ≤ 5 →
      Simulation.simTick eng st = Simulation.TickResult.cont
        { stS with
          algState := σ2
          stuck_attempts := stS.stuck_attempts + 1
          total_moves := stS.total_moves + 1 }) ∧
    (¬ stS.stuck_attempts + 1 ≤ 5 →
      Simulation.simTick eng st = Simulation.TickResult.halt
        { stS with algState := σ2, stuck_attempts := stS.stuck_attempts + 1 }) ∧
    (∀ (p : List Position) (σ3 : σ),
      eng.callFindPath stS.grid
          (eng.callUpdateEnv stS.grid stS.algState stS.agent.known_obstacles)
          stS.agent.position stS.grid.goal stS.agent.known_obstacles = (some p, σ3) →
      (Simulation.tickReplan eng stS chg).1.stuck_attempts = 0 ∧
        (Simulation.tickReplan eng stS chg).2 = false) := by
  refine ⟨?_, ?_, ?_⟩
  · intro hle
    rw [simTick_eq eng st stS chg hSense, tickReplan_fail eng stS chg σ2 hR hN,
      if_pos hle]
    dsimp only
    unfold Simulation.tickMove
    rw [if_neg (Nat.succ_ne_zero stS.stuck_attempts)]
    simp
  · intro hgt
    rw [simTick_eq eng st stS chg hSense, tickReplan_fail eng stS chg σ2 hR hN,
      if_neg hgt]
    simp
  · intro p σ3 hS
    rw [tickReplan_succeed eng stS chg p σ3 hR hS]
    exact ⟨rfl, rfl⟩

/-- A 3 x 3 empty grid whose timeline walls the agent in at the start
corner on the first cycle. -/
def c8Grid : Grid :=
  { size := 3
    cells := [[Cell.Empty, Cell.Empty, Cell.Empty],
              [Cell.Empty, Cell.Empty, Cell.Empty],
              [Cell.Empty, Cell.Empty, Cell.Empty]]
    start := ⟨0, 0⟩
    goal := ⟨2, 2⟩ }

/-- The C8 grid after the single timeline group has been placed. -/
def c8GridOb : Grid :=
  { size := 3
    cells := [[Cell.Empty, Cell.Obstacle, Cell.Empty],
              [Cell.Obstacle, Cell.Empty, Cell.Empty],
              [Cell.Empty, Cell.Empty, Cell.Empty]]
    start := ⟨0, 0⟩
    goal := ⟨2, 2⟩ }

/-- The initial path the A* engine plans on the empty C8 grid. -/
def c8P0 : List Position := [⟨0, 0⟩, ⟨0, 1⟩, ⟨0, 2⟩, ⟨1, 2⟩, ⟨2, 2⟩]

/-- The C8 simulation start state: one timeline group {(1,0), (0,1)}
placed on the first cycle, long persistence. -/
def c8S0 : SimState Unit :=
  { grid := c8Grid
    agent := Agent.new ⟨0, 0⟩
    algState := ()
    total_moves := 0
    stuck_attempts := 0
    active_obstacle_groups := []
    cycles_since_last_obstacle := 0
    current_obstacle_cycle := 0
    obstacle_timeline := [[⟨1, 0⟩, ⟨0, 1⟩]]
    obstacle_cycle_interval := 1
    obstacle_persistence_cycles := 100 }

/-- The C8 state entering the main loop, after the initial planning. -/
def c8S1 : SimState Unit :=
  { grid := c8Grid
    agent := { position := ⟨0, 0⟩, known_obstacles := [], current_path := some c8P0,
               path_index := 0 }
    algState := ()
    total_moves := 0
    stuck_attempts := 0
    active_obstacle_groups := []
    cycles_since_last_obstacle := 0
    current_obstacle_cycle := 0
    obstacle_timeline := [[⟨1, 0⟩, ⟨0, 1⟩]]
    obstacle_cycle_interval := 1
    obstacle_persistence_cycles := 100 }

/-- The C8 loop states after the obstacles appear: only the move count,
the consecutive-failure count and the group persistence counter vary
between ticks. -/
def c8Mid (tm sa pc : Nat) : SimState Unit :=
  { grid := c8GridOb
    agent := { position := ⟨0, 0⟩, known_obstacles := [⟨1, 0⟩, ⟨0, 1⟩],
               current_path := some c8P0, path_index := 0 }
    algState := ()
    total_moves := tm
    stuck_attempts := sa
    active_obstacle_groups := [([⟨1, 0⟩, ⟨0, 1⟩], pc)]
    cycles_since_last_obstacle := 0
    current_obstacle_cycle := 1
    obstacle_timeline := [[⟨1, 0⟩, ⟨0, 1⟩]]
    obstacle_cycle_interval := 1
    obstacle_persistence_cycles := 100 }

/-- The state Simulation::run returns in the C8 scenario. -/
def c8Final : SimState Unit :=
  { grid := c8Grid
    agent := { position := ⟨0, 0⟩, known_obstacles := [⟨1, 0⟩, ⟨0, 1⟩],
               current_path := some c8P0, path_index := 0 }
    algState := ()
    total_moves := 5
    stuck_attempts := 6
    active_obstacle_groups := []
    cycles_since_last_obstacle := 0
    current_obstacle_cycle := 1
    obstacle_timeline := [[⟨1, 0⟩, ⟨0, 1⟩]]
    obstacle_cycle_interval := 1
    obstacle_persistence_cycles := 100 }

/-- C8 counterexample: a full run of the A* engine in which the agent is
walled in by timeline obstacles on the first tick.  The replan fails in
six consecutive ticks.  The FIFTH consecutive failure does not abort the
run (the tick from stuck count 4 continues), so the run is not aborted
"exactly after 5 consecutive failures"; it aborts on the sixth, and that
aborting tick does not increment total_moves even though its replan was
triggered and returned none.  The completed run confirms the reachable
totals: 5 counted stuck-wait moves, failure counter 6, agent still at
the start. -/
theorem c8_counterexample :
    Simulation.runSim aStarEngine c8S0 = c8Final ∧
    Simulation.simTick aStarEngine (c8Mid 4 4 97)
      = Simulation.TickResult.cont (c8Mid 5 5 96) ∧
    (c8Mid 5 5 96).stuck_attempts = 5 ∧
    Simulation.simTick aStarEngine (c8Mid 5 5 96)
      = Simulation.TickResult.halt (c8Mid 5 6 95) ∧
    (c8Mid 5 6 95).total_moves = (c8Mid 5 5 96).total_moves ∧
    c8Final.total_moves = 5 ∧
    c8Final.stuck_attempts = 6 ∧
    c8Final.agent.position ≠ c8Final.grid.goal := by
  have t1 : Simulation.simTick aStarEngine c8S1
      = Simulation.TickResult.cont (c8Mid 1 1 100) := by decide
  have t2 : Simulation.simTick aStarEngine (c8Mid 1 1 100)
      = Simulation.TickResult.cont (c8Mid 2 2 99) := by decide
  have t3 : Simulation.simTick aStarEngine (c8Mid 2 2 99)
      = Simulation.TickResult.cont (c8Mid 3 3 98) := by decide
  have t4 : Simulation.simTick aStarEngine (c8Mid 3 3 98)
      = Simulation.TickResult.cont (c8Mid 4 4 97) := by decide
  have t5 : Simulation.simTick aStarEngine (c8Mid 4 4 97)
      = Simulation.TickResult.cont (c8Mid 5 5 96) := by decide
  have t6 : Simulation.simTick aStarEngine (c8Mid 5 5 96)
      = Simulation.TickResult.halt (c8Mid 5 6 95) := by decide
  have h0 : aStarEngine.callFindPath c8S0.grid c8S0.algState c8S0.agent.position
      c8S0.grid.goal c8S0.agent.known_obstacles = (some c8P0, ()) := by decide
  have l1 : Simulation.runLoop aStarEngine 36 c8S1
      = Simulation.runLoop aStarEngine 35 (c8Mid 1 1 100) :=
    runLoop_cont aStarEngine 35 c8S1 (c8Mid 1 1 100) (by decide) t1
  have l2 : Simulation.runLoop aStarEngine 35 (c8Mid 1 1 100)
      = Simulation.runLoop aStarEngine 34 (c8Mid 2 2 99) :=
    runLoop_cont aStarEngine 34 (c8Mid 1 1 100) (c8Mid 2 2 99) (by decide) t2
  have l3 : Simulation.runLoop aStarEngine 34 (c8Mid 2 2 99)
      = Simulation.runLoop aStarEngine 33 (c8Mid 3 3 98) :=
    runLoop_cont aStarEngine 33 (c8Mid 2 2 99) (c8Mid 3 3 98) (by decide) t3
  have l4 : Simulation.runLoop aStarEngine 33 (c8Mid 3 3 98)
      = Simulation.runLoop aStarEngine 32 (c8Mid 4 4 97) :=
    runLoop_cont aStarEngine 32 (c8Mid 3 3 98) (c8Mid 4 4 97) (by decide) t4
  have l5 : Simulation.runLoop aStarEngine 32 (c8Mid 4 4 97)
      = Simulation.runLoop aStarEngine 31 (c8Mid 5 5 96) :=
    runLoop_cont aStarEngine 31 (c8Mid 4 4 97) (c8Mid 5 5 96) (by decide) t5
  have l6 : Simulation.runLoop aStarEngine 31 (c8Mid 5 5 96) = c8Mid 5 6 95 :=
    runLoop_halt aStarEngine 30 (c8Mid 5 5 96) (c8Mid 5 6 95) (by decide) t6
  have hrun : Simulation.runSim aStarEngine c8S0 = c8Final := by
    rw [runSim_some aStarEngine c8S0 c8P0 () h0]
    show Simulation.clear_all_obstacles (Simulation.runLoop aStarEngine 36 c8S1) = c8Final
    rw [l1, l2, l3, l4, l5, l6]
    decide
  exact ⟨hrun, t5, by decide, t6, by decide, by decide, by decide, by decide⟩

/-- Concrete instance of the C8 stuck-wait behaviour, on the tick of
the fifth consecutive replanning failure of the C8 scenario. -/
theorem c8_stuck_behavior_witness :
    Simulation.simTick aStarEngine (c8Mid 4 4 97)
      = Simulation.TickResult.cont (c8Mid 5 5 96) :=
  ((c8_stuck_behavior aStarEngine (c8Mid 4 4 97) (c8Mid 4 4 96) false ()
      (by decide) (by decide) (by decide)).1 (by decide)).trans (by decide)

/-! ## C1: validity of every returned path -/

/-- Two positions differ by exactly 1 in exactly one coordinate. -/
def adjacent (a b : Position) : Prop :=
  (a.x = b.x ∧ (a.y + 1 = b.y ∨ b.y + 1 = a.y)) ∨
  (a.y = b.y ∧ (a.x + 1 = b.x ∨ b.x + 1 = a.x))

instance (a b : Position) : Decidable (adjacent a b) := by
  unfold adjacent
  infer_instance

/-- A cell an engine may step onto: not a Wall, not a known obstacle. -/
def traversableCell (grid : Grid) (obstacles : List Position) (q : Position) : Prop :=
  cellAt grid q ≠ Cell.Wall ∧ q ∉ obstacles

/-- The validity property C1 claims of every returned path. -/
def pathValid (grid : Grid) (obstacles : List Position) (start goal : Position)
    (p : List Position) : Prop :=
  p.head? = some start ∧ p.getLast? = some goal ∧ List.Chain' adjacent p ∧
    (∀ q ∈ p, cellAt grid q ≠ Cell.Wall) ∧ ∀ q ∈ (p.drop 1).dropLast, q ∉ obstacles

/-- Every Grid::get_neighbors result is 4-adjacent to the queried
position and is not a Wall cell. -/
theorem mem_getNeighbors {g : Grid} {p q : Position} (h : q ∈ getNeighbors g p) :
    adjacent p q ∧ cellAt g q ≠ Cell.Wall := by
  unfold getNeighbors at h
  rw [List.mem_filter] at h
  obtain ⟨h1, h2⟩ := h
  rw [decide_eq_true_iff] at h2
  refine ⟨?_, h2⟩
  rw [List.reduceOption_mem_iff] at h1
  simp only [List.mem_cons, List.not_mem_nil, or_false] at h1
  rcases h1 with h1 | h1 | h1 | h1 <;> rw [eq_comm] at h1 <;> split_ifs at h1 with hc <;>
    simp only [Option.some.injEq] at h1 <;> subst h1 <;> unfold adjacent <;> dsimp only <;>
    omega

/-- min_by_key only returns elements of the list. -/
theorem minByFirst_mem_aux (f : Position → Nat) :
    ∀ (l : List Position) (acc : Option Position) (x : Position),
      l.foldl (fun acc x =>
        match acc with
        | none => some x
        | some b => if f x < f b then some x else acc) acc = some x →
      x ∈ l ∨ acc = some x := by
  intro l
  induction l with
  | nil => intro acc x h; exact Or.inr h
  | cons a as ih =>
    intro acc x h
    rw [List.foldl_cons] at h
    rcases ih _ x h with h1 | h1
    · exact Or.inl (List.mem_cons_of_mem a h1)
    · cases acc with
      | none =>
        simp only [Option.some.injEq] at h1
        exact Or.inl (h1 ▸ List.mem_cons_self a as)
      | some b =>
        dsimp only at h1
        split_ifs at h1 with hc
        · simp only [Option.some.injEq] at h1
          exact Or.inl (h1 ▸ List.mem_cons_self a as)
        · exact Or.inr h1

/-- min_by_key only returns elements of the list. -/
theorem minByFirst_mem {f : Position → Nat} {l : List Position} {x : Position}
    (h : DStarLite.minByFirst f l = some x) : x ∈ l := by
  rcases minByFirst_mem_aux f l none x h with h1 | h1
  · exact h1
  · exact Option.noConfusion h1

/-- A finite edge cost means the target is in bounds, not an obstacle
and not a Wall. -/
theorem edge_cost_ne_INF {grid : Grid} {obstacles : List Position} {p : Position}
    (h : DStarLite.get_edge_cost grid obstacles p ≠ INF) :
    traversableCell grid obstacles p := by
  unfold DStarLite.get_edge_cost at h
  split_ifs at h with h1 h2
  · exact absurd rfl h
  · exact absurd rfl h
  · push_neg at h2
    exact ⟨h2.2, h2.1⟩

/-- A finite simple-engine cost means the target is in bounds, not an
obstacle and not a Wall. -/
theorem cost_ne_INF {grid : Grid} {obstacles : List Position} {p : Position}
    (h : SimpleDStar.cost grid obstacles p ≠ INF) :
    traversableCell grid obstacles p := by
  unfold SimpleDStar.cost at h
  split_ifs at h with h1 h2
  · exact absurd rfl h
  · exact absurd rfl h
  · push_neg at h2
    exact ⟨h2.2, h2.1⟩

/-- Invariant carried through DStarLite::extract_path's loop: the path
so far ends at the current cell, is chained by 4-adjacency, and every
cell after the head is traversable; any returned path then keeps the
head, is chained, ends at the goal, and stays traversable after the
head. -/
theorem dstar_extractLoop_valid (grid : Grid) (obstacles : List Position) (st : DState) :
    ∀ (fuel : Nat) (current : Position) (visited path res : List Position),
      DStarLite.extractLoop grid obstacles st fuel current visited path = some res →
      path.getLast? = some current →
      List.Chain' adjacent path →
      (∀ q ∈ path.drop 1, traversableCell grid obstacles q) →
      res.head? = path.head? ∧ res.getLast? = some st.goal ∧
        List.Chain' adjacent res ∧ ∀ q ∈ res.drop 1, traversableCell grid obstacles q := by
  intro fuel
  induction fuel with
  | zero => intro current visited path res h; exact Option.noConfusion h
  | succ n ih =>
    intro current visited path res h hlast hchain hok
    have hne : path ≠ [] := by
      intro hnil
      rw [hnil] at hlast
      exact Option.noConfusion hlast
    rw [DStarLite.extractLoop] at h
    split at h
    · rename_i hg
      rw [Option.some.injEq] at h
      subst h
      exact ⟨rfl, hg ▸ hlast, hchain, hok⟩
    · split at h
      · exact Option.noConfusion h
      · rename_i hg hv
        dsimp only at h
        split at h
        · rename_i nxt heq
          have hmem : nxt ∈ (getNeighbors grid current).filter
              (fun pos => decide (DStarLite.get_edge_cost grid obstacles pos ≠ INF ∧
                pos ∉ current :: visited)) := minByFirst_mem heq
          rw [List.mem_filter, decide_eq_true_iff] at hmem
          have hadj := mem_getNeighbors hmem.1
          have htrav := edge_cost_ne_INF hmem.2.1
          split at h
          · exact Option.noConfusion h
          · split at h
            · exact Option.noConfusion h
            · have hrec := ih nxt (current :: visited) (path ++ [nxt]) res h
                (by rw [List.getLast?_concat])
                (by
                  rw [List.chain'_append]
                  refine ⟨hchain, List.chain'_singleton nxt, ?_⟩
                  intro x hx y hy
                  rw [hlast, Option.mem_def, Option.some.injEq] at hx
                  simp only [List.head?_cons, Option.mem_def, Option.some.injEq] at hy
                  rw [← hx, ← hy] at *
                  exact hx ▸ hy ▸ hadj.1)
                (by
                  intro q hq
                  rw [List.drop_append_of_le_length (by
                    cases path with
                    | nil => exact absurd rfl hne
                    | cons a t => simp)] at hq
                  rcases List.mem_append.mp hq with hq | hq
                  · exact hok q hq
                  · rw [List.mem_singleton] at hq
                    exact hq ▸ htrav)
              refine ⟨?_, hrec.2.1, hrec.2.2.1, hrec.2.2.2⟩
              rw [hrec.1]
              cases path with
              | nil => exact absurd rfl hne
              | cons a t => simp
        · rename_i heq
          split at h
          · rename_i alt halt
            have hmem : alt ∈ (getNeighbors grid current).filter
                (fun pos => decide (DStarLite.get_edge_cost grid obstacles pos ≠ INF ∧
                  pos ∉ current :: visited)) := minByFirst_mem halt
            rw [List.mem_filter, decide_eq_true_iff] at hmem
            have hadj := mem_getNeighbors hmem.1
            have htrav := edge_cost_ne_INF hmem.2.1
            have hrec := ih alt (current :: visited) (path ++ [alt]) res h
              (by rw [List.getLast?_concat])
              (by
                rw [List.chain'_append]
                refine ⟨hchain, List.chain'_singleton alt, ?_⟩
                intro x hx y hy
                rw [hlast, Option.mem_def, Option.some.injEq] at hx
                simp only [List.head?_cons, Option.mem_def, Option.some.injEq] at hy
                exact hx ▸ hy ▸ hadj.1)
              (by
                intro q hq
                rw [List.drop_append_of_le_length (by
                  cases path with
                  | nil => exact absurd rfl hne
                  | cons a t => simp)] at hq
                rcases List.mem_append.mp hq with hq | hq
                · exact hok q hq
                · rw [List.mem_singleton] at hq
                  exact hq ▸ htrav)
            refine ⟨?_, hrec.2.1, hrec.2.2.1, hrec.2.2.2⟩
            rw [hrec.1]
            cases path with
            | nil => exact absurd rfl hne
            | cons a t => simp
          · exact Option.noConfusion h

/-- Every path DStarLite::extract_path returns starts at the state's
start, ends at the state's goal, is chained by 4-adjacency, and is
traversable after the head. -/
theorem dstar_extract_path_valid {grid : Grid} {obstacles : List Position} {st : DState}
    {res : List Position}
    (h : DStarLite.extract_path grid obstacles st = some res) :
    res.head? = some st.start ∧ res.getLast? = some st.goal ∧
      List.Chain' adjacent res ∧ ∀ q ∈ res.drop 1, traversableCell grid obstacles q := by
  unfold DStarLite.extract_path at h
  split at h
  · exact Option.noConfusion h
  · have := dstar_extractLoop_valid grid obstacles st (grid.size * grid.size + 2)
      st.start [] [st.start] res h (by simp) (List.chain'_singleton st.start)
      (by intro q hq; simp at hq)
    exact ⟨by rw [this.1]; rfl, this.2.1, this.2.2.1, this.2.2.2⟩

/-- The start and goal fields of a DState. -/
def sgOf (st : DState) : Position × Position := (st.start, st.goal)

/-- update_vertex leaves start and goal unchanged. -/
theorem update_vertex_sg (grid : Grid) (obs : List Position) (st : DState)
    (pos : Position) : sgOf (DStarLite.update_vertex grid obs st pos) = sgOf st := by
  unfold DStarLite.update_vertex sgOf
  split <;> dsimp only <;> split <;> rfl

/-- Folding update_vertex leaves start and goal unchanged. -/
theorem foldl_update_vertex_sg (grid : Grid) (obs : List Position) (l : List Position) :
    ∀ st : DState, sgOf (l.foldl (DStarLite.update_vertex grid obs) st) = sgOf st := by
  induction l with
  | nil => intro st; rfl
  | cons a as ih =>
    intro st
    rw [List.foldl_cons, ih, update_vertex_sg]

/-- One compute iteration leaves start and goal unchanged. -/
theorem loopStep_sg (grid : Grid) (obs : List Position) (st : DState) :
    sgOf (DStarLite.loopStep grid obs st) = sgOf st := by
  unfold DStarLite.loopStep
  cases h : qTop st.queue with
  | none => rfl
  | some e =>
    cases e with
    | mk topKey topPos =>
      dsimp only
      split
      · rfl
      · split
        · rw [foldl_update_vertex_sg]
          rfl
        · rw [foldl_update_vertex_sg, update_vertex_sg]
          rfl

/-- The compute loop leaves start and goal unchanged. -/
theorem computeLoop_sg (grid : Grid) (obs : List Position) :
    ∀ (fuel : Nat) (st : DState),
      sgOf (DStarLite.computeLoop grid obs fuel st) = sgOf st := by
  intro fuel
  induction fuel with
  | zero => intro st; rfl
  | succ n ih =>
    intro st
    unfold DStarLite.computeLoop
    split
    · rfl
    · rw [ih, loopStep_sg]

/-- The once-only setup leaves start and goal unchanged. -/
theorem initStep_sg (st : DState) : sgOf (DStarLite.initStep st) = sgOf st := by
  unfold DStarLite.initStep
  split <;> rfl

/-- The start-change prologue installs the new start and keeps the
goal. -/
theorem startMovePrologue_sg (grid : Grid) (obs : List Position) (st : DState)
    (start : Position) :
    sgOf (DStarLite.startMovePrologue grid obs st start) = (start, st.goal) := by
  unfold DStarLite.startMovePrologue
  dsimp only
  split <;> first
    | rw [update_vertex_sg]; rfl
    | rfl

/-- The find_path prologue installs the requested start and goal. -/
theorem prep_state_sg (grid : Grid) (st0 : DState) (start goal : Position)
    (obstacles : List Position) :
    sgOf (DStarLite.prep_state grid st0 start goal obstacles) = (start, goal) := by
  unfold DStarLite.prep_state
  have hB : ∀ stA : DState, stA.goal = goal →
      sgOf (DStarLite.initStep (if stA.start ≠ start then
        DStarLite.startMovePrologue grid obstacles stA start else stA)) = (start, goal) := by
    intro stA hg
    rw [initStep_sg]
    split
    · rw [startMovePrologue_sg, hg]
    · rename_i hs
      rw [not_ne_iff] at hs
      rw [sgOf, hs, hg]
  dsimp only
  set stA := if st0.goal ≠ goal then DStarLite.new start goal else st0 with hA
  have hAg : stA.goal = goal := by
    rw [hA]
    split
    · rfl
    · rename_i hg
      rw [not_ne_iff] at hg
      exact hg
  by_cases hc : DStarLite.check_obstacles_changed obstacles = true
  · rw [if_pos hc, DStarLite.update_changed_obstacles, foldl_update_vertex_sg]
    exact hB stA hAg
  · rw [if_neg hc]
    exact hB stA hAg

/-- Every parent edge the BFS records joins a node to one of its
filtered successors. -/
theorem bfsLoop_parents_ok (grid : Grid) (obstacles : List Position) (goal : Position) :
    ∀ (fuel : Nat) (queue : List Position) (parents : List (Position × Position))
      (visited : List Position) (res : List (Position × Position)),
      bfsLoop grid obstacles goal fuel queue parents visited = some res →
      (∀ e ∈ parents, e.1 ∈ astarSuccessors grid obstacles e.2) →
      ∀ e ∈ res, e.1 ∈ astarSuccessors grid obstacles e.2 := by
  intro fuel
  induction fuel with
  | zero => intro queue parents visited res h _; simp [bfsLoop] at h
  | succ n ih =>
    intro queue parents visited res h hp
    cases queue with
    | nil => simp [bfsLoop] at h
    | cons c rest =>
      rw [bfsLoop] at h
      split at h
      · rw [Option.some.injEq] at h
        exact h ▸ hp
      · refine ih _ _ _ res h ?_
        intro e he
        rcases List.mem_append.mp he with he | he
        · exact hp e he
        · rw [List.mem_map] at he
          obtain ⟨n1, hn1, he1⟩ := he
          rw [← he1]
          exact (List.mem_filter.mp hn1).1

/-- Invariant carried through the A* model's path rebuilding: walking
parent edges from the goal yields a start-headed, adjacency-chained
path whose cells after the head are traversable. -/
theorem rebuildPath_valid (grid : Grid) (obstacles : List Position)
    (parents : List (Position × Position)) (start : Position)
    (hp : ∀ e ∈ parents, e.1 ∈ astarSuccessors grid obstacles e.2) :
    ∀ (fuel : Nat) (cur : Position) (acc res : List Position),
      rebuildPath parents start fuel cur acc = some res →
      List.Chain' adjacent (cur :: acc) →
      (∀ q ∈ acc, traversableCell grid obstacles q) →
      res.head? = some start ∧ res.getLast? = (cur :: acc).getLast? ∧
        List.Chain' adjacent res ∧ ∀ q ∈ res.drop 1, traversableCell grid obstacles q := by
  intro fuel
  induction fuel with
  | zero => intro cur acc res h _ _; exact Option.noConfusion h
  | succ n ih =>
    intro cur acc res h hchain hok
    rw [rebuildPath] at h
    split at h
    · rename_i hcur
      rw [Option.some.injEq] at h
      subst h
      exact ⟨by rw [hcur]; rfl, rfl, hchain,
        by rw [List.drop_one, List.tail_cons]; exact hok⟩
    · split at h
      · rename_i par hpar
        have hedge : (cur, par) ∈ parents := by
          unfold lookupParent at hpar
          cases hf : parents.find? (fun e => e.1 = cur) with
          | none => rw [hf] at hpar; exact Option.noConfusion hpar
          | some e =>
            rw [hf] at hpar
            rw [Option.map_some', Option.some.injEq] at hpar
            have hmem := List.mem_of_find?_eq_some hf
            have hfst := List.find?_some hf
            rw [decide_eq_true_iff] at hfst
            have : e = (cur, par) := by
              cases e with
              | mk e1 e2 =>
                dsimp only at hfst hpar
                rw [hfst, hpar]
            exact this ▸ hmem
        have hsucc := hp (cur, par) hedge
        have hmemN : cur ∈ getNeighbors grid par := (List.mem_filter.mp hsucc).1
        have hprops := (List.mem_filter.mp hsucc).2
        rw [decide_eq_true_iff] at hprops
        have hadj := (mem_getNeighbors hmemN).1
        have hrec := ih par (cur :: acc) res h
          (List.Chain'.cons hadj hchain)
          (by
            intro q hq
            rcases List.mem_cons.mp hq with hq | hq
            · exact hq ▸ ⟨hprops.1, hprops.2⟩
            · exact hok q hq)
        refine ⟨hrec.1, ?_, hrec.2.2.1, hrec.2.2.2⟩
        rw [hrec.2.1, List.getLast?_cons_cons]
      · exact Option.noConfusion h

/-- Every path the modelled A*::find_path returns is valid in the C1
sense as soon as the start cell is not a Wall. -/
theorem astar_find_path_valid {grid : Grid} {start goal : Position}
    {obstacles : List Position} {res : List Position}
    (h : astar_find_path grid start goal obstacles = some res) :
    res.head? = some start ∧ res.getLast? = some goal ∧
      List.Chain' adjacent res ∧ ∀ q ∈ res.drop 1, traversableCell grid obstacles q := by
  unfold astar_find_path at h
  split at h
  · exact Option.noConfusion h
  · rename_i parents hbfs
    have hp := bfsLoop_parents_ok grid obstacles goal (grid.size * grid.size + 2)
      [start] [] [start] parents hbfs (by intro e he; simp at he)
    have := rebuildPath_valid grid obstacles parents start hp
      (grid.size * grid.size + 2) goal [] res h (List.chain'_singleton goal)
      (by intro q hq; simp at hq)
    exact ⟨this.1, by rw [this.2.1]; rfl, this.2.2.1, this.2.2.2⟩

/-- Invariant carried through DStarLiteSimple::find_path's extraction
loop, as for the full engine. -/
theorem simple_extractLoop_valid (grid : Grid) (obstacles : List Position)
    (goal : Position) (s : SSearch) :
    ∀ (fuel : Nat) (current : Position) (path res : List Position),
      SimpleDStar.extractLoop grid obstacles goal s fuel current path = some res →
      path.getLast? = some current →
      List.Chain' adjacent path →
      (∀ q ∈ path.drop 1, traversableCell grid obstacles q) →
      res.head? = path.head? ∧ res.getLast? = some goal ∧
        List.Chain' adjacent res ∧ ∀ q ∈ res.drop 1, traversableCell grid obstacles q := by
  intro fuel
  induction fuel with
  | zero => intro current path res h; exact fun _ _ _ => Option.noConfusion h
  | succ n ih =>
    intro current path res h hlast hchain hok
    have hne : path ≠ [] := by
      intro hnil
      rw [hnil] at hlast
      exact Option.noConfusion hlast
    rw [SimpleDStar.extractLoop] at h
    split at h
    · rename_i hg
      rw [Option.some.injEq] at h
      subst h
      exact ⟨rfl, hg ▸ hlast, hchain, hok⟩
    · dsimp only at h
      split at h
      · rename_i nextPos heq
        have hmem : nextPos ∈ (getNeighbors grid current).filter
            (fun n => decide (SimpleDStar.cost grid obstacles n ≠ INF)) :=
          minByFirst_mem heq
        rw [List.mem_filter, decide_eq_true_iff] at hmem
        have hadj := mem_getNeighbors hmem.1
        have htrav := cost_ne_INF hmem.2
        split at h
        · exact Option.noConfusion h
        · have hrec := ih nextPos (path ++ [nextPos]) res h
            (by rw [List.getLast?_concat])
            (by
              rw [List.chain'_append]
              refine ⟨hchain, List.chain'_singleton nextPos, ?_⟩
              intro x hx y hy
              rw [hlast, Option.mem_def, Option.some.injEq] at hx
              simp only [List.head?_cons, Option.mem_def, Option.some.injEq] at hy
              exact hx ▸ hy ▸ hadj.1)
            (by
              intro q hq
              rw [List.drop_append_of_le_length (by
                cases path with
                | nil => exact absurd rfl hne
                | cons a t => simp)] at hq
              rcases List.mem_append.mp hq with hq | hq
              · exact hok q hq
              · rw [List.mem_singleton] at hq
                exact hq ▸ htrav)
          refine ⟨?_, hrec.2.1, hrec.2.2.1, hrec.2.2.2⟩
          rw [hrec.1]
          cases path with
          | nil => exact absurd rfl hne
          | cons a t => simp
      · exact Option.noConfusion h

/-- Assemble the C1 property from head-chain-tail facts. -/
theorem pathValid_of_parts {grid : Grid} {obstacles : List Position}
    {start goal : Position} {res : List Position}
    (hW : cellAt grid start ≠ Cell.Wall)
    (h1 : res.head? = some start) (h2 : res.getLast? = some goal)
    (h3 : List.Chain' adjacent res)
    (h4 : ∀ q ∈ res.drop 1, traversableCell grid obstacles q) :
    pathValid grid obstacles start goal res := by
  refine ⟨h1, h2, h3, ?_, ?_⟩
  · intro q hq
    cases res with
    | nil => exact absurd hq (List.not_mem_nil q)
    | cons a t =>
      rw [List.head?_cons, Option.some.injEq] at h1
      rcases List.mem_cons.mp hq with hq | hq
      · exact hq ▸ h1 ▸ hW
      · exact (h4 q (by rw [List.drop_one, List.tail_cons]; exact hq)).1
  · intro q hq
    exact (h4 q (List.dropLast_subset _ hq)).2

/-- C1: every path any of the three engines returns starts at the
requested start, ends at the requested goal, moves by single-coordinate
unit steps, avoids Wall cells (given that the queried start cell itself
is not a Wall), and its interior avoids the supplied obstacle set. -/
theorem c1_find_path_valid (grid : Grid) (st0 : DState) (sst0 : SState)
    (start goal : Position) (obstacles : List Position) (p : List Position)
    (hW : cellAt grid start ≠ Cell.Wall) :
    (astar_find_path grid start goal obstacles = some p →
      pathValid grid obstacles start goal p) ∧
    ((DStarLite.find_path grid st0 start goal obstacles).1 = some p →
      pathValid grid obstacles start goal p) ∧
    ((SimpleDStar.find_path grid sst0 start goal obstacles).1 = some p →
      pathValid grid obstacles start goal p) := by
  refine ⟨?_, ?_, ?_⟩
  · intro h
    have hv := astar_find_path_valid h
    exact pathValid_of_parts hW hv.1 hv.2.1 hv.2.2.1 hv.2.2.2
  · intro h
    rw [dstar_find_path_fst] at h
    have hv := dstar_extract_path_valid h
    have hsg : sgOf (DStarLite.compute_shortest_path grid obstacles
        (DStarLite.prep_state grid st0 start goal obstacles)) = (start, goal) := by
      rw [csp_loop, computeLoop_sg, prep_state_sg]
    have hs : (DStarLite.compute_shortest_path grid obstacles
        (DStarLite.prep_state grid st0 start goal obstacles)).start = start :=
      congrArg Prod.fst hsg
    have hg : (DStarLite.compute_shortest_path grid obstacles
        (DStarLite.prep_state grid st0 start goal obstacles)).goal = goal :=
      congrArg Prod.snd hsg
    rw [hs] at hv
    rw [hg] at hv
    exact pathValid_of_parts hW hv.1 hv.2.1 hv.2.2.1 hv.2.2.2
  · intro h
    unfold SimpleDStar.find_path at h
    dsimp only at h
    split at h
    · exact Option.noConfusion h
    · dsimp only at h
      have hv := simple_extractLoop_valid grid obstacles goal
        (SimpleDStar.runSearch grid obstacles start goal
          (SimpleDStar.prologue sst0 start goal).k_m)
        (grid.size * grid.size + 3) start [start] p h (by simp)
        (List.chain'_singleton start) (by intro q hq; simp at hq)
      exact pathValid_of_parts hW (by rw [hv.1]; rfl) hv.2.1 hv.2.2.1 hv.2.2.2

/-- Concrete instance of C1 on a 2 x 2 empty grid with the A* engine. -/
theorem c1_find_path_valid_witness :
    cellAt g2e ⟨0, 0⟩ ≠ Cell.Wall ∧
      astar_find_path g2e ⟨0, 0⟩ ⟨1, 1⟩ [] = some [⟨0, 0⟩, ⟨0, 1⟩, ⟨1, 1⟩] ∧
      pathValid g2e [] ⟨0, 0⟩ ⟨1, 1⟩ [⟨0, 0⟩, ⟨0, 1⟩, ⟨1, 1⟩] :=
  ⟨by decide, by decide,
    (c1_find_path_valid g2e (DStarLite.new ⟨0, 0⟩ ⟨1, 1⟩) SimpleDStar.newState
      ⟨0, 0⟩ ⟨1, 1⟩ [] [⟨0, 0⟩, ⟨0, 1⟩, ⟨1, 1⟩] (by decide)).1 (by decide)⟩


/-! ## C2: D* Lite versus A* equivalence -/

/-- The C2 grid: 4 x 4 with a Wall at (2,2). -/
def c2Grid : Grid :=
  { size := 4
    cells := [[Cell.Empty, Cell.Empty, Cell.Empty, Cell.Empty],
              [Cell.Empty, Cell.Empty, Cell.Empty, Cell.Empty],
              [Cell.Empty, Cell.Empty, Cell.Wall, Cell.Empty],
              [Cell.Empty, Cell.Empty, Cell.Empty, Cell.Empty]]
    start := ⟨3, 3⟩
    goal := ⟨3, 0⟩ }

/-- The C2 obstacle set. -/
def c2Obst : List Position := [⟨3, 1⟩]

/-- A fresh C2 engine state. -/
def c2D0 : DState := DStarLite.new ⟨3, 3⟩ ⟨3, 0⟩

/-- The A* result on the C2 scenario. -/
def c2PA : List Position :=
  [⟨3, 3⟩, ⟨2, 3⟩, ⟨1, 3⟩, ⟨1, 2⟩, ⟨1, 1⟩, ⟨1, 0⟩, ⟨2, 0⟩, ⟨3, 0⟩]

def c2L0 : DState :=
  { g_scores := [],
    rhs_scores := [({ x := 3, y := 0 }, 0),
                   ({ x := 3, y := 1 }, 2147483647),
                   ({ x := 3, y := 2 }, 2147483647),
                   ({ x := 2, y := 1 }, 2147483647),
                   ({ x := 3, y := 3 }, 2147483647),
                   ({ x := 2, y := 3 }, 2147483647)],
    queue := [({ k1 := 3, k2 := 0 }, { x := 3, y := 0 })],
    k_m := 0,
    start := { x := 3, y := 3 },
    goal := { x := 3, y := 0 },
    last_start := { x := 3, y := 3 },
    initial_computation_done := true }

def c2L1 : DState :=
  { g_scores := [({ x := 3, y := 0 }, 0)],
    rhs_scores := [({ x := 3, y := 0 }, 0),
                   ({ x := 3, y := 1 }, 2147483647),
                   ({ x := 3, y := 2 }, 2147483647),
                   ({ x := 2, y := 1 }, 2147483647),
                   ({ x := 3, y := 3 }, 2147483647),
                   ({ x := 2, y := 3 }, 2147483647),
                   ({ x := 2, y := 0 }, 1)],
    queue := [({ k1 := 5, k2 := 1 }, { x := 2, y := 0 })],
    k_m := 0,
    start := { x := 3, y := 3 },
    goal := { x := 3, y := 0 },
    last_start := { x := 3, y := 3 },
    initial_computation_done := true }

def c2L2 : DState :=
  { g_scores := [({ x := 3, y := 0 }, 0), ({ x := 2, y := 0 }, 1)],
    rhs_scores := [({ x := 3, y := 0 }, 0),
                   ({ x := 3, y := 1 }, 2147483647),
                   ({ x := 3, y := 2 }, 2147483647),
                   ({ x := 2, y := 1 }, 2),
                   ({ x := 3, y := 3 }, 2147483647),
                   ({ x := 2, y := 3 }, 2147483647),
                   ({ x := 2, y := 0 }, 1),
                   ({ x := 1, y := 0 }, 2)],
    queue := [({ k1 := 7, k2 := 2 }, { x := 1, y := 0 }), ({ k1 := 5, k2 := 2 }, { x := 2, y := 1 })],
    k_m := 0,
    start := { x := 3, y := 3 },
    goal := { x := 3, y := 0 },
    last_start := { x := 3, y := 3 },
    initial_computation_done := true }

def c2L3 : DState :=
  { g_scores := [({ x := 3, y := 0 }, 0), ({ x := 2, y := 0 }, 1), ({ x := 2, y := 1 }, 2)],
    rhs_scores := [({ x := 3, y := 0 }, 0),
                   ({ x := 3, y := 1 }, 2147483647),
                   ({ x := 3, y := 2 }, 2147483647),
                   ({ x := 2, y := 1 }, 2),
                   ({ x := 3, y := 3 }, 2147483647),
                   ({ x := 2, y := 3 }, 2147483647),
                   ({ x := 2, y := 0 }, 1),
                   ({ x := 1, y := 0 }, 2),
                   ({ x := 1, y := 1 }, 3)],
    queue := [({ k1 := 7, k2 := 3 }, { x := 1, y := 1 }), ({ k1 := 7, k2 := 2 }, { x := 1, y := 0 })],
    k_m := 0,
    start := { x := 3, y := 3 },
    goal := { x := 3, y := 0 },
    last_start := { x := 3, y := 3 },
    initial_computation_done := true }

def c2L4 : DState :=
  { g_scores := [({ x := 3, y := 0 }, 0), ({ x := 2, y := 0 }, 1), ({ x := 2, y := 1 }, 2), ({ x := 1, y := 0 }, 2)],
    rhs_scores := [({ x := 3, y := 0 }, 0),
                   ({ x := 3, y := 1 }, 2147483647),
                   ({ x := 3, y := 2 }, 2147483647),
                   ({ x := 2, y := 1 }, 2),
                   ({ x := 3, y := 3 }, 2147483647),
                   ({ x := 2, y := 3 }, 2147483647),
                   ({ x := 2, y := 0 }, 1),
                   ({ x := 1, y := 0 }, 2),
                   ({ x := 1, y := 1 }, 3),
                   ({ x := 0, y := 0 }, 3)],
    queue := [({ k1 := 9, k2 := 3 }, { x := 0, y := 0 }), ({ k1 := 7, k2 := 3 }, { x := 1, y := 1 })],
    k_m := 0,
    start := { x := 3, y := 3 },
    goal := { x := 3, y := 0 },
    last_start := { x := 3, y := 3 },
    initial_computation_done := true }

def c2L5 : DState :=
  { g_scores := [({ x := 3, y := 0 }, 0),
                 ({ x := 2, y := 0 }, 1),
                 ({ x := 2, y := 1 }, 2),
                 ({ x := 1, y := 0 }, 2),
                 ({ x := 1, y := 1 }, 3)],
    rhs_scores := [({ x := 3, y := 0 }, 0),
                   ({ x := 3, y := 1 }, 2147483647),
                   ({ x := 3, y := 2 }, 2147483647),
                   ({ x := 2, y := 1 }, 2),
                   ({ x := 3, y := 3 }, 2147483647),
                   ({ x := 2, y := 3 }, 2147483647),
                   ({ x := 2, y := 0 }, 1),
                   ({ x := 1, y := 0 }, 2),
                   ({ x := 1, y := 1 }, 3),
                   ({ x := 0, y := 0 }, 3),
                   ({ x := 1, y := 2 }, 4),
                   ({ x := 0, y := 1 }, 4)],
    queue := [({ k1 := 9, k2 := 4 }, { x := 0, y := 1 }),
              ({ k1 := 7, k2 := 4 }, { x := 1, y := 2 }),
              ({ k1 := 9, k2 := 3 }, { x := 0, y := 0 })],
    k_m := 0,
    start := { x := 3, y := 3 },
    goal := { x := 3, y := 0 },
    last_start := { x := 3, y := 3 },
    initial_computation_done := true }

def c2L6 : DState :=
  { g_scores := [({ x := 3, y := 0 }, 0),
                 ({ x := 2, y := 0 }, 1),
                 ({ x := 2, y := 1 }, 2),
                 ({ x := 1, y := 0 }, 2),
                 ({ x := 1, y := 1 }, 3),
                 ({ x := 1, y := 2 }, 4)],
    rhs_scores := [({ x := 3, y := 0 }, 0),
                   ({ x := 3, y := 1 }, 2147483647),
                   ({ x := 3, y := 2 }, 2147483647),
                   ({ x := 2, y := 1 }, 2),
                   ({ x := 3, y := 3 }, 2147483647),
                   ({ x := 2, y := 3 }, 2147483647),
                   ({ x := 2, y := 0 }, 1),
                   ({ x := 1, y := 0 }, 2),
                   ({ x := 1, y := 1 }, 3),
                   ({ x := 0, y := 0 }, 3),
                   ({ x := 1, y := 2 }, 4),
                   ({ x := 0, y := 1 }, 4),
                   ({ x := 1, y := 3 }, 5),
                   ({ x := 0, y := 2 }, 5)],
    queue := [({ k1 := 9, k2 := 5 }, { x := 0, y := 2 }),
              ({ k1 := 7, k2 := 5 }, { x := 1, y := 3 }),
              ({ k1 := 9, k2 := 4 }, { x := 0, y := 1 }),
              ({ k1 := 9, k2 := 3 }, { x := 0, y := 0 })],
    k_m := 0,
    start := { x := 3, y := 3 },
    goal := { x := 3, y := 0 },
    last_start := { x := 3, y := 3 },
    initial_computation_done := true }

def c2L7 : DState :=
  { g_scores := [({ x := 3, y := 0 }, 0),
                 ({ x := 2, y := 0 }, 1),
                 ({ x := 2, y := 1 }, 2),
                 ({ x := 1, y := 0 }, 2),
                 ({ x := 1, y := 1 }, 3),
                 ({ x := 1, y := 2 }, 4),
                 ({ x := 1, y := 3 }, 5)],
    rhs_scores := [({ x := 3, y := 0 }, 0),
                   ({ x := 3, y := 1 }, 2147483647),
                   ({ x := 3, y := 2 }, 2147483647),
                   ({ x := 2, y := 1 }, 2),
                   ({ x := 3, y := 3 }, 2147483647),
                   ({ x := 2, y := 3 }, 6),
                   ({ x := 2, y := 0 }, 1),
                   ({ x := 1, y := 0 }, 2),
                   ({ x := 1, y := 1 }, 3),
                   ({ x := 0, y := 0 }, 3),
                   ({ x := 1, y := 2 }, 4),
                   ({ x := 0, y := 1 }, 4),
                   ({ x := 1, y := 3 }, 5),
                   ({ x := 0, y := 2 }, 5),
                   ({ x := 0, y := 3 }, 6)],
    queue := [({ k1 := 9, k2 := 6 }, { x := 0, y := 3 }),
              ({ k1 := 7, k2 := 6 }, { x := 2, y := 3 }),
              ({ k1 := 9, k2 := 5 }, { x := 0, y := 2 }),
              ({ k1 := 9, k2 := 4 }, { x := 0, y := 1 }),
              ({ k1 := 9, k2 := 3 }, { x := 0, y := 0 })],
    k_m := 0,
    start := { x := 3, y := 3 },
    goal := { x := 3, y := 0 },
    last_start := { x := 3, y := 3 },
    initial_computation_done := true }

def c2L8 : DState :=
  { g_scores := [({ x := 3, y := 0 }, 0),
                 ({ x := 2, y := 0 }, 1),
                 ({ x := 2, y := 1 }, 2),
                 ({ x := 1, y := 0 }, 2),
                 ({ x := 1, y := 1 }, 3),
                 ({ x := 1, y := 2 }, 4),
                 ({ x := 1, y := 3 }, 5),
                 ({ x := 2, y := 3 }, 6)],
    rhs_scores := [({ x := 3, y := 0 }, 0),
                   ({ x := 3, y := 1 }, 2147483647),
                   ({ x := 3, y := 2 }, 2147483647),
                   ({ x := 2, y := 1 }, 2),
                   ({ x := 3, y := 3 }, 7),
                   ({ x := 2, y := 3 }, 6),
                   ({ x := 2, y := 0 }, 1),
                   ({ x := 1, y := 0 }, 2),
                   ({ x := 1, y := 1 }, 3),
                   ({ x := 0, y := 0 }, 3),
                   ({ x := 1, y := 2 }, 4),
                   ({ x := 0, y := 1 }, 4),
                   ({ x := 1, y := 3 }, 5),
                   ({ x := 0, y := 2 }, 5),
                   ({ x := 0, y := 3 }, 6)],
    queue := [({ k1 := 7, k2 := 7 }, { x := 3, y := 3 }),
              ({ k1 := 9, k2 := 6 }, { x := 0, y := 3 }),
              ({ k1 := 9, k2 := 5 }, { x := 0, y := 2 }),
              ({ k1 := 9, k2 := 4 }, { x := 0, y := 1 }),
              ({ k1 := 9, k2 := 3 }, { x := 0, y := 0 })],
    k_m := 0,
    start := { x := 3, y := 3 },
    goal := { x := 3, y := 0 },
    last_start := { x := 3, y := 3 },
    initial_computation_done := true }

def c2L9 : DState :=
  { g_scores := [({ x := 3, y := 0 }, 0),
                 ({ x := 2, y := 0 }, 1),
                 ({ x := 2, y := 1 }, 2),
                 ({ x := 1, y := 0 }, 2),
                 ({ x := 1, y := 1 }, 3),
                 ({ x := 1, y := 2 }, 4),
                 ({ x := 1, y := 3 }, 5),
                 ({ x := 2, y := 3 }, 6),
                 ({ x := 3, y := 3 }, 7)],
    rhs_scores := [({ x := 3, y := 0 }, 0),
                   ({ x := 3, y := 1 }, 2147483647),
                   ({ x := 3, y := 2 }, 8),
                   ({ x := 2, y := 1 }, 2),
                   ({ x := 3, y := 3 }, 7),
                   ({ x := 2, y := 3 }, 6),
                   ({ x := 2, y := 0 }, 1),
                   ({ x := 1, y := 0 }, 2),
                   ({ x := 1, y := 1 }, 3),
                   ({ x := 0, y := 0 }, 3),
                   ({ x := 1, y := 2 }, 4),
                   ({ x := 0, y := 1 }, 4),
                   ({ x := 1, y := 3 }, 5),
                   ({ x := 0, y := 2 }, 5),
                   ({ x := 0, y := 3 }, 6)],
    queue := [({ k1 := 9, k2 := 8 }, { x := 3, y := 2 }),
              ({ k1 := 9, k2 := 6 }, { x := 0, y := 3 }),
              ({ k1 := 9, k2 := 5 }, { x := 0, y := 2 }),
              ({ k1 := 9, k2 := 4 }, { x := 0, y := 1 }),
              ({ k1 := 9, k2 := 3 }, { x := 0, y := 0 })],
    k_m := 0,
    start := { x := 3, y := 3 },
    goal := { x := 3, y := 0 },
    last_start := { x := 3, y := 3 },
    initial_computation_done := true }

def c2L10 : DState :=
  { g_scores := [({ x := 3, y := 0 }, 0),
                 ({ x := 2, y := 0 }, 1),
                 ({ x := 2, y := 1 }, 2),
                 ({ x := 1, y := 0 }, 2),
                 ({ x := 1, y := 1 }, 3),
                 ({ x := 1, y := 2 }, 4),
                 ({ x := 1, y := 3 }, 5),
                 ({ x := 2, y := 3 }, 6),
                 ({ x := 3, y := 3 }, 7),
                 ({ x := 0, y := 0 }, 3)],
    rhs_scores := [({ x := 3, y := 0 }, 0),
                   ({ x := 3, y := 1 }, 2147483647),
                   ({ x := 3, y := 2 }, 8),
                   ({ x := 2, y := 1 }, 2),
                   ({ x := 3, y := 3 }, 7),
                   ({ x := 2, y := 3 }, 6),
                   ({ x := 2, y := 0 }, 1),
                   ({ x := 1, y := 0 }, 2),
                   ({ x := 1, y := 1 }, 3),
                   ({ x := 0, y := 0 }, 3),
                   ({ x := 1, y := 2 }, 4),
                   ({ x := 0, y := 1 }, 4),
                   ({ x := 1, y := 3 }, 5),
                   ({ x := 0, y := 2 }, 5),
                   ({ x := 0, y := 3 }, 6)],
    queue := [({ k1 := 9, k2 := 4 }, { x := 0, y := 1 }),
              ({ k1 := 9, k2 := 8 }, { x := 3, y := 2 }),
              ({ k1 := 9, k2 := 6 }, { x := 0, y := 3 }),
              ({ k1 := 9, k2 := 5 }, { x := 0, y := 2 })],
    k_m := 0,
    start := { x := 3, y := 3 },
    goal := { x := 3, y := 0 },
    last_start := { x := 3, y := 3 },
    initial_computation_done := true }

def c2L11 : DState :=
  { g_scores := [({ x := 3, y := 0 }, 0),
                 ({ x := 2, y := 0 }, 1),
                 ({ x := 2, y := 1 }, 2),
                 ({ x := 1, y := 0 }, 2),
                 ({ x := 1, y := 1 }, 3),
                 ({ x := 1, y := 2 }, 4),
                 ({ x := 1, y := 3 }, 5),
                 ({ x := 2, y := 3 }, 6),
                 ({ x := 3, y := 3 }, 7),
                 ({ x := 0, y := 0 }, 3),
                 ({ x := 0, y := 1 }, 4)],
    rhs_scores := [({ x := 3, y := 0 }, 0),
                   ({ x := 3, y := 1 }, 2147483647),
                   ({ x := 3, y := 2 }, 8),
                   ({ x := 2, y := 1 }, 2),
                   ({ x := 3, y := 3 }, 7),
                   ({ x := 2, y := 3 }, 6),
                   ({ x := 2, y := 0 }, 1),
                   ({ x := 1, y := 0 }, 2),
                   ({ x := 1, y := 1 }, 3),
                   ({ x := 0, y := 0 }, 3),
                   ({ x := 1, y := 2 }, 4),
                   ({ x := 0, y := 1 }, 4),
                   ({ x := 1, y := 3 }, 5),
                   ({ x := 0, y := 2 }, 5),
                   ({ x := 0, y := 3 }, 6)],
    queue := [({ k1 := 9, k2 := 5 }, { x := 0, y := 2 }),
              ({ k1 := 9, k2 := 8 }, { x := 3, y := 2 }),
              ({ k1 := 9, k2 := 6 }, { x := 0, y := 3 })],
    k_m := 0,
    start := { x := 3, y := 3 },
    goal := { x := 3, y := 0 },
    last_start := { x := 3, y := 3 },
    initial_computation_done := true }

def c2L12 : DState :=
  { g_scores := [({ x := 3, y := 0 }, 0),
                 ({ x := 2, y := 0 }, 1),
                 ({ x := 2, y := 1 }, 2),
                 ({ x := 1, y := 0 }, 2),
                 ({ x := 1, y := 1 }, 3),
                 ({ x := 1, y := 2 }, 4),
                 ({ x := 1, y := 3 }, 5),
                 ({ x := 2, y := 3 }, 6),
                 ({ x := 3, y := 3 }, 7),
                 ({ x := 0, y := 0 }, 3),
                 ({ x := 0, y := 1 }, 4),
                 ({ x := 0, y := 2 }, 5)],
    rhs_scores := [({ x := 3, y := 0 }, 0),
                   ({ x := 3, y := 1 }, 2147483647),
                   ({ x := 3, y := 2 }, 8),
                   ({ x := 2, y := 1 }, 2),
                   ({ x := 3, y := 3 }, 7),
                   ({ x := 2, y := 3 }, 6),
                   ({ x := 2, y := 0 }, 1),
                   ({ x := 1, y := 0 }, 2),
                   ({ x := 1, y := 1 }, 3),
                   ({ x := 0, y := 0 }, 3),
                   ({ x := 1, y := 2 }, 4),
                   ({ x := 0, y := 1 }, 4),
                   ({ x := 1, y := 3 }, 5),
                   ({ x := 0, y := 2 }, 5),
                   ({ x := 0, y := 3 }, 6)],
    queue := [({ k1 := 9, k2 := 6 }, { x := 0, y := 3 }), ({ k1 := 9, k2 := 8 }, { x := 3, y := 2 })],
    k_m := 0,
    start := { x := 3, y := 3 },
    goal := { x := 3, y := 0 },
    last_start := { x := 3, y := 3 },
    initial_computation_done := true }

def c2L13 : DState :=
  { g_scores := [({ x := 3, y := 0 }, 0),
                 ({ x := 2, y := 0 }, 1),
                 ({ x := 2, y := 1 }, 2),
                 ({ x := 1, y := 0 }, 2),
                 ({ x := 1, y := 1 }, 3),
                 ({ x := 1, y := 2 }, 4),
                 ({ x := 1, y := 3 }, 5),
                 ({ x := 2, y := 3 }, 6),
                 ({ x := 3, y := 3 }, 7),
                 ({ x := 0, y := 0 }, 3),
                 ({ x := 0, y := 1 }, 4),
                 ({ x := 0, y := 2 }, 5),
                 ({ x := 0, y := 3 }, 6)],
    rhs_scores := [({ x := 3, y := 0 }, 0),
                   ({ x := 3, y := 1 }, 2147483647),
                   ({ x := 3, y := 2 }, 8),
                   ({ x := 2, y := 1 }, 2),
                   ({ x := 3, y := 3 }, 7),
                   ({ x := 2, y := 3 }, 6),
                   ({ x := 2, y := 0 }, 1),
                   ({ x := 1, y := 0 }, 2),
                   ({ x := 1, y := 1 }, 3),
                   ({ x := 0, y := 0 }, 3),
                   ({ x := 1, y := 2 }, 4),
                   ({ x := 0, y := 1 }, 4),
                   ({ x := 1, y := 3 }, 5),
                   ({ x := 0, y := 2 }, 5),
                   ({ x := 0, y := 3 }, 6)],
    queue := [({ k1 := 9, k2 := 8 }, { x := 3, y := 2 })],
    k_m := 0,
    start := { x := 3, y := 3 },
    goal := { x := 3, y := 0 },
    last_start := { x := 3, y := 3 },
    initial_computation_done := true }

def c2L14 : DState :=
  { g_scores := [({ x := 3, y := 0 }, 0),
                 ({ x := 2, y := 0 }, 1),
                 ({ x := 2, y := 1 }, 2),
                 ({ x := 1, y := 0 }, 2),
                 ({ x := 1, y := 1 }, 3),
                 ({ x := 1, y := 2 }, 4),
                 ({ x := 1, y := 3 }, 5),
                 ({ x := 2, y := 3 }, 6),
                 ({ x := 3, y := 3 }, 7),
                 ({ x := 0, y := 0 }, 3),
                 ({ x := 0, y := 1 }, 4),
                 ({ x := 0, y := 2 }, 5),
                 ({ x := 0, y := 3 }, 6),
                 ({ x := 3, y := 2 }, 8)],
    rhs_scores := [({ x := 3, y := 0 }, 0),
                   ({ x := 3, y := 1 }, 2147483647),
                   ({ x := 3, y := 2 }, 8),
                   ({ x := 2, y := 1 }, 2),
                   ({ x := 3, y := 3 }, 7),
                   ({ x := 2, y := 3 }, 6),
                   ({ x := 2, y := 0 }, 1),
                   ({ x := 1, y := 0 }, 2),
                   ({ x := 1, y := 1 }, 3),
                   ({ x := 0, y := 0 }, 3),
                   ({ x := 1, y := 2 }, 4),
                   ({ x := 0, y := 1 }, 4),
                   ({ x := 1, y := 3 }, 5),
                   ({ x := 0, y := 2 }, 5),
                   ({ x := 0, y := 3 }, 6)],
    queue := [],
    k_m := 0,
    start := { x := 3, y := 3 },
    goal := { x := 3, y := 0 },
    last_start := { x := 3, y := 3 },
    initial_computation_done := true }

/-- C2 counterexample: on the 4 x 4 grid with a Wall at (2,2) and the
single obstacle (3,1), A* finds a path of length 8 from (3,3) to (3,0)
while a freshly constructed D* Lite engine returns none: its greedy
extraction walks into the dead-end pocket behind the wall (f = g +
manhattan-to-goal ties broken by the first minimum) and its alternative
step cannot escape.  So it is false that one engine returns none
exactly when the other does, and false that returned lengths always
agree. -/
theorem c2_counterexample :
    astar_find_path c2Grid ⟨3, 3⟩ ⟨3, 0⟩ c2Obst = some c2PA ∧
    c2PA.length = 8 ∧
    (DStarLite.find_path c2Grid c2D0 ⟨3, 3⟩ ⟨3, 0⟩ c2Obst).1 = none := by
  have hprep : DStarLite.prep_state c2Grid c2D0 ⟨3, 3⟩ ⟨3, 0⟩ c2Obst = c2L0 := by decide
  have t0 : DStarLite.computeLoop c2Grid c2Obst 64 c2L0
      = DStarLite.computeLoop c2Grid c2Obst 63 c2L1 :=
    computeLoop_step c2Grid c2Obst 63 c2L0 c2L1 (by decide) (by decide)
  have t1 : DStarLite.computeLoop c2Grid c2Obst 63 c2L1
      = DStarLite.computeLoop c2Grid c2Obst 62 c2L2 :=
    computeLoop_step c2Grid c2Obst 62 c2L1 c2L2 (by decide) (by decide)
  have t2 : DStarLite.computeLoop c2Grid c2Obst 62 c2L2
      = DStarLite.computeLoop c2Grid c2Obst 61 c2L3 :=
    computeLoop_step c2Grid c2Obst 61 c2L2 c2L3 (by decide) (by decide)
  have t3 : DStarLite.computeLoop c2Grid c2Obst 61 c2L3
      = DStarLite.computeLoop c2Grid c2Obst 60 c2L4 :=
    computeLoop_step c2Grid c2Obst 60 c2L3 c2L4 (by decide) (by decide)
  have t4 : DStarLite.computeLoop c2Grid c2Obst 60 c2L4
      = DStarLite.computeLoop c2Grid c2Obst 59 c2L5 :=
    computeLoop_step c2Grid c2Obst 59 c2L4 c2L5 (by decide) (by decide)
  have t5 : DStarLite.computeLoop c2Grid c2Obst 59 c2L5
      = DStarLite.computeLoop c2Grid c2Obst 58 c2L6 :=
    computeLoop_step c2Grid c2Obst 58 c2L5 c2L6 (by decide) (by decide)
  have t6 : DStarLite.computeLoop c2Grid c2Obst 58 c2L6
      = DStarLite.computeLoop c2Grid c2Obst 57 c2L7 :=
    computeLoop_step c2Grid c2Obst 57 c2L6 c2L7 (by decide) (by decide)
  have t7 : DStarLite.computeLoop c2Grid c2Obst 57 c2L7
      = DStarLite.computeLoop c2Grid c2Obst 56 c2L8 :=
    computeLoop_step c2Grid c2Obst 56 c2L7 c2L8 (by decide) (by decide)
  have t8 : DStarLite.computeLoop c2Grid c2Obst 56 c2L8
      = DStarLite.computeLoop c2Grid c2Obst 55 c2L9 :=
    computeLoop_step c2Grid c2Obst 55 c2L8 c2L9 (by decide) (by decide)
  have t9 : DStarLite.computeLoop c2Grid c2Obst 55 c2L9
      = DStarLite.computeLoop c2Grid c2Obst 54 c2L10 :=
    computeLoop_step c2Grid c2Obst 54 c2L9 c2L10 (by decide) (by decide)
  have t10 : DStarLite.computeLoop c2Grid c2Obst 54 c2L10
      = DStarLite.computeLoop c2Grid c2Obst 53 c2L11 :=
    computeLoop_step c2Grid c2Obst 53 c2L10 c2L11 (by decide) (by decide)
  have t11 : DStarLite.computeLoop c2Grid c2Obst 53 c2L11
      = DStarLite.computeLoop c2Grid c2Obst 52 c2L12 :=
    computeLoop_step c2Grid c2Obst 52 c2L11 c2L12 (by decide) (by decide)
  have t12 : DStarLite.computeLoop c2Grid c2Obst 52 c2L12
      = DStarLite.computeLoop c2Grid c2Obst 51 c2L13 :=
    computeLoop_step c2Grid c2Obst 51 c2L12 c2L13 (by decide) (by decide)
  have t13 : DStarLite.computeLoop c2Grid c2Obst 51 c2L13
      = DStarLite.computeLoop c2Grid c2Obst 50 c2L14 :=
    computeLoop_step c2Grid c2Obst 50 c2L13 c2L14 (by decide) (by decide)
  have tD : DStarLite.computeLoop c2Grid c2Obst 50 c2L14 = c2L14 :=
    computeLoop_done c2Grid c2Obst 50 c2L14 (by decide)
  have hx : DStarLite.extract_path c2Grid c2Obst c2L14 = none := by decide
  refine ⟨by decide, by decide, ?_⟩
  rw [dstar_find_path_fst, csp_loop, hprep]
  show DStarLite.extract_path c2Grid c2Obst
    (DStarLite.computeLoop c2Grid c2Obst 64 c2L0) = none
  rw [t0, t1, t2, t3, t4, t5, t6, t7, t8, t9, t10, t11, t12, t13, tD, hx]

/-- C2 amended: whenever A* and D* Lite both return a path for the same
valid query, both paths are valid in the C1 sense and share their
endpoints; the equal-length part and the none-agreement part of the
original claim are refuted by the counterexample. -/
theorem c2_both_paths_valid (grid : Grid) (st0 : DState) (start goal : Position)
    (obstacles : List Position) (pa pd : List Position)
    (hW : cellAt grid start ≠ Cell.Wall)
    (ha : astar_find_path grid start goal obstacles = some pa)
    (hd : (DStarLite.find_path grid st0 start goal obstacles).1 = some pd) :
    pathValid grid obstacles start goal pa ∧ pathValid grid obstacles start goal pd ∧
      pa.head? = pd.head? ∧ pa.getLast? = pd.getLast? := by
  have hva := astar_find_path_valid ha
  rw [dstar_find_path_fst] at hd
  have hvd := dstar_extract_path_valid hd
  have hsg : sgOf (DStarLite.compute_shortest_path grid obstacles
      (DStarLite.prep_state grid st0 start goal obstacles)) = (start, goal) := by
    rw [csp_loop, computeLoop_sg, prep_state_sg]
  have hs : (DStarLite.compute_shortest_path grid obstacles
      (DStarLite.prep_state grid st0 start goal obstacles)).start = start :=
    congrArg Prod.fst hsg
  have hg : (DStarLite.compute_shortest_path grid obstacles
      (DStarLite.prep_state grid st0 start goal obstacles)).goal = goal :=
    congrArg Prod.snd hsg
  rw [hs] at hvd
  rw [hg] at hvd
  refine ⟨pathValid_of_parts hW hva.1 hva.2.1 hva.2.2.1 hva.2.2.2,
    pathValid_of_parts hW hvd.1 hvd.2.1 hvd.2.2.1 hvd.2.2.2, ?_, ?_⟩
  · rw [hva.1, hvd.1]
  · rw [hva.2.1, hvd.2.1]

/-- Concrete instance of the C2 amended property: on the empty 2 x 2
grid both engines return the same two-step path. -/
theorem c2_both_paths_valid_witness :
    pathValid g2e [] ⟨0, 0⟩ ⟨1, 1⟩ [⟨0, 0⟩, ⟨0, 1⟩, ⟨1, 1⟩] ∧
      pathValid g2e [] ⟨0, 0⟩ ⟨1, 1⟩ [⟨0, 0⟩, ⟨0, 1⟩, ⟨1, 1⟩] ∧
      ([⟨0, 0⟩, ⟨0, 1⟩, ⟨1, 1⟩] : List Position).head?
        = ([⟨0, 0⟩, ⟨0, 1⟩, ⟨1, 1⟩] : List Position).head? ∧
      ([⟨0, 0⟩, ⟨0, 1⟩, ⟨1, 1⟩] : List Position).getLast?
        = ([⟨0, 0⟩, ⟨0, 1⟩, ⟨1, 1⟩] : List Position).getLast? :=
  c2_both_paths_valid g2e (DStarLite.new ⟨0, 0⟩ ⟨1, 1⟩) ⟨0, 0⟩ ⟨1, 1⟩ []
    [⟨0, 0⟩, ⟨0, 1⟩, ⟨1, 1⟩] [⟨0, 0⟩, ⟨0, 1⟩, ⟨1, 1⟩]
    (by decide) (by decide) (by decide)

/-! ## C10: known_obstacles never contains Wall positions -/

/-- The C10 invariant on a simulation state. -/
def wallFreeInv {σ : Type} (st : SimState σ) : Prop :=
  ∀ p ∈ st.agent.known_obstacles, cellAt st.grid p ≠ Cell.Wall

instance {σ : Type} (st : SimState σ) : Decidable (wallFreeInv st) := by
  unfold wallFreeInv
  infer_instance

/-- Agent::set_path never changes known_obstacles. -/
theorem set_path_known (a : AgentState) (path : List Position) :
    (Agent.set_path a path).known_obstacles = a.known_obstacles := by
  unfold Agent.set_path
  dsimp only
  split <;> rfl

/-- Writing a non-Wall value anywhere keeps a non-Wall cell non-Wall. -/
theorem writeCell_ne_wall {cs : List (List Cell)} {q p : Position} {v : Cell}
    (hv : v ≠ Cell.Wall)
    (hold : ((cs.getD p.x []).getD p.y Cell.Empty) ≠ Cell.Wall) :
    (((writeCell cs q v).getD p.x []).getD p.y Cell.Empty) ≠ Cell.Wall := by
  unfold writeCell
  simp only [List.getD_eq_getElem?_getD] at hold ⊢
  rw [List.getElem?_set]
  split_ifs with h1 h2
  · dsimp only [Option.getD_some]
    rw [List.getElem?_set]
    split_ifs with h3 h4
    · exact hv
    · rw [Option.getD_none]
      decide
    · rw [h1]
      exact hold
  · rw [Option.getD_none]
    simp
  · exact hold

/-- Writing a non-Wall value over a list of positions keeps a non-Wall
cell non-Wall. -/
theorem setCells_ne_wall {v : Cell} (hv : v ≠ Cell.Wall) (ps : List Position) :
    ∀ (cs : List (List Cell)) (p : Position),
      ((cs.getD p.x []).getD p.y Cell.Empty) ≠ Cell.Wall →
      (((setCells cs ps v).getD p.x []).getD p.y Cell.Empty) ≠ Cell.Wall := by
  induction ps with
  | nil => intro cs p h; exact h
  | cons a as ih =>
    intro cs p h
    exact ih (writeCell cs a v) p (writeCell_ne_wall hv h)

/-- Clearing any collection of obstacle groups keeps a non-Wall cell
non-Wall. -/
theorem clearGroups_ne_wall (groups : List (List Position × Nat)) :
    ∀ (cs : List (List Cell)) (p : Position),
      ((cs.getD p.x []).getD p.y Cell.Empty) ≠ Cell.Wall →
      (((groups.foldl (fun cs g => setCells cs g.1 Cell.Empty) cs).getD p.x []).getD
        p.y Cell.Empty) ≠ Cell.Wall := by
  induction groups with
  | nil => intro cs p h; exact h
  | cons a as ih =>
    intro cs p h
    exact ih (setCells cs a.1 Cell.Empty) p (setCells_ne_wall (by decide) a.1 cs p h)

/-- The timeline advance never makes a known obstacle a Wall: it only
writes Empty (expiry) and Obstacle (placement) cells and leaves
known_obstacles alone. -/
theorem update_obstacles_wallFree {σ : Type} {st : SimState σ} (h : wallFreeInv st) :
    wallFreeInv (Simulation.update_obstacles_from_timeline st).1 := by
  unfold Simulation.update_obstacles_from_timeline
  dsimp only
  split
  · split
    · intro p hp
      exact setCells_ne_wall (by decide) _ _ p
        (clearGroups_ne_wall _ _ p (h p hp))
    · intro p hp
      exact clearGroups_ne_wall _ _ p (h p hp)
  · intro p hp
    exact clearGroups_ne_wall _ _ p (h p hp)

/-- Observation only adds positions whose current cell is an Obstacle,
so it never adds a Wall position. -/
theorem observe_wallFree {grid : Grid} {a : AgentState}
    (h : ∀ p ∈ a.known_obstacles, cellAt grid p ≠ Cell.Wall) :
    ∀ p ∈ (Agent.observe grid a).known_obstacles, cellAt grid p ≠ Cell.Wall := by
  intro p hp
  unfold Agent.observe at hp
  dsimp only at hp
  rcases (observe_fold_mem grid _ _ p).mp hp with hp | hp
  · exact h p hp
  · rw [hp.2]
    decide

/-- The sensing phase preserves the C10 invariant. -/
theorem tickSense_wallFree {σ : Type} {st : SimState σ} (h : wallFreeInv st) :
    wallFreeInv (Simulation.tickSense st).1 := by
  unfold Simulation.tickSense
  dsimp only
  exact observe_wallFree (update_obstacles_wallFree h)

/-- The replanning phase preserves the C10 invariant: it never touches
the grid or known_obstacles. -/
theorem tickReplan_wallFree {σ : Type} (eng : Engine σ) (st : SimState σ) (chg : Bool)
    (h : wallFreeInv st) : wallFreeInv (Simulation.tickReplan eng st chg).1 := by
  unfold Simulation.tickReplan
  dsimp only
  split
  · split
    · intro p hp
      dsimp only at hp
      rw [set_path_known] at hp
      exact h p hp
    · split
      · exact h
      · exact h
  · exact h

/-- The movement phase preserves the C10 invariant. -/
theorem tickMove_wallFree {σ : Type} {st st' : SimState σ} (h : wallFreeInv st)
    (h2 : Simulation.tickMove st = Simulation.TickResult.cont st' ∨
      Simulation.tickMove st = Simulation.TickResult.halt st') : wallFreeInv st' := by
  unfold Simulation.tickMove at h2
  rcases h2 with h2 | h2 <;> split at h2
  · split at h2
    · rw [Simulation.TickResult.cont.injEq] at h2
      subst h2
      exact h
    · exact Simulation.TickResult.noConfusion h2
  · rw [Simulation.TickResult.cont.injEq] at h2
    subst h2
    exact h
  · split at h2
    · exact Simulation.TickResult.noConfusion h2
    · rw [Simulation.TickResult.halt.injEq] at h2
      subst h2
      split
      · exact h
      · exact h
  · exact Simulation.TickResult.noConfusion h2

/-- One simulation tick preserves the C10 invariant. -/
theorem simTick_wallFree {σ : Type} (eng : Engine σ) {st st' : SimState σ}
    (h : wallFreeInv st)
    (h2 : Simulation.simTick eng st = Simulation.TickResult.cont st' ∨
      Simulation.simTick eng st = Simulation.TickResult.halt st') : wallFreeInv st' := by
  have hrep : wallFreeInv
      (Simulation.tickReplan eng (Simulation.tickSense st).1
        (Simulation.tickSense st).2).1 :=
    tickReplan_wallFree eng _ _ (tickSense_wallFree h)
  unfold Simulation.simTick at h2
  dsimp only at h2
  split at h2
  · rcases h2 with h2 | h2
    · exact Simulation.TickResult.noConfusion h2
    · rw [Simulation.TickResult.halt.injEq] at h2
      exact h2 ▸ hrep
  · exact tickMove_wallFree hrep h2

/-- The capped main loop preserves the C10 invariant. -/
theorem runLoop_wallFree {σ : Type} (eng : Engine σ) :
    ∀ (fuel : Nat) (st : SimState σ), wallFreeInv st →
      wallFreeInv (Simulation.runLoop eng fuel st) := by
  intro fuel
  induction fuel with
  | zero => intro st h; exact h
  | succ n ih =>
    intro st h
    rw [Simulation.runLoop]
    split
    · exact h
    · split
      · rename_i st1 heq
        exact simTick_wallFree eng h (Or.inr heq)
      · rename_i st1 heq
        exact ih _ (simTick_wallFree eng h (Or.inl heq))

/-- The final cleanup preserves the C10 invariant. -/
theorem clear_all_wallFree {σ : Type} {st : SimState σ} (h : wallFreeInv st) :
    wallFreeInv (Simulation.clear_all_obstacles st) := by
  intro p hp
  exact clearGroups_ne_wall _ _ p (h p hp)

/-- C10: the agent's known_obstacles never holds a Wall position.  A
fresh agent knows no obstacles at all; every simulation tick preserves
the property (observe only inserts neighbors whose current cell is an
Obstacle, and the timeline only writes Empty and Obstacle cells); and a
whole Simulation::run started from any state satisfying it ends in a
state satisfying it. -/
theorem c10_known_obstacles_wall_free {σ : Type} (eng : Engine σ)
    (st0 st : SimState σ) (st' : SimState σ) (start : Position) :
    (st.agent = Agent.new start → wallFreeInv st) ∧
    (wallFreeInv st →
      (Simulation.simTick eng st = Simulation.TickResult.cont st' ∨
        Simulation.simTick eng st = Simulation.TickResult.halt st') → wallFreeInv st') ∧
    (wallFreeInv st0 → wallFreeInv (Simulation.runSim eng st0)) := by
  refine ⟨?_, ?_, ?_⟩
  · intro h p hp
    rw [h] at hp
    exact absurd hp (List.not_mem_nil p)
  · intro h h2
    exact simTick_wallFree eng h h2
  · intro h
    unfold Simulation.runSim
    dsimp only
    split
    · refine clear_all_wallFree (runLoop_wallFree eng _ _ ?_)
      intro p hp
      dsimp only at hp
      rw [set_path_known] at hp
      exact h p hp
    · exact fun p hp => h p hp

/-- Concrete instance of C10: the completed C8 run ends with a
Wall-free known_obstacles set. -/
theorem c10_known_obstacles_wall_free_witness :
    wallFreeInv (Simulation.runSim aStarEngine c8S0) :=
  (c10_known_obstacles_wall_free aStarEngine c8S0 c8S0 c8S0 ⟨0, 0⟩).2.2 (by decide)

end DynPath
